import Mathlib

/-!
# Embedded transport protocol: the packet engine of `multi_slaves/package.c`

A shallow embedding of the packet engine (one master polling several slaves
over a half-duplex link) and theorems about it.

Conventions of the embedding.

* Machine integers are natural numbers; every store into a `U8`, `U16` or `U32`
  object reduces modulo `2^8`, `2^16` or `2^32`, and every byte read from a
  buffer is reduced modulo `2^8`.
* A buffer is the array of `MAX_BUF_SIZE` bytes; a read at an offset outside the
  array (undefined in C) yields `0` in the model.
* `struct pack_header` is laid over a buffer with the x86 layout: no padding,
  little-endian 16-bit fields, `sizeof (struct pack_header) = 12`.
* `LOCAL_TIME()` is an input: each operation that may read the clock takes the
  clock reading `now` as an argument.  The target is the 32-bit `X86` branch of
  `package.h`, where `clock_t` is a 32-bit `long`, so that
  `LOCAL_TIME() - master_send_time_last` is computed in 32-bit unsigned
  arithmetic.
* The byte sink `send_bytes` is an output: each operation returns the list of
  calls it made, each call recorded with the callback, the count and the bytes
  `buf[0 .. count)`.
-/

namespace ETP

/-! ## Constants of `package.h` -/

/-- Maximum buffer size. -/
abbrev MAX_BUF_SIZE : Nat := 100

/-- The value of `sizeof (struct pack_header)`: 3 + 1 + 2 + 1 + 1 + 2 + 2. -/
abbrev HEADER_SIZE : Nat := 12

/-- Maximum size of the data part. -/
abbrev MAX_DATA_LEN : Nat := MAX_BUF_SIZE - HEADER_SIZE

/-- Premble byte, the character `-`. -/
abbrev PACK_PREMBLE : Nat := 45

/-- Start code, the character `>`. -/
abbrev PACK_START : Nat := 62

/-- The length for checksum computing before `data` in `struct pack_header`. -/
abbrev CHECKSUM_HEAD_LEN : Nat := 6

/-- Offset of `premble[0]` in `struct pack_header`. -/
abbrev OFF_PREMBLE : Nat := 0
/-- Offset of `start`. -/
abbrev OFF_START : Nat := 3
/-- Offset of `chksum`. -/
abbrev OFF_CHKSUM : Nat := 4
/-- Offset of `dest`. -/
abbrev OFF_DEST : Nat := 6
/-- Offset of `src`. -/
abbrev OFF_SRC : Nat := 7
/-- Offset of `seqno`. -/
abbrev OFF_SEQNO : Nat := 8
/-- Offset of `len`. -/
abbrev OFF_LEN : Nat := 10
/-- Offset of `data`. -/
abbrev OFF_DATA : Nat := 12

/-- Type of sent package. -/
inductive pack_send_type_list where
  | PACK_SEND_NEW
  | PACK_SEND_RETRY
  deriving DecidableEq, Repr

/-- Type of received package. -/
inductive pack_recv_type_list where
  | PACK_RECV_NEW
  | PACK_RECV_RETRY
  | PACK_RECV_PREMBLE_ERR
  | PACK_RECV_START_ERR
  | PACK_RECV_DEST_ERR
  | PACK_RECV_SRC_ERR
  | PACK_RECV_SEQNO_ERR
  | PACK_RECV_LEN_ERR
  | PACK_RECV_CHKSUM_ERR
  deriving DecidableEq, Repr

open pack_send_type_list pack_recv_type_list

/-- Statistics for sent and received packages: two arrays of `U32` indexed by
the two enumerations. -/
structure pack_count where
  send_pack_count : pack_send_type_list → Nat
  recv_pack_count : pack_recv_type_list → Nat

/-! ## Buffers -/

/-- A buffer of `MAX_BUF_SIZE` bytes. -/
abbrev Buf : Type := Fin MAX_BUF_SIZE → Nat

/-- Read of the `U8` at offset `i`. -/
def rd8 (b : Buf) (i : Nat) : Nat :=
  if h : i < MAX_BUF_SIZE then b ⟨i, h⟩ % 256 else 0

/-- Read of the little-endian `U16` at offset `i`. -/
def rd16 (b : Buf) (i : Nat) : Nat :=
  rd8 b i + 256 * rd8 b (i + 1)

/-- Store of a `U8` at offset `i`. -/
def wr8 (b : Buf) (i : Nat) (v : Nat) : Buf :=
  fun j => if j.val = i then v % 256 else b j

/-- Store of a little-endian `U16` at offset `i`. -/
def wr16 (b : Buf) (i : Nat) (v : Nat) : Buf :=
  wr8 (wr8 b i (v % 256)) (i + 1) (v / 256 % 256)

/-- The bytes `buf[0 .. count)`.  An offset past the end of the buffer reads as 0
here, whereas a sink given a count above `MAX_BUF_SIZE` would read the memory
after the array: the list is the span of the code for `count ≤ MAX_BUF_SIZE`
only. -/
def span (b : Buf) (count : Nat) : List Nat :=
  (List.range count).map (rd8 b)

/-- The buffer after `memset (buf, 0, sizeof (buf))`. -/
def zero_buf : Buf := fun _ => 0

/-- A buffer holding the bytes of a list from offset 0, zero after them. -/
def buf_of (l : List Nat) : Buf := fun j => l.getD j.val 0

/-! ## Engine state -/

/-- One call of the byte sink: the callback, its `count` argument and the
bytes `buf[0 .. count)` it is given. -/
structure SinkCall where
  func : Nat
  count : Nat
  bytes : List Nat
  deriving DecidableEq, Repr

/-- The static and global variables of `package.c`.  A callback is named by a
number, `0` being `NULL`. -/
structure State where
  send_buf : Buf
  recv_buf : Buf
  flag_is_master : Bool
  local_addr : Nat
  master_addr : Nat
  master_max_ack_delay : Nat
  send_bytes : Nat
  slave_recv_seqno_last : Nat
  master_send_seqno_last : Nat
  flag_master_need_ack : Bool
  master_send_time_last : Nat
  master_retry_times : Nat
  master_send_addr_last : Nat
  pack_count_info : pack_count

/-- Result of an operation: the state after it, the sink calls it made in
order, and its return value. -/
structure Out (α : Type) where
  st : State
  calls : List SinkCall
  ret : α

/-- The statement `pack_count_info.send_pack_count[k]++` on a `U32`. -/
def count_send (c : pack_count) (k : pack_send_type_list) : pack_count :=
  { c with send_pack_count :=
      fun j => if j = k then (c.send_pack_count k + 1) % 2 ^ 32 else c.send_pack_count j }

/-- The statement `pack_count_info.recv_pack_count[k]++` on a `U32`. -/
def count_recv (c : pack_count) (k : pack_recv_type_list) : pack_count :=
  { c with recv_pack_count :=
      fun j => if j = k then (c.recv_pack_count k + 1) % 2 ^ 32 else c.recv_pack_count j }

/-! ## Checksum -/

/-- The loop `while (count > 1) { sum += *(U16*)addr++; count -= 2; }` with
`addr` a `const U8*`: each pass reads the 16-bit word at `addr`, moves `addr`
on by one byte and takes two off `count`.  Returns `(addr, count, sum)` at
loop exit; `fuel` bounds the number of passes. -/
def checksum_loop (b : Buf) : Nat → Nat → Nat → Nat → Nat × Nat × Nat
  | 0, addr, count, sum => (addr, count, sum)
  | fuel + 1, addr, count, sum =>
    if count > 1 then
      checksum_loop b fuel (addr + 1) (count - 2) ((sum + rd16 b addr) % 2 ^ 32)
    else (addr, count, sum)

/-- The loop `while (sum >> 16) sum = (sum & 0xFFFF) + (sum >> 16);`, `fuel`
bounding the number of passes. -/
def fold_carry : Nat → Nat → Nat
  | 0, sum => sum
  | fuel + 1, sum =>
    if sum / 65536 ≠ 0 then fold_carry fuel (sum % 65536 + sum / 65536) else sum

/-- Compute checksum for `count` bytes beginning at offset `addr` of `b`
(`count` is a `U16`).  The first loop makes at most `count / 2` passes and the
second at most two on a 32-bit sum. -/
def checksum (b : Buf) (addr count : Nat) : Nat :=
  let r := checksum_loop b count addr count 0
  let sum := if r.2.1 > 0 then (r.2.2 + rd8 b r.1) % 2 ^ 32 else r.2.2
  let sum := fold_carry 2 sum
  (2 ^ 32 - 1 - sum) % 65536

/-! ## Initialisation -/

/-- Initialize variables. -/
def init_data : State :=
  { send_buf := zero_buf
    recv_buf := zero_buf
    flag_is_master := false
    local_addr := 0
    master_addr := 0
    master_max_ack_delay := 0
    send_bytes := 0
    slave_recv_seqno_last := 0
    master_send_seqno_last := 0
    flag_master_need_ack := false
    master_send_time_last := 0
    master_retry_times := 0
    master_send_addr_last := 0
    pack_count_info := { send_pack_count := fun _ => 0, recv_pack_count := fun _ => 0 } }

/-- Initialize protocol.  The prior state is overwritten as a whole, so the
result does not take it as an argument. -/
def init_pack (is_master : Bool) (my_addr master_addr max_ack_delay func : Nat) : State :=
  { init_data with
    flag_is_master := is_master
    local_addr := my_addr % 256
    master_addr := master_addr % 256
    master_max_ack_delay := max_ack_delay % 2 ^ 32
    send_bytes := func }

/-- Master initialize protocol. -/
def master_init_pack (my_addr max_ack_delay func : Nat) : State :=
  init_pack true my_addr my_addr max_ack_delay func

/-- Slave initialize protocol. -/
def slave_init_pack (my_addr master_add func : Nat) : State :=
  init_pack false my_addr master_add 0 func

/-- The assignments of `init_data` carried out on a prior state: each variable
in turn, both buffers by `memset`. -/
def reinit_data (s : State) : State :=
  let s := { s with send_buf := zero_buf }
  let s := { s with flag_is_master := false }
  let s := { s with local_addr := 0 }
  let s := { s with master_addr := 0 }
  let s := { s with master_max_ack_delay := 0 }
  let s := { s with send_bytes := 0 }
  let s := { s with slave_recv_seqno_last := 0 }
  let s := { s with master_send_seqno_last := 0 }
  let s := { s with flag_master_need_ack := false }
  let s := { s with master_send_time_last := 0 }
  let s := { s with master_retry_times := 0 }
  let s := { s with master_send_addr_last := 0 }
  let s := { s with
    pack_count_info := { send_pack_count := fun _ => 0, recv_pack_count := fun _ => 0 } }
  { s with recv_buf := zero_buf }

/-- The statements of `init_pack` carried out on a prior state. -/
def reinit_pack (is_master : Bool) (my_addr master_addr max_ack_delay func : Nat)
    (s : State) : State :=
  let s := reinit_data s
  let s := { s with flag_is_master := is_master }
  let s := { s with local_addr := my_addr % 256 }
  let s := { s with master_addr := master_addr % 256 }
  let s := { s with master_max_ack_delay := max_ack_delay % 2 ^ 32 }
  { s with send_bytes := func }

/-- The call `master_init_pack (my_addr, max_ack_delay, func)` in a prior
state. -/
def master_reinit_pack (my_addr max_ack_delay func : Nat) (s : State) : State :=
  reinit_pack true my_addr my_addr max_ack_delay func s

/-- The call `slave_init_pack (my_addr, master_add, func)` in a prior state. -/
def slave_reinit_pack (my_addr master_add func : Nat) (s : State) : State :=
  reinit_pack false my_addr master_add 0 func s

/-! ## Send -/

/-- The header fields written by `send_pack` for a new package, up to and
including `seqno`. -/
def build_head (s : State) (dest_addr : Nat) : Buf :=
  let b := wr8 s.send_buf OFF_PREMBLE PACK_PREMBLE
  let b := wr8 b (OFF_PREMBLE + 1) PACK_PREMBLE
  let b := wr8 b (OFF_PREMBLE + 2) PACK_PREMBLE
  let b := wr8 b OFF_START PACK_START
  let b := wr8 b OFF_SRC s.local_addr
  if s.flag_is_master then
    let b := wr8 b OFF_DEST dest_addr
    let b := wr16 b OFF_SEQNO (rd16 b OFF_SEQNO + 1)
    if rd16 b OFF_SEQNO = 0 then wr16 b OFF_SEQNO 1 else b
  else
    let b := wr8 b OFF_DEST s.master_addr
    wr16 b OFF_SEQNO s.slave_recv_seqno_last

/-- The send buffer after `send_pack` has built a new package: the header, then
`len`, then `chksum`. -/
def build_pack (s : State) (dest_addr data_len : Nat) : Buf :=
  let b := build_head s dest_addr
  let b := wr16 b OFF_LEN data_len
  wr16 b OFF_CHKSUM (checksum b OFF_SEQNO ((rd16 b OFF_LEN + CHECKSUM_HEAD_LEN) % 65536))

/-- Original send package function. -/
def send_pack (now dest_addr data_len : Nat) (is_new_pack : Bool) (s : State) : Out Unit :=
  let s1 : State :=
    if is_new_pack then
      { s with
        send_buf := build_pack s dest_addr data_len
        pack_count_info := count_send s.pack_count_info PACK_SEND_NEW }
    else
      { s with pack_count_info := count_send s.pack_count_info PACK_SEND_RETRY }
  let count := (HEADER_SIZE + rd16 s1.send_buf OFF_LEN) % 65536
  let call : SinkCall := { func := s1.send_bytes, count := count, bytes := span s1.send_buf count }
  let s2 : State :=
    if s1.flag_is_master then
      { s1 with
        flag_master_need_ack := true
        master_send_time_last := now % 2 ^ 32
        master_send_seqno_last := rd16 s1.send_buf OFF_SEQNO
        master_send_addr_last := rd8 s1.send_buf OFF_DEST }
    else s1
  { st := s2, calls := [call], ret := () }

/-- Master send package. -/
def master_send_pack (now dest_addr data_len : Nat) (s : State) : Out Unit :=
  send_pack now dest_addr data_len true s

/-- Slave send package. -/
def slave_send_pack (now data_len : Nat) (s : State) : Out Unit :=
  send_pack now 0 data_len true s

/-- Resend the last package. -/
def resend_pack (now : Nat) (s : State) : Out Unit :=
  send_pack now 0 0 false s

/-! ## Receive validation -/

/-- The exit of `check_pack` on a failed check: count the outcome, return it. -/
def reject (s : State) (r : pack_recv_type_list) : Out pack_recv_type_list :=
  { st := { s with pack_count_info := count_recv s.pack_count_info r }, calls := [], ret := r }

/-- The end of `check_pack` for a new package: count it; the master clears the
mark that it is waiting for the ack and sets its resend times to zero, the slave
records the seqno received. -/
def accept (s : State) : State :=
  let s1 : State :=
    { s with pack_count_info := count_recv s.pack_count_info PACK_RECV_NEW }
  if s1.flag_is_master then
    { s1 with flag_master_need_ack := false, master_retry_times := 0 }
  else
    { s1 with slave_recv_seqno_last := rd16 s1.recv_buf OFF_SEQNO }

/-- The part of `check_pack` after the address and seqno checks: data length,
checksum, the slave's check for a resent package, and the acceptance. -/
def check_pack_tail (now : Nat) (s : State) : Out pack_recv_type_list :=
  let len := rd16 s.recv_buf OFF_LEN
  if len < 1 ∨ len > MAX_DATA_LEN then reject s PACK_RECV_LEN_ERR
  else if rd16 s.recv_buf OFF_CHKSUM
      ≠ checksum s.recv_buf OFF_SEQNO ((len + CHECKSUM_HEAD_LEN) % 65536) then
    reject s PACK_RECV_CHKSUM_ERR
  else if !s.flag_is_master ∧ rd16 s.recv_buf OFF_SEQNO = s.slave_recv_seqno_last then
    let s1 : State :=
      { s with pack_count_info := count_recv s.pack_count_info PACK_RECV_RETRY }
    let o := resend_pack now s1
    { st := o.st, calls := o.calls, ret := PACK_RECV_RETRY }
  else { st := accept s, calls := [], ret := PACK_RECV_NEW }

/-- Check validity of the received package. -/
def check_pack (now : Nat) (s : State) : Out pack_recv_type_list :=
  if rd8 s.recv_buf OFF_PREMBLE ≠ PACK_PREMBLE
      ∨ rd8 s.recv_buf (OFF_PREMBLE + 1) ≠ PACK_PREMBLE
      ∨ rd8 s.recv_buf (OFF_PREMBLE + 2) ≠ PACK_PREMBLE then
    reject s PACK_RECV_PREMBLE_ERR
  else if rd8 s.recv_buf OFF_START ≠ PACK_START then reject s PACK_RECV_START_ERR
  else if rd8 s.recv_buf OFF_DEST ≠ s.local_addr then reject s PACK_RECV_DEST_ERR
  else if s.flag_is_master then
    if rd8 s.recv_buf OFF_SRC ≠ s.master_send_addr_last then reject s PACK_RECV_SRC_ERR
    else if rd16 s.recv_buf OFF_SEQNO ≠ s.master_send_seqno_last then
      reject s PACK_RECV_SEQNO_ERR
    else check_pack_tail now s
  else
    if rd8 s.recv_buf OFF_SRC ≠ s.master_addr then reject s PACK_RECV_SRC_ERR
    else check_pack_tail now s

/-! ## Ack timeout -/

/-- When ack timeout, master will resend the last package and return the resend
times.  The difference of the clock and the last send time is a 32-bit unsigned
difference. -/
def master_check_ack_delay (now : Nat) (s : State) : Out Nat :=
  if s.flag_master_need_ack then
    if (now % 2 ^ 32 + 2 ^ 32 - s.master_send_time_last % 2 ^ 32) % 2 ^ 32
        > s.master_max_ack_delay then
      let s1 : State := { s with master_retry_times := (s.master_retry_times + 1) % 65536 }
      let o := resend_pack now s1
      { st := o.st, calls := o.calls, ret := o.st.master_retry_times }
    else { st := s, calls := [], ret := s.master_retry_times }
  else { st := s, calls := [], ret := s.master_retry_times }

/-- Get the last slave address that master sent package. -/
def get_master_send_addr_last (s : State) : Nat :=
  s.master_send_addr_last

/-- Get statistics for sent and received package. -/
def get_pack_count_info (s : State) : pack_count :=
  s.pack_count_info

/-! ## The receive validation as the specification words it -/

/-- The checks of the receive validation in the order in which the
specification lists them, each with the outcome reported when it fails: the
flag is `true` when the check passes.  Written from the specification, to be
compared with `check_pack`. -/
def spec_checks (s : State) : List (Bool × pack_recv_type_list) :=
  let rb := s.recv_buf
  [ (decide (rd8 rb 0 = 45 ∧ rd8 rb 1 = 45 ∧ rd8 rb 2 = 45), PACK_RECV_PREMBLE_ERR),
    (decide (rd8 rb 3 = 62), PACK_RECV_START_ERR),
    (decide (rd8 rb OFF_DEST = s.local_addr), PACK_RECV_DEST_ERR),
    (if s.flag_is_master then decide (rd8 rb OFF_SRC = s.master_send_addr_last)
      else decide (rd8 rb OFF_SRC = s.master_addr), PACK_RECV_SRC_ERR),
    (if s.flag_is_master then decide (rd16 rb OFF_SEQNO = s.master_send_seqno_last)
      else true, PACK_RECV_SEQNO_ERR),
    (decide (1 ≤ rd16 rb OFF_LEN ∧ rd16 rb OFF_LEN ≤ MAX_DATA_LEN), PACK_RECV_LEN_ERR),
    (decide (rd16 rb OFF_CHKSUM
        = checksum rb OFF_SEQNO ((rd16 rb OFF_LEN + CHECKSUM_HEAD_LEN) % 65536)),
      PACK_RECV_CHKSUM_ERR),
    (if s.flag_is_master then true
      else decide (rd16 rb OFF_SEQNO ≠ s.slave_recv_seqno_last), PACK_RECV_RETRY) ]

/-- The outcome of the first failing check of `spec_checks`, new-valid when none
fails. -/
def first_failing (s : State) : pack_recv_type_list :=
  match (spec_checks s).find? (fun c => !c.1) with
  | some c => c.2
  | none => PACK_RECV_NEW

/-! ## The checksum as the specification words it -/

/-- The sum of `n` consecutive, non-overlapping little-endian 16-bit words
starting at offset `addr`, as the specification words the checksum. -/
def spec_word_sum (b : Buf) : Nat → Nat → Nat
  | _, 0 => 0
  | addr, n + 1 => rd16 b addr + spec_word_sum b (addr + 2) n

/-- The sum of the byte range `[addr, addr + count)` as the specification words
it: the non-overlapping words, and a trailing odd byte as a low byte. -/
def spec_sum (b : Buf) (addr count : Nat) : Nat :=
  spec_word_sum b addr (count / 2)
    + (if count % 2 = 1 then rd8 b (addr + count - 1) else 0)

/-- The checksum as the specification words it: the complement, on 16 bits, of
the folded sum of the range. -/
def spec_checksum (b : Buf) (addr count : Nat) : Nat :=
  65535 - fold_carry 2 (spec_sum b addr count)

/-! ## Notions used in the statements -/

/-- The frame in the receive buffer passes every check of `check_pack` up to and
including the checksum: premble, start code, destination, source (and seqno for
the master), data length, checksum. -/
def passes_checks (s : State) : Prop :=
  rd8 s.recv_buf OFF_PREMBLE = PACK_PREMBLE
    ∧ rd8 s.recv_buf (OFF_PREMBLE + 1) = PACK_PREMBLE
    ∧ rd8 s.recv_buf (OFF_PREMBLE + 2) = PACK_PREMBLE
    ∧ rd8 s.recv_buf OFF_START = PACK_START
    ∧ rd8 s.recv_buf OFF_DEST = s.local_addr
    ∧ (if s.flag_is_master then
        rd8 s.recv_buf OFF_SRC = s.master_send_addr_last
          ∧ rd16 s.recv_buf OFF_SEQNO = s.master_send_seqno_last
      else rd8 s.recv_buf OFF_SRC = s.master_addr)
    ∧ 1 ≤ rd16 s.recv_buf OFF_LEN ∧ rd16 s.recv_buf OFF_LEN ≤ MAX_DATA_LEN
    ∧ rd16 s.recv_buf OFF_CHKSUM
        = checksum s.recv_buf OFF_SEQNO ((rd16 s.recv_buf OFF_LEN + CHECKSUM_HEAD_LEN) % 65536)

/-- The effect of one receive validation on the counters: the receive counter
of the returned outcome goes up by 1 modulo `2^32`, the other receive counters
and the new-send counter keep their value, and the resend counter goes up by 1
modulo `2^32` exactly when the outcome is a resent package. -/
def counters_step (s : State) (o : Out pack_recv_type_list) : Prop :=
  (∀ k, o.st.pack_count_info.recv_pack_count k
      = if k = o.ret then (s.pack_count_info.recv_pack_count k + 1) % 2 ^ 32
        else s.pack_count_info.recv_pack_count k)
    ∧ o.st.pack_count_info.send_pack_count PACK_SEND_NEW
        = s.pack_count_info.send_pack_count PACK_SEND_NEW
    ∧ o.st.pack_count_info.send_pack_count PACK_SEND_RETRY
        = if o.ret = PACK_RECV_RETRY
          then (s.pack_count_info.send_pack_count PACK_SEND_RETRY + 1) % 2 ^ 32
          else s.pack_count_info.send_pack_count PACK_SEND_RETRY

/-- A buffer begins with the bytes of a list. -/
def begins_with (b : Buf) (bytes : List Nat) : Prop :=
  ∀ i, i < bytes.length → rd8 b i = bytes.getD i 0

/-- The seqno of the next new package of the master: one more on 16 bits, and
1 in place of 0. -/
def next_seqno (q : Nat) : Nat :=
  if (q + 1) % 65536 = 0 then 1 else (q + 1) % 65536

/-- The sum of the `n` 16-bit words read at the offsets `addr`, `addr + 1`, ...,
`addr + n - 1`: the words that the first loop of `checksum` adds up. -/
def word_sum (b : Buf) : Nat → Nat → Nat
  | _, 0 => 0
  | addr, n + 1 => rd16 b addr + word_sum b (addr + 1) n

/-- The buffer with bit `k` of the byte at offset `i` flipped. -/
def flip_bit (b : Buf) (i k : Nat) : Buf :=
  wr8 b i (Nat.xor (rd8 b i) (2 ^ k))

/-- The bytes given to the sink by the first sink call of an operation. -/
def wire {α : Type} (o : Out α) : List Nat :=
  match o.calls with
  | c :: _ => c.bytes
  | [] => []

/-- The seqno field of a frame given as a list of bytes. -/
def seqno_of (bytes : List Nat) : Nat :=
  bytes.getD OFF_SEQNO 0 + 256 * bytes.getD (OFF_SEQNO + 1) 0

/-- The sink call that transmits the frame held in the send buffer: the callback
bound at initialisation, the header size plus the `len` field as count, and the
bytes of the send buffer up to that count. -/
def frame_call (s : State) : SinkCall :=
  { func := s.send_bytes
    count := (HEADER_SIZE + rd16 s.send_buf OFF_LEN) % 65536
    bytes := span s.send_buf ((HEADER_SIZE + rd16 s.send_buf OFF_LEN) % 65536) }

/-! ## Buffer offsets read by the operations -/

/-- The offsets read by the first loop of `checksum`: each pass reads the two
bytes of the word at `addr`, then goes on from `addr + 1` with two less in
`count`. -/
def checksum_loop_reads : Nat → Nat → Nat → List Nat
  | 0, _, _ => []
  | fuel + 1, addr, count =>
    if count > 1 then
      addr :: (addr + 1) :: checksum_loop_reads fuel (addr + 1) (count - 2)
    else []

/-- The offsets read by `checksum (addr, count)` in a buffer: those of the
first loop, then the odd byte at the address where the loop stopped. -/
def checksum_reads (b : Buf) (addr count : Nat) : List Nat :=
  let r := checksum_loop b count addr count 0
  checksum_loop_reads count addr count ++ (if r.2.1 > 0 then [r.1] else [])

/-- The offsets of the receive buffer read by the part of `check_pack` after the
address and seqno checks: `len`, then `chksum`, `len` again and the reads of
`checksum`, then `seqno` for the slave's check of a resent package and for the
record of the seqno received. -/
def check_pack_tail_reads (s : State) : List Nat :=
  let len := rd16 s.recv_buf OFF_LEN
  [OFF_LEN, OFF_LEN + 1]
    ++ (if len < 1 ∨ len > MAX_DATA_LEN then []
      else
        [OFF_CHKSUM, OFF_CHKSUM + 1, OFF_LEN, OFF_LEN + 1]
          ++ checksum_reads s.recv_buf OFF_SEQNO ((len + CHECKSUM_HEAD_LEN) % 65536)
          ++ (if rd16 s.recv_buf OFF_CHKSUM
                ≠ checksum s.recv_buf OFF_SEQNO ((len + CHECKSUM_HEAD_LEN) % 65536) then []
              else if s.flag_is_master then []
              else [OFF_SEQNO, OFF_SEQNO + 1]))

/-- The offsets of the receive buffer read by `check_pack`, in the order and
under the conditions of the code (the three premble bytes are read up to the
first wrong one). -/
def check_pack_reads (s : State) : List Nat :=
  [OFF_PREMBLE]
    ++ (if rd8 s.recv_buf OFF_PREMBLE ≠ PACK_PREMBLE then []
      else [OFF_PREMBLE + 1]
        ++ (if rd8 s.recv_buf (OFF_PREMBLE + 1) ≠ PACK_PREMBLE then []
          else [OFF_PREMBLE + 2]
            ++ (if rd8 s.recv_buf (OFF_PREMBLE + 2) ≠ PACK_PREMBLE then []
              else [OFF_START]
                ++ (if rd8 s.recv_buf OFF_START ≠ PACK_START then []
                  else [OFF_DEST]
                    ++ (if rd8 s.recv_buf OFF_DEST ≠ s.local_addr then []
                      else [OFF_SRC]
                        ++ (if s.flag_is_master then
                            (if rd8 s.recv_buf OFF_SRC ≠ s.master_send_addr_last then []
                              else [OFF_SEQNO, OFF_SEQNO + 1]
                                ++ (if rd16 s.recv_buf OFF_SEQNO ≠ s.master_send_seqno_last
                                    then [] else check_pack_tail_reads s))
                          else
                            (if rd8 s.recv_buf OFF_SRC ≠ s.master_addr then []
                              else check_pack_tail_reads s)))))))

/-- The offsets of the send buffer read by the `checksum` call of a new
send. -/
def send_pack_checksum_reads (s : State) (dest_addr data_len : Nat) : List Nat :=
  let b := wr16 (build_head s dest_addr) OFF_LEN data_len
  checksum_reads b OFF_SEQNO ((rd16 b OFF_LEN + CHECKSUM_HEAD_LEN) % 65536)

/-- The offsets of the send buffer that a sink call lets the sink read: the
`count` bytes from the first one. -/
def sink_reads (c : SinkCall) : List Nat :=
  List.range c.count

/-! ## The host: application, lower layer, polling loop -/

/-- The application stores its data at `send_data`, the data part of the send
buffer (as the test programs do through `struct pack_data`). -/
def write_send_data (data : List Nat) (s : State) : State :=
  { s with
    send_buf := fun j =>
      if OFF_DATA ≤ j.val ∧ j.val < OFF_DATA + data.length
      then data.getD (j.val - OFF_DATA) 0 else s.send_buf j }

/-- The lower layer stores received bytes in the receive buffer from its first
byte on (`pack_recv` of the test programs); the rest of the buffer keeps its
content. -/
def pack_recv (bytes : List Nat) (s : State) : State :=
  { s with
    recv_buf := fun j => if j.val < bytes.length then bytes.getD j.val 0 else s.recv_buf j }

/-- What the host may do between two sends of the master: let the lower layer
store received bytes, check the received package, poll for the ack timeout, and
let the application store data in the data part of the send buffer. -/
inductive HostOp where
  | recv (bytes : List Nat)
  | check (now : Nat)
  | poll (now : Nat)
  | write (data : List Nat)

/-- The host operation is a write of the application to the send buffer. -/
def writes_send_buf : HostOp → Bool
  | .write _ => true
  | _ => false

/-- The state after one host operation. -/
def host_step (s : State) : HostOp → State
  | .recv bytes => pack_recv bytes s
  | .check now => (check_pack now s).st
  | .poll now => (master_check_ack_delay now s).st
  | .write data => write_send_data data s

/-- The state after a sequence of host operations. -/
def host_run (s : State) (ops : List HostOp) : State :=
  ops.foldl host_step s

/-- The time elapsed at the clock reading `now` since the time `T`: the 32-bit
unsigned difference that `master_check_ack_delay` compares with the max ack
delay. -/
def elapsed (now T : Nat) : Nat :=
  (now % 2 ^ 32 + 2 ^ 32 - T % 2 ^ 32) % 2 ^ 32

/-- The state after successive polls of the ack timeout at the given times. -/
def poll_run (s : State) (ts : List Nat) : State :=
  ts.foldl (fun s t => (master_check_ack_delay t s).st) s

/-- Each poll time of the list is a 32-bit clock reading at which more than the
max ack delay `D` has elapsed since the send or resend before it, the first one
since the send at time `T`. -/
def timed_out (T D : Nat) : List Nat → Prop
  | [] => True
  | t :: ts => t < 2 ^ 32 ∧ D < elapsed t T ∧ timed_out t D ts

/-! ## The operations of the interface -/

/-- The operations of the interface other than the two initialisations. -/
inductive ApiOp where
  | master_send (now dest_addr data_len : Nat)
  | slave_send (now data_len : Nat)
  | check (now : Nat)
  | ack_delay (now : Nat)
  | get_addr
  | get_count

/-- The state after an operation of the interface; the two accessors only
read. -/
def api_step (s : State) : ApiOp → State
  | .master_send now dest_addr data_len => (master_send_pack now dest_addr data_len s).st
  | .slave_send now data_len => (slave_send_pack now data_len s).st
  | .check now => (check_pack now s).st
  | .ack_delay now => (master_check_ack_delay now s).st
  | .get_addr => s
  | .get_count => s

/-- A counter keeps its value or goes up by 1 modulo `2^32`. -/
def count_kept_or_next (c c' : Nat) : Prop :=
  c' = c ∨ c' = (c + 1) % 2 ^ 32

/-- Every send counter and every receive counter of `s'` is that of `s`, kept or
gone up by 1 modulo `2^32`. -/
def counts_kept_or_next (s s' : State) : Prop :=
  (∀ k, count_kept_or_next (s.pack_count_info.send_pack_count k)
      (s'.pack_count_info.send_pack_count k))
    ∧ (∀ k, count_kept_or_next (s.pack_count_info.recv_pack_count k)
      (s'.pack_count_info.recv_pack_count k))

/-! ## Reachable states -/

/-- The last seqno sent and the last slave addressed of a master are those of
the frame held in its send buffer. -/
def master_synced (s : State) : Prop :=
  s.flag_is_master = true →
    s.master_send_seqno_last = rd16 s.send_buf OFF_SEQNO
      ∧ s.master_send_addr_last = rd8 s.send_buf OFF_DEST

/-- The states the engine can be in: the state at program start, the states
after an initialisation, and the states reached from those by new sends of
either kind and by the host operations (received bytes, `check_pack`, ack
timeout polls, application writes to the data part of the send buffer). -/
inductive Reachable : State → Prop where
  | start : Reachable init_data
  | master_init (a D f : Nat) : Reachable (master_init_pack a D f)
  | slave_init (a m f : Nat) : Reachable (slave_init_pack a m f)
  | master_send (s : State) (now d n : Nat) :
      Reachable s → Reachable (master_send_pack now d n s).st
  | slave_send (s : State) (now n : Nat) :
      Reachable s → Reachable (slave_send_pack now n s).st
  | host (s : State) (op : HostOp) : Reachable s → Reachable (host_step s op)

/-! ## Concrete states used by the examples -/

/-- A slave whose premble-error counter holds the largest `U32` value and whose
receive buffer is all zero. -/
def st_premble_full : State :=
  { slave_init_pack 102 100 9 with
    pack_count_info :=
      { send_pack_count := fun _ => 0
        recv_pack_count := fun k => if k = PACK_RECV_PREMBLE_ERR then 4294967295 else 0 } }

/-- A master with address 100, just initialised, whose application has written
the payload `12 13 14 15 16`. -/
def st_master_ready : State :=
  { master_init_pack 100 50 7 with
    send_buf := buf_of [0, 0, 0, 0, 0, 0, 0, 0, 0, 0, 0, 0, 12, 13, 14, 15, 16] }

/-- A slave with address 102 and master 100, just initialised, whose receive
buffer holds the frame that `st_master_ready` emits for destination 102 and
data length 5: seqno 1, checksum `0xE1E0`. -/
def st_slave_frame : State :=
  { slave_init_pack 102 100 9 with
    recv_buf := buf_of [45, 45, 45, 62, 224, 225, 102, 100, 1, 0, 5, 0, 12, 13, 14, 15, 16] }

/-- A master whose send buffer holds a frame with seqno 65534 (`FE FF`). -/
def st_master_wrap : State :=
  { master_init_pack 100 50 7 with
    send_buf := buf_of [45, 45, 45, 62, 0, 0, 102, 100, 254, 255, 1, 0, 65] }

/-- The slave `st_slave_frame` with a reply of two bytes in its send buffer and
its resend counter at the largest `U32` value. -/
def st_slave_resend_full : State :=
  { st_slave_frame with
    send_buf := buf_of [45, 45, 45, 62, 252, 176, 100, 102, 0, 0, 2, 0, 77, 78]
    pack_count_info :=
      { send_pack_count := fun k => if k = PACK_SEND_RETRY then 4294967295 else 0
        recv_pack_count := fun _ => 0 } }

/-- A master (address 100, max ack delay 5) that sent the frame in its send
buffer to slave 102 at time 10 and is waiting for the ack, with `r` resends so
far. -/
def st_master_waiting (r : Nat) : State :=
  { master_init_pack 100 5 7 with
    send_buf := buf_of [45, 45, 45, 62, 224, 225, 102, 100, 1, 0, 5, 0, 12, 13, 14, 15, 16]
    flag_master_need_ack := true
    master_send_time_last := 10
    master_send_seqno_last := 1
    master_send_addr_last := 102
    master_retry_times := r
    pack_count_info :=
      { send_pack_count := fun k => if k = PACK_SEND_NEW then 1 else 0
        recv_pack_count := fun _ => 0 } }

/-- The master `st_master_waiting 3` with the reply of slave 102 in its receive
buffer: seqno 1, data length 2, checksum `0xB0FC`. -/
def st_master_reply : State :=
  { st_master_waiting 3 with
    recv_buf := buf_of [45, 45, 45, 62, 252, 176, 100, 102, 1, 0, 2, 0, 77, 78] }

/-- The master `st_master_waiting 3` with a reply in its receive buffer whose
source is 103, not the slave 102 it addressed last. -/
def st_master_wrong_src : State :=
  { st_master_waiting 3 with
    recv_buf := buf_of [45, 45, 45, 62, 252, 176, 100, 103, 1, 0, 2, 0, 77, 78] }

/-- The slave `st_slave_frame` with the second payload byte of its frame
changed from 13 to 12, a byte that the checksum covers. -/
def st_slave_bad_chksum : State :=
  { st_slave_frame with
    recv_buf := buf_of [45, 45, 45, 62, 224, 225, 102, 100, 1, 0, 5, 0, 12, 12, 14, 15, 16] }

/-- A master (address 100, max ack delay 5) just initialised, whose application
has written the payload `12 13 14 15 16`, and whose resend counter holds the
largest `U32` value. -/
def st_master_resend_full : State :=
  { master_init_pack 100 5 7 with
    send_buf := buf_of [0, 0, 0, 0, 0, 0, 0, 0, 0, 0, 0, 0, 12, 13, 14, 15, 16]
    pack_count_info :=
      { send_pack_count := fun k => if k = PACK_SEND_RETRY then 4294967295 else 0
        recv_pack_count := fun _ => 0 } }

/-- The master of address 100 and max ack delay 5 after initialisation, an
application write of the payload `12 13 14 15 16`, and a new send of 5 bytes to
slave 102 at time 10. -/
def st_master_sent : State :=
  (master_send_pack 10 102 5
    (write_send_data [12, 13, 14, 15, 16] (master_init_pack 100 5 7))).st

/-- The slave `st_slave_frame` after it has accepted its frame (seqno 1) and its
application has written the reply `77 78`. -/
def st_slave_accepted : State :=
  write_send_data [77, 78] (check_pack 0 st_slave_frame).st

/-- The master `st_master_ready` with its new-send counter at the largest `U32`
value. -/
def st_master_new_full : State :=
  { st_master_ready with
    pack_count_info :=
      { send_pack_count := fun k => if k = PACK_SEND_NEW then 4294967295 else 0
        recv_pack_count := fun _ => 0 } }

/-- The master `st_master_sent` after the lower layer has stored the reply of
slave 102 in its receive buffer: seqno 1, data length 2, checksum `0xB0FC`. -/
def st_master_got_reply : State :=
  pack_recv [45, 45, 45, 62, 252, 176, 100, 102, 1, 0, 2, 0, 77, 78] st_master_sent

/-- The frame of `st_slave_frame` with its eight bytes before the seqno field
(premble, start code, checksum, destination, source) replaced by `1 .. 8`. -/
def buf_other_head : Buf :=
  wr8 (wr8 (wr8 (wr8 (wr8 (wr8 (wr8 (wr8 st_slave_frame.recv_buf 0 1) 1 2) 2 3) 3 4) 4 5)
    5 6) 6 7) 7 8

/-- A frame for slave 102 from master 100 with seqno 0, data length 5 and
matching checksum `0xE1E1`. -/
def frame_seqno_zero : List Nat :=
  [45, 45, 45, 62, 225, 225, 102, 100, 0, 0, 5, 0, 12, 13, 14, 15, 16]

/-! ## Theorems -/

/-! ### Buffer reads and writes -/

theorem rd8_lt (b : Buf) (i : Nat) : rd8 b i < 256 := by
  unfold rd8
  split
  · exact Nat.mod_lt _ (by decide)
  · decide

theorem rd16_lt (b : Buf) (i : Nat) : rd16 b i < 65536 := by
  have h1 := rd8_lt b i
  have h2 := rd8_lt b (i + 1)
  unfold rd16
  omega

theorem rd8_wr8 (b : Buf) (i v k : Nat) :
    rd8 (wr8 b i v) k = if k = i ∧ k < MAX_BUF_SIZE then v % 256 else rd8 b k := by
  unfold rd8 wr8
  by_cases hk : k < MAX_BUF_SIZE
  · by_cases hi : k = i
    · subst hi
      simp [hk]
    · simp [hk, hi]
  · simp [hk]

theorem rd8_wr8_ne (b : Buf) (i v k : Nat) (h : k ≠ i) : rd8 (wr8 b i v) k = rd8 b k := by
  rw [rd8_wr8]; simp [h]

theorem rd8_wr16_ne (b : Buf) (i v k : Nat) (h1 : k ≠ i) (h2 : k ≠ i + 1) :
    rd8 (wr16 b i v) k = rd8 b k := by
  unfold wr16
  rw [rd8_wr8_ne _ _ _ _ h2, rd8_wr8_ne _ _ _ _ h1]

theorem rd16_wr8_ne (b : Buf) (i v k : Nat) (h1 : k ≠ i) (h2 : k + 1 ≠ i) :
    rd16 (wr8 b i v) k = rd16 b k := by
  unfold rd16
  rw [rd8_wr8_ne _ _ _ _ h1, rd8_wr8_ne _ _ _ _ h2]

theorem rd16_wr16_ne (b : Buf) (i v k : Nat) (h1 : k + 1 < i ∨ i + 1 < k) :
    rd16 (wr16 b i v) k = rd16 b k := by
  unfold rd16
  rw [rd8_wr16_ne _ _ _ _ (by omega) (by omega), rd8_wr16_ne _ _ _ _ (by omega) (by omega)]

theorem rd16_wr16 (b : Buf) (i v : Nat) (h : i + 1 < MAX_BUF_SIZE) :
    rd16 (wr16 b i v) i = v % 65536 := by
  unfold rd16 wr16
  rw [rd8_wr8, rd8_wr8, rd8_wr8]
  have h1 : ¬ (i = i + 1 ∧ i < MAX_BUF_SIZE) := by omega
  have h2 : i = i ∧ i < MAX_BUF_SIZE := ⟨rfl, by omega⟩
  have h3 : i + 1 = i + 1 ∧ i + 1 < MAX_BUF_SIZE := ⟨rfl, h⟩
  rw [if_neg h1, if_pos h2, if_pos h3]
  simp only [Nat.mod_mod]
  omega

/-! ### Receive validation: order of the checks and counters -/

/-- C1: for every engine state and receive buffer, `check_pack` returns the
outcome of the first failing check in the order premble, start, destination,
source, seqno (master only), length, checksum, resent package (slave only), and
it returns new-valid exactly when every check passes. -/
theorem check_pack_first_failing (now : Nat) (s : State) :
    (check_pack now s).ret = first_failing s
      ∧ ((check_pack now s).ret = PACK_RECV_NEW ↔ ∀ c ∈ spec_checks s, c.1 = true) := by
  unfold first_failing spec_checks check_pack check_pack_tail reject
  simp only [OFF_PREMBLE, OFF_START, OFF_CHKSUM, OFF_DEST, OFF_SRC, OFF_SEQNO, OFF_LEN,
    MAX_DATA_LEN, MAX_BUF_SIZE, HEADER_SIZE, PACK_PREMBLE, PACK_START, CHECKSUM_HEAD_LEN,
    Nat.zero_add, Nat.reduceAdd, Nat.reduceSub]
  by_cases h0 : rd8 s.recv_buf 0 = 45; swap
  · simp [h0, List.find?]
  by_cases h1 : rd8 s.recv_buf 1 = 45; swap
  · simp [h0, h1, List.find?]
  by_cases h2 : rd8 s.recv_buf 2 = 45; swap
  · simp [h0, h1, h2, List.find?]
  by_cases h3 : rd8 s.recv_buf 3 = 62; swap
  · simp [h0, h1, h2, h3, List.find?]
  by_cases h4 : rd8 s.recv_buf 6 = s.local_addr; swap
  · simp [h0, h1, h2, h3, h4, List.find?]
  by_cases h7 : rd16 s.recv_buf 10 = 0
  · cases hm : s.flag_is_master <;>
      simp [h0, h1, h2, h3, h4, h7, hm, List.find?] <;> split_ifs <;> simp_all
  by_cases h8 : rd16 s.recv_buf 10 ≤ 88; swap
  · have h8' : 88 < rd16 s.recv_buf 10 := by omega
    cases hm : s.flag_is_master <;>
      simp [h0, h1, h2, h3, h4, h7, h8, h8', hm, List.find?] <;> split_ifs <;> simp_all
  have h7' : 1 ≤ rd16 s.recv_buf 10 := by omega
  have h8' : ¬ 88 < rd16 s.recv_buf 10 := by omega
  cases hm : s.flag_is_master <;>
    simp [h0, h1, h2, h3, h4, h7, h8, h7', h8', hm, List.find?] <;> split_ifs <;> simp_all


/-- C2, as stated, fails: at a slave whose premble-error counter holds
`2^32 - 1`, a frame with a wrong premble is classified as a premble error and
the counter of that outcome does not go up by 1: it wraps to 0. -/
theorem check_pack_counter_wraps :
    (check_pack 0 st_premble_full).ret = PACK_RECV_PREMBLE_ERR
      ∧ st_premble_full.pack_count_info.recv_pack_count PACK_RECV_PREMBLE_ERR = 4294967295
      ∧ (check_pack 0 st_premble_full).st.pack_count_info.recv_pack_count
          PACK_RECV_PREMBLE_ERR = 0
      ∧ (check_pack 0 st_premble_full).st.pack_count_info.recv_pack_count
            (check_pack 0 st_premble_full).ret
          ≠ st_premble_full.pack_count_info.recv_pack_count
              (check_pack 0 st_premble_full).ret + 1 := by
  decide

theorem reject_counters (s : State) (r : pack_recv_type_list) (h : r ≠ PACK_RECV_RETRY) :
    counters_step s (reject s r) := by
  refine ⟨fun k => ?_, rfl, ?_⟩
  · by_cases hk : k = r
    · subst hk; simp [reject, count_recv]
    · simp [reject, count_recv, hk]
  · simp [reject, count_recv, h]

theorem check_pack_tail_counters (now : Nat) (s : State) :
    counters_step s (check_pack_tail now s) := by
  unfold check_pack_tail
  dsimp only
  split_ifs
  · exact reject_counters s PACK_RECV_LEN_ERR (by decide)
  · exact reject_counters s PACK_RECV_CHKSUM_ERR (by decide)
  all_goals
    refine ⟨fun k => ?_, ?_, ?_⟩ <;>
      simp [resend_pack, send_pack, accept, count_recv, count_send] <;>
      (try split_ifs) <;> (try simp_all)

/-- C2, amended: one call of `check_pack` adds 1 modulo `2^32` to the receive
counter indexed by the outcome it returns and leaves every other receive counter
unchanged; the new-send counter is unchanged, and the resend counter goes up by
1 modulo `2^32` when the outcome is a resent package and is unchanged
otherwise. -/
theorem check_pack_counters (now : Nat) (s : State) :
    (∀ k, (check_pack now s).st.pack_count_info.recv_pack_count k
        = if k = (check_pack now s).ret
          then (s.pack_count_info.recv_pack_count k + 1) % 2 ^ 32
          else s.pack_count_info.recv_pack_count k)
      ∧ (check_pack now s).st.pack_count_info.send_pack_count PACK_SEND_NEW
          = s.pack_count_info.send_pack_count PACK_SEND_NEW
      ∧ (check_pack now s).st.pack_count_info.send_pack_count PACK_SEND_RETRY
          = if (check_pack now s).ret = PACK_RECV_RETRY
            then (s.pack_count_info.send_pack_count PACK_SEND_RETRY + 1) % 2 ^ 32
            else s.pack_count_info.send_pack_count PACK_SEND_RETRY := by
  have key : counters_step s (check_pack now s) := by
    unfold check_pack
    split_ifs
    all_goals first
      | exact reject_counters s PACK_RECV_PREMBLE_ERR (by decide)
      | exact reject_counters s PACK_RECV_START_ERR (by decide)
      | exact reject_counters s PACK_RECV_DEST_ERR (by decide)
      | exact reject_counters s PACK_RECV_SRC_ERR (by decide)
      | exact reject_counters s PACK_RECV_SEQNO_ERR (by decide)
      | exact check_pack_tail_counters now s
  exact key

/-! ### Checksum -/

theorem checksum_loop_eq (b : Buf) : ∀ (fuel addr count sum : Nat),
    count / 2 ≤ fuel → sum < 2 ^ 32 →
    checksum_loop b fuel addr count sum
      = (addr + count / 2, count % 2, (sum + word_sum b addr (count / 2)) % 2 ^ 32) := by
  intro fuel
  induction fuel with
  | zero =>
    intro addr count sum hf hs
    have h0 : count / 2 = 0 := by omega
    have h1 : count % 2 = count := by omega
    simp only [checksum_loop, h0, h1, word_sum, Nat.add_zero]
    rw [Nat.mod_eq_of_lt hs]
  | succ fuel ih =>
    intro addr count sum hf hs
    unfold checksum_loop
    split_ifs with hc
    · rw [ih (addr + 1) (count - 2) _ (by omega) (Nat.mod_lt _ (by norm_num))]
      have h2 : count / 2 = (count - 2) / 2 + 1 := by omega
      have h3 : (count - 2) % 2 = count % 2 := by omega
      rw [h2, h3, word_sum]
      norm_num
      refine ⟨by omega, ?_⟩
      omega
    · have h0 : count / 2 = 0 := by omega
      have h1 : count % 2 = count := by omega
      simp only [h0, h1, word_sum, Nat.add_zero]
      rw [Nat.mod_eq_of_lt hs]

theorem checksum_eq (b : Buf) (addr count : Nat) :
    checksum b addr count
      = (2 ^ 32 - 1 - fold_carry 2
          (if count % 2 > 0
            then (word_sum b addr (count / 2) % 2 ^ 32 + rd8 b (addr + count / 2)) % 2 ^ 32
            else word_sum b addr (count / 2) % 2 ^ 32)) % 65536 := by
  unfold checksum
  rw [checksum_loop_eq b count addr count 0 (Nat.div_le_self _ _) (by norm_num)]
  simp

theorem word_sum_congr (b1 b2 : Buf) : ∀ (n addr : Nat),
    (∀ i, addr ≤ i → i ≤ addr + n → rd8 b1 i = rd8 b2 i) →
    word_sum b1 addr n = word_sum b2 addr n := by
  intro n
  induction n with
  | zero => intro addr _; rfl
  | succ n ih =>
    intro addr h
    simp only [word_sum, rd16]
    rw [ih (addr + 1) (fun i h1 h2 => h i (by omega) (by omega)),
      h addr (le_refl _) (by omega), h (addr + 1) (by omega) (by omega)]

theorem checksum_congr (b1 b2 : Buf) (addr count : Nat)
    (h : ∀ i, addr ≤ i → i ≤ addr + count / 2 → rd8 b1 i = rd8 b2 i) :
    checksum b1 addr count = checksum b2 addr count := by
  rw [checksum_eq, checksum_eq, word_sum_congr b1 b2 (count / 2) addr h,
    h (addr + count / 2) (by omega) (le_refl _)]

theorem checksum_lt (b : Buf) (addr count : Nat) : checksum b addr count < 65536 := by
  unfold checksum
  exact Nat.mod_lt _ (by norm_num)

theorem fold_carry_done (sum : Nat) (h : sum < 2 ^ 32) : fold_carry 2 sum / 65536 = 0 := by
  norm_num at h
  unfold fold_carry
  split_ifs with h1
  · unfold fold_carry
    split_ifs with h2
    · simp only [fold_carry]
      omega
    · omega
  · omega


/-- Both loops of `checksum` have run to their exit within the fuel of the
model: the first leaves `count ≤ 1`, the second leaves no carry above bit 15. -/
theorem checksum_loops_exit (b : Buf) (addr count : Nat) :
    (checksum_loop b count addr count 0).2.1 ≤ 1
      ∧ fold_carry 2
          (if (checksum_loop b count addr count 0).2.1 > 0
            then ((checksum_loop b count addr count 0).2.2
              + rd8 b (checksum_loop b count addr count 0).1) % 2 ^ 32
            else (checksum_loop b count addr count 0).2.2) / 65536 = 0 := by
  rw [checksum_loop_eq b count addr count 0 (Nat.div_le_self _ _) (by norm_num)]
  refine ⟨by dsimp only; omega, fold_carry_done _ ?_⟩
  dsimp only
  split_ifs
  · exact Nat.mod_lt _ (by norm_num)
  · exact Nat.mod_lt _ (by norm_num)

/-- C3 fails on the code: on the four bytes `01 02 03 04` with count 4 the
code adds the overlapping words at offsets 0 and 1 (`0x0201 + 0x0302`) and
returns 64252, whereas the complement of the folded sum of the non-overlapping
words at offsets 0 and 2 (`0x0201 + 0x0403`) is 63995; those words plus the
returned checksum fold to 257, not to `0xFFFF`. -/
theorem checksum_words_overlap :
    checksum (buf_of [1, 2, 3, 4]) 0 4 = 64252
      ∧ word_sum (buf_of [1, 2, 3, 4]) 0 2 = 513 + 770
      ∧ spec_sum (buf_of [1, 2, 3, 4]) 0 4 = 513 + 1027
      ∧ spec_checksum (buf_of [1, 2, 3, 4]) 0 4 = 63995
      ∧ fold_carry 2 (spec_sum (buf_of [1, 2, 3, 4]) 0 4 + checksum (buf_of [1, 2, 3, 4]) 0 4)
          = 257 := by
  decide

/-- C4 fails on the code: the slave `st_slave_frame` classifies its frame (data
length 5) as new-valid, and with bit 0 of the last payload byte flipped
(16 becomes 17) the frame is still classified as new-valid, not as a checksum
error: with count `5 + 6 = 11` the checksum reads only the bytes at offsets
8 .. 13, so the payload bytes at offsets 14 .. 16 are not covered. -/
theorem payload_bit_flip_accepted :
    (check_pack 0 st_slave_frame).ret = PACK_RECV_NEW
      ∧ rd16 st_slave_frame.recv_buf OFF_LEN = 5
      ∧ rd8 st_slave_frame.recv_buf (OFF_DATA + 4) = 16
      ∧ rd8 (flip_bit st_slave_frame.recv_buf (OFF_DATA + 4) 0) (OFF_DATA + 4) = 17
      ∧ (check_pack 0
          { st_slave_frame with
            recv_buf := flip_bit st_slave_frame.recv_buf (OFF_DATA + 4) 0 }).ret
          = PACK_RECV_NEW := by
  decide

theorem span_length (b : Buf) (k : Nat) : (span b k).length = k := by
  simp [span]

theorem span_getD (b : Buf) (k i : Nat) (h : i < k) : (span b k).getD i 0 = rd8 b i := by
  simp [span, List.getD_eq_getElem?_getD, List.getElem?_map, List.getElem?_range, h]

theorem rd8_buf_of (l : List Nat) (i : Nat) (h : i < MAX_BUF_SIZE) :
    rd8 (buf_of l) i = l.getD i 0 % 256 := by
  simp [rd8, buf_of, h]


theorem layout :
    OFF_START = 3 ∧ OFF_CHKSUM = 4 ∧ OFF_DEST = 6 ∧ OFF_SRC = 7 ∧ OFF_SEQNO = 8 ∧ OFF_LEN = 10
      ∧ OFF_DATA = 12 ∧ HEADER_SIZE = 12 ∧ CHECKSUM_HEAD_LEN = 6 ∧ MAX_DATA_LEN = 88
      ∧ MAX_BUF_SIZE = 100 := by
  decide

theorem rd8_mod (b : Buf) (i : Nat) : rd8 b i % 256 = rd8 b i :=
  Nat.mod_eq_of_lt (rd8_lt b i)

theorem rd8_out (b : Buf) (i : Nat) (h : MAX_BUF_SIZE ≤ i) : rd8 b i = 0 := by
  have h1 : ¬ i < MAX_BUF_SIZE := by omega
  simp [rd8, h1]

theorem rd8_buf_of_span (b : Buf) (k i : Nat) (h : i < k) :
    rd8 (buf_of (span b k)) i = rd8 b i := by
  by_cases hi : i < MAX_BUF_SIZE
  · rw [rd8_buf_of _ _ hi, span_getD _ _ _ h, rd8_mod]
  · rw [rd8_out _ _ (by omega), rd8_out _ _ (by omega)]

theorem check_pack_tail_chksum_err (now : Nat) (s : State)
    (h : (check_pack_tail now s).ret = PACK_RECV_CHKSUM_ERR) :
    rd16 s.recv_buf OFF_CHKSUM
      ≠ checksum s.recv_buf OFF_SEQNO ((rd16 s.recv_buf OFF_LEN + CHECKSUM_HEAD_LEN) % 65536)
      ∧ 1 ≤ rd16 s.recv_buf OFF_LEN ∧ rd16 s.recv_buf OFF_LEN ≤ MAX_DATA_LEN := by
  unfold check_pack_tail at h
  dsimp only at h
  split_ifs at h with h1 h2 h3
  · simp [reject] at h
  · exact ⟨h2, by omega, by omega⟩

theorem check_pack_chksum_err (now : Nat) (s : State)
    (h : (check_pack now s).ret = PACK_RECV_CHKSUM_ERR) :
    rd16 s.recv_buf OFF_CHKSUM
      ≠ checksum s.recv_buf OFF_SEQNO ((rd16 s.recv_buf OFF_LEN + CHECKSUM_HEAD_LEN) % 65536)
      ∧ 1 ≤ rd16 s.recv_buf OFF_LEN ∧ rd16 s.recv_buf OFF_LEN ≤ MAX_DATA_LEN := by
  unfold check_pack at h
  split_ifs at h
  all_goals first
    | exact check_pack_tail_chksum_err now s h
    | simp [reject] at h

theorem build_pack_len (s : State) (dest_addr n : Nat) :
    rd16 (build_pack s dest_addr n) OFF_LEN = n % 65536 := by
  unfold build_pack
  dsimp only
  rw [rd16_wr16_ne _ _ _ _ (by decide), rd16_wr16 _ _ _ (by decide)]

theorem build_pack_chksum (s : State) (dest_addr n : Nat) :
    rd16 (build_pack s dest_addr n) OFF_CHKSUM
      = checksum (build_pack s dest_addr n) OFF_SEQNO
          ((rd16 (build_pack s dest_addr n) OFF_LEN + CHECKSUM_HEAD_LEN) % 65536) := by
  rw [build_pack_len]
  unfold build_pack
  dsimp only
  rw [rd16_wr16 _ _ _ (by decide), rd16_wr16 _ _ _ (by decide),
    Nat.mod_eq_of_lt (checksum_lt _ _ _)]
  obtain ⟨-, e4, -, -, e8, -⟩ := layout
  exact (checksum_congr _ _ _ _ (fun i h1 _ => rd8_wr16_ne _ _ _ _ (by omega) (by omega))).symm

theorem send_pack_new_buf (now dest_addr n : Nat) (s : State) :
    (send_pack now dest_addr n true s).st.send_buf = build_pack s dest_addr n := by
  unfold send_pack
  dsimp only
  split_ifs <;> first | rfl | contradiction

theorem send_pack_new_calls (now dest_addr n : Nat) (s : State) :
    (send_pack now dest_addr n true s).calls
      = [{ func := s.send_bytes
           count := (HEADER_SIZE + n % 65536) % 65536
           bytes := span (build_pack s dest_addr n) ((HEADER_SIZE + n % 65536) % 65536) }] := by
  unfold send_pack
  simp [build_pack_len]

/-- C5: for every state of either role and every data length `n` with
`1 ≤ n ≤ MAX_DATA_LEN`, a new send (`master_send_pack` and `slave_send_pack` are
`send_pack` with `is_new_pack = true`) calls the sink once with `12 + n` bytes
whose stored checksum equals the checksum recomputed over those bytes from the
seqno field with count `len + CHECKSUM_HEAD_LEN`; and a receiver whose receive
buffer begins with those bytes never returns a checksum error, whatever the
rest of its buffer and its state. -/
theorem new_send_checksum_round_trip (now dest_addr n : Nat) (s : State)
    (h1 : 1 ≤ n) (h2 : n ≤ MAX_DATA_LEN) :
    ∃ c, (send_pack now dest_addr n true s).calls = [c]
      ∧ c.count = HEADER_SIZE + n ∧ c.bytes.length = HEADER_SIZE + n
      ∧ rd16 (buf_of c.bytes) OFF_LEN = n
      ∧ rd16 (buf_of c.bytes) OFF_CHKSUM
          = checksum (buf_of c.bytes) OFF_SEQNO
              ((rd16 (buf_of c.bytes) OFF_LEN + CHECKSUM_HEAD_LEN) % 65536)
      ∧ ∀ (t : Nat) (r : State), begins_with r.recv_buf c.bytes →
          (check_pack t r).ret ≠ PACK_RECV_CHKSUM_ERR := by
  obtain ⟨-, e4, -, -, e8, e10, -, e12, e6, e88, e100⟩ := layout
  have hn : n % 65536 = n := by omega
  have hc : (HEADER_SIZE + n % 65536) % 65536 = HEADER_SIZE + n := by omega
  have hcnt : (n + CHECKSUM_HEAD_LEN) % 65536 = n + CHECKSUM_HEAD_LEN := by omega
  refine ⟨_, send_pack_new_calls now dest_addr n s, hc, ?_, ?_, ?_, ?_⟩
  · simp only [hc, span_length]
  all_goals simp only [hc]
  · unfold rd16
    rw [rd8_buf_of_span _ _ _ (by omega), rd8_buf_of_span _ _ _ (by omega)]
    have := build_pack_len s dest_addr n
    unfold rd16 at this
    omega
  · have hlen : rd16 (buf_of (span (build_pack s dest_addr n) (HEADER_SIZE + n))) OFF_LEN = n := by
      unfold rd16
      rw [rd8_buf_of_span _ _ _ (by omega), rd8_buf_of_span _ _ _ (by omega)]
      have := build_pack_len s dest_addr n
      unfold rd16 at this
      omega
    rw [hlen, hcnt]
    have hck := build_pack_chksum s dest_addr n
    rw [build_pack_len, hn, hcnt] at hck
    rw [checksum_congr _ (build_pack s dest_addr n) _ _
      (fun i _ h => rd8_buf_of_span _ _ _ (by omega)), ← hck]
    unfold rd16
    rw [rd8_buf_of_span _ _ _ (by omega), rd8_buf_of_span _ _ _ (by omega)]
  · intro t r hb herr
    have hb' : ∀ i, i < HEADER_SIZE + n → rd8 r.recv_buf i = rd8 (build_pack s dest_addr n) i := by
      intro i hi
      rw [hb i (by rw [span_length]; exact hi), span_getD _ _ _ hi]
    obtain ⟨hne, -, -⟩ := check_pack_chksum_err t r herr
    apply hne
    have hlen : rd16 r.recv_buf OFF_LEN = n := by
      unfold rd16
      rw [hb' _ (by omega), hb' _ (by omega)]
      have := build_pack_len s dest_addr n
      unfold rd16 at this
      omega
    rw [hlen, hcnt]
    have hck := build_pack_chksum s dest_addr n
    rw [build_pack_len, hn, hcnt] at hck
    rw [checksum_congr _ (build_pack s dest_addr n) _ _ (fun i _ h => hb' i (by omega)), ← hck]
    unfold rd16
    rw [hb' _ (by omega), hb' _ (by omega)]

/-- C5 at the master `st_master_ready` sending 5 bytes to slave 102. -/
theorem new_send_checksum_round_trip_witness :
    1 ≤ 5 ∧ 5 ≤ MAX_DATA_LEN
      ∧ ∃ c, (send_pack 1000 102 5 true st_master_ready).calls = [c]
        ∧ c.count = HEADER_SIZE + 5 ∧ c.bytes.length = HEADER_SIZE + 5
        ∧ rd16 (buf_of c.bytes) OFF_LEN = 5
        ∧ rd16 (buf_of c.bytes) OFF_CHKSUM
            = checksum (buf_of c.bytes) OFF_SEQNO
                ((rd16 (buf_of c.bytes) OFF_LEN + CHECKSUM_HEAD_LEN) % 65536)
        ∧ ∀ (t : Nat) (r : State), begins_with r.recv_buf c.bytes →
            (check_pack t r).ret ≠ PACK_RECV_CHKSUM_ERR :=
  ⟨by decide, by decide,
    new_send_checksum_round_trip 1000 102 5 st_master_ready (by decide) (by decide)⟩

/-! ### The frame built by a new send -/

theorem build_head_framing (s : State) (d : Nat) :
    rd8 (build_head s d) OFF_PREMBLE = PACK_PREMBLE
      ∧ rd8 (build_head s d) (OFF_PREMBLE + 1) = PACK_PREMBLE
      ∧ rd8 (build_head s d) (OFF_PREMBLE + 2) = PACK_PREMBLE
      ∧ rd8 (build_head s d) OFF_START = PACK_START
      ∧ rd8 (build_head s d) OFF_SRC = s.local_addr % 256
      ∧ rd8 (build_head s d) OFF_DEST
          = (if s.flag_is_master then d % 256 else s.master_addr % 256) := by
  unfold build_head
  cases hm : s.flag_is_master
  · simp [wr16, rd8_wr8, OFF_PREMBLE, OFF_START, OFF_CHKSUM, OFF_DEST, OFF_SRC, OFF_SEQNO, OFF_LEN,
      MAX_BUF_SIZE, PACK_PREMBLE, PACK_START]
  · simp only [if_true]
    split_ifs <;> simp [wr16, rd8_wr8, OFF_PREMBLE, OFF_START, OFF_CHKSUM, OFF_DEST, OFF_SRC, OFF_SEQNO, OFF_LEN,
      MAX_BUF_SIZE, PACK_PREMBLE, PACK_START]

theorem build_head_seqno (s : State) (d : Nat) :
    rd16 (build_head s d) OFF_SEQNO
      = (if s.flag_is_master then next_seqno (rd16 s.send_buf OFF_SEQNO)
          else s.slave_recv_seqno_last % 65536) := by
  unfold build_head
  cases hm : s.flag_is_master
  · simp only [Bool.false_eq_true, if_false]
    rw [rd16_wr16 _ _ _ (by decide)]
  · simp only [if_true]
    unfold next_seqno
    have e : rd16 (wr8 (wr8 (wr8 (wr8 (wr8 (wr8 s.send_buf OFF_PREMBLE PACK_PREMBLE)
        (OFF_PREMBLE + 1) PACK_PREMBLE) (OFF_PREMBLE + 2) PACK_PREMBLE) OFF_START PACK_START)
        OFF_SRC s.local_addr) OFF_DEST d) OFF_SEQNO = rd16 s.send_buf OFF_SEQNO := by
      simp [rd16, rd8_wr8, OFF_PREMBLE, OFF_START, OFF_CHKSUM, OFF_DEST, OFF_SRC, OFF_SEQNO, OFF_LEN,
      MAX_BUF_SIZE, PACK_PREMBLE, PACK_START]
    rw [e, rd16_wr16 _ _ _ (by decide)]
    split_ifs with h
    · rw [rd16_wr16 _ _ _ (by decide)]
    · rw [rd16_wr16 _ _ _ (by decide)]

theorem build_head_data (s : State) (d i : Nat) (h : OFF_LEN ≤ i) :
    rd8 (build_head s d) i = rd8 s.send_buf i := by
  obtain ⟨-, e4, -, -, e8, e10, -⟩ := layout
  unfold build_head
  dsimp only
  split_ifs <;>
    simp only [wr16, rd8_wr8] <;>
    (repeat rw [if_neg (by simp only [OFF_PREMBLE, OFF_START, OFF_SRC, OFF_DEST, OFF_SEQNO]; omega)])


theorem build_pack_framing (s : State) (d n : Nat) :
    rd8 (build_pack s d n) OFF_PREMBLE = PACK_PREMBLE
      ∧ rd8 (build_pack s d n) (OFF_PREMBLE + 1) = PACK_PREMBLE
      ∧ rd8 (build_pack s d n) (OFF_PREMBLE + 2) = PACK_PREMBLE
      ∧ rd8 (build_pack s d n) OFF_START = PACK_START
      ∧ rd8 (build_pack s d n) OFF_SRC = s.local_addr % 256
      ∧ rd8 (build_pack s d n) OFF_DEST
          = (if s.flag_is_master then d % 256 else s.master_addr % 256) := by
  have h := build_head_framing s d
  unfold build_pack
  dsimp only
  rw [rd8_wr16_ne _ _ _ _ (by decide) (by decide), rd8_wr16_ne _ _ _ _ (by decide) (by decide),
    rd8_wr16_ne _ _ _ _ (by decide) (by decide), rd8_wr16_ne _ _ _ _ (by decide) (by decide),
    rd8_wr16_ne _ _ _ _ (by decide) (by decide), rd8_wr16_ne _ _ _ _ (by decide) (by decide),
    rd8_wr16_ne _ _ _ _ (by decide) (by decide), rd8_wr16_ne _ _ _ _ (by decide) (by decide),
    rd8_wr16_ne _ _ _ _ (by decide) (by decide), rd8_wr16_ne _ _ _ _ (by decide) (by decide),
    rd8_wr16_ne _ _ _ _ (by decide) (by decide), rd8_wr16_ne _ _ _ _ (by decide) (by decide)]
  exact h

theorem build_pack_seqno (s : State) (d n : Nat) :
    rd16 (build_pack s d n) OFF_SEQNO
      = (if s.flag_is_master then next_seqno (rd16 s.send_buf OFF_SEQNO)
          else s.slave_recv_seqno_last % 65536) := by
  rw [← build_head_seqno s d]
  unfold build_pack
  dsimp only
  rw [rd16_wr16_ne _ _ _ _ (by decide), rd16_wr16_ne _ _ _ _ (by decide)]

theorem build_pack_data (s : State) (d n i : Nat) (h : OFF_DATA ≤ i) :
    rd8 (build_pack s d n) i = rd8 s.send_buf i := by
  obtain ⟨-, e4, -, -, e8, e10, e12, -⟩ := layout
  unfold build_pack
  dsimp only
  rw [rd8_wr16_ne _ _ _ _ (by omega) (by omega), rd8_wr16_ne _ _ _ _ (by omega) (by omega),
    build_head_data _ _ _ (by omega)]

/-! ### The outcomes of the receive validation -/

theorem check_pack_of_passes (now : Nat) (s : State) (h : passes_checks s) :
    check_pack now s = check_pack_tail now s
      ∧ check_pack_tail now s
          = (if !s.flag_is_master ∧ rd16 s.recv_buf OFF_SEQNO = s.slave_recv_seqno_last then
              { st := (resend_pack now { s with
                    pack_count_info := count_recv s.pack_count_info PACK_RECV_RETRY }).st
                calls := (resend_pack now { s with
                    pack_count_info := count_recv s.pack_count_info PACK_RECV_RETRY }).calls
                ret := PACK_RECV_RETRY }
            else { st := accept s, calls := [], ret := PACK_RECV_NEW }) := by
  obtain ⟨h0, h1, h2, h3, h4, h5, h6, h7, h8⟩ := h
  constructor
  · unfold check_pack
    cases hm : s.flag_is_master <;> simp_all
  · unfold check_pack_tail
    dsimp only
    have h9 : ¬ (rd16 s.recv_buf OFF_LEN < 1 ∨ rd16 s.recv_buf OFF_LEN > MAX_DATA_LEN) := by
      omega
    rw [if_neg h9, if_neg (not_not.mpr h8)]

theorem check_pack_tail_ok (now : Nat) (s : State)
    (h : (check_pack_tail now s).ret = PACK_RECV_NEW
      ∨ (check_pack_tail now s).ret = PACK_RECV_RETRY) :
    1 ≤ rd16 s.recv_buf OFF_LEN ∧ rd16 s.recv_buf OFF_LEN ≤ MAX_DATA_LEN
      ∧ rd16 s.recv_buf OFF_CHKSUM
          = checksum s.recv_buf OFF_SEQNO
              ((rd16 s.recv_buf OFF_LEN + CHECKSUM_HEAD_LEN) % 65536) := by
  unfold check_pack_tail at h
  dsimp only at h
  split_ifs at h with h1 h2 h3
  · simp [reject] at h
  · simp [reject] at h
  · exact ⟨by omega, by omega, not_not.mp h2⟩
  · exact ⟨by omega, by omega, not_not.mp h2⟩

theorem check_pack_ok (now : Nat) (s : State)
    (h : (check_pack now s).ret = PACK_RECV_NEW ∨ (check_pack now s).ret = PACK_RECV_RETRY) :
    passes_checks s := by
  unfold check_pack at h
  unfold passes_checks
  split_ifs at h with h1 h2 h3 h4 h5 h6 h7
  any_goals (simp [reject] at h)
  · have := check_pack_tail_ok now s h
    simp only [h4, if_true]
    refine ⟨?_, ?_, ?_, not_not.mp h2, not_not.mp h3, ⟨not_not.mp h5, not_not.mp h6⟩, this⟩ <;>
      (by_contra hc; exact h1 (by tauto))
  · have := check_pack_tail_ok now s h
    simp only [h4, Bool.false_eq_true, if_false]
    refine ⟨?_, ?_, ?_, not_not.mp h2, not_not.mp h3, not_not.mp h7, this⟩ <;>
      (by_contra hc; exact h1 (by tauto))

/-! ### End-to-end exchange -/

theorem rd8_pack_recv_span (b : Buf) (k i : Nat) (s : State) (h : i < k) :
    rd8 (pack_recv (span b k) s).recv_buf i = rd8 b i := by
  by_cases hi : i < MAX_BUF_SIZE
  · have h1 : i < (span b k).length := by rw [span_length]; exact h
    simp only [rd8, pack_recv, hi, h1, dif_pos, if_true]
    rw [span_getD _ _ _ h]
    have := rd8_mod b i
    simp only [rd8, hi, dif_pos] at this
    simp only [rd8, hi, dif_pos]
    exact this
  · rw [rd8_out _ _ (by omega), rd8_out _ _ (by omega)]

/-- A receive buffer that begins with the `12 + n` bytes of a frame built by a
new send holds the header fields of that frame, and its stored checksum equals
the recomputed one. -/
theorem recv_frame_fields (rb : Buf) (s : State) (d n : Nat)
    (h1 : 1 ≤ n) (h2 : n ≤ MAX_DATA_LEN)
    (hb : ∀ i, i < HEADER_SIZE + n → rd8 rb i = rd8 (build_pack s d n) i) :
    rd8 rb OFF_PREMBLE = PACK_PREMBLE
      ∧ rd8 rb (OFF_PREMBLE + 1) = PACK_PREMBLE
      ∧ rd8 rb (OFF_PREMBLE + 2) = PACK_PREMBLE
      ∧ rd8 rb OFF_START = PACK_START
      ∧ rd8 rb OFF_SRC = s.local_addr % 256
      ∧ rd8 rb OFF_DEST = (if s.flag_is_master then d % 256 else s.master_addr % 256)
      ∧ rd16 rb OFF_SEQNO
          = (if s.flag_is_master then next_seqno (rd16 s.send_buf OFF_SEQNO)
              else s.slave_recv_seqno_last % 65536)
      ∧ rd16 rb OFF_LEN = n
      ∧ rd16 rb OFF_CHKSUM
          = checksum rb OFF_SEQNO ((rd16 rb OFF_LEN + CHECKSUM_HEAD_LEN) % 65536) := by
  obtain ⟨e3, e4, e6, e7, e8, e10, -, e12, e6', e88, e100⟩ := layout
  have hn : n % 65536 = n := by omega
  have hcnt : (n + CHECKSUM_HEAD_LEN) % 65536 = n + CHECKSUM_HEAD_LEN := by omega
  obtain ⟨f0, f1, f2, f3, f4, f5⟩ := build_pack_framing s d n
  have hlen : rd16 rb OFF_LEN = n := by
    unfold rd16
    rw [hb _ (by omega), hb _ (by omega)]
    have := build_pack_len s d n
    unfold rd16 at this
    omega
  refine ⟨?_, ?_, ?_, ?_, ?_, ?_, ?_, hlen, ?_⟩
  · rw [hb _ (by simp only [OFF_PREMBLE]; omega), f0]
  · rw [hb _ (by simp only [OFF_PREMBLE]; omega), f1]
  · rw [hb _ (by simp only [OFF_PREMBLE]; omega), f2]
  · rw [hb _ (by omega), f3]
  · rw [hb _ (by omega), f4]
  · rw [hb _ (by omega), f5]
  · rw [← build_pack_seqno s d n]
    unfold rd16
    rw [hb _ (by omega), hb _ (by omega)]
  · rw [hlen, hcnt]
    have hck := build_pack_chksum s d n
    rw [build_pack_len, hn, hcnt] at hck
    rw [checksum_congr _ (build_pack s d n) _ _ (fun i _ h => hb i (by omega)), ← hck]
    unfold rd16
    rw [hb _ (by omega), hb _ (by omega)]

theorem send_pack_new_st (now d n : Nat) (s : State) :
    (send_pack now d n true s).st
      = (if s.flag_is_master then
          { s with
            send_buf := build_pack s d n
            pack_count_info := count_send s.pack_count_info PACK_SEND_NEW
            flag_master_need_ack := true
            master_send_time_last := now % 2 ^ 32
            master_send_seqno_last := rd16 (build_pack s d n) OFF_SEQNO
            master_send_addr_last := rd8 (build_pack s d n) OFF_DEST }
        else
          { s with
            send_buf := build_pack s d n
            pack_count_info := count_send s.pack_count_info PACK_SEND_NEW }) := by
  unfold send_pack
  dsimp only
  simp only [if_true]

theorem wire_send_pack_new (now d n : Nat) (s : State) (h : n ≤ MAX_DATA_LEN) :
    wire (send_pack now d n true s) = span (build_pack s d n) (HEADER_SIZE + n) := by
  obtain ⟨-, -, -, -, -, -, -, e12, -, e88, -⟩ := layout
  have hc : (HEADER_SIZE + n % 65536) % 65536 = HEADER_SIZE + n := by omega
  unfold wire
  rw [send_pack_new_calls, hc]

theorem seqno_of_span (b : Buf) (k : Nat) (h : HEADER_SIZE ≤ k) :
    seqno_of (span b k) = rd16 b OFF_SEQNO := by
  obtain ⟨-, -, -, -, e8, -, -, e12, -⟩ := layout
  unfold seqno_of rd16
  rw [span_getD _ _ _ (by omega), span_getD _ _ _ (by omega)]

theorem rd16_write_send_data_head (data : List Nat) (s : State) (i : Nat) (h : i + 1 < OFF_DATA) :
    rd16 (write_send_data data s).send_buf i = rd16 s.send_buf i := by
  simp only [OFF_DATA] at h
  have h1 : ¬ (OFF_DATA ≤ i) := by simp only [OFF_DATA]; omega
  have h2 : ¬ (OFF_DATA ≤ i + 1) := by simp only [OFF_DATA]; omega
  have h3 : i < MAX_BUF_SIZE := by simp only [MAX_BUF_SIZE]; omega
  have h4 : i + 1 < MAX_BUF_SIZE := by simp only [MAX_BUF_SIZE]; omega
  simp [rd16, rd8, write_send_data, h1, h2, h3, h4]

/-- C6: from fresh state, for every master address `m`, slave address `sl`,
request length `n` and reply length `n'` in `[1, MAX_DATA_LEN]` and all payload
bytes: the frame of `master_send_pack sl n` after `master_init_pack` has seqno
1; the slave initialised with `slave_init_pack sl m`, holding those bytes in its
receive buffer, gets new-valid; its `slave_send_pack n'` emits a frame with
seqno 1; the master, holding those bytes in its receive buffer, gets new-valid,
after which it is not waiting for an ack, its resend times are 0, and the
new-send and new-receive counters are 1 on each side. -/
theorem end_to_end_exchange (m sl D f g n n' tm ts tm' : Nat) (p p' : List Nat)
    (h1 : 1 ≤ n) (h2 : n ≤ MAX_DATA_LEN) (h3 : 1 ≤ n') (h4 : n' ≤ MAX_DATA_LEN) :
    let M1 := master_send_pack tm sl n (write_send_data p (master_init_pack m D f))
    let S1 := check_pack ts (pack_recv (wire M1) (slave_init_pack sl m g))
    let S2 := slave_send_pack ts n' (write_send_data p' S1.st)
    let M2 := check_pack tm' (pack_recv (wire S2) M1.st)
    M1.calls.length = 1 ∧ seqno_of (wire M1) = 1
      ∧ S1.ret = PACK_RECV_NEW
      ∧ S2.calls.length = 1 ∧ seqno_of (wire S2) = 1
      ∧ M2.ret = PACK_RECV_NEW
      ∧ M2.st.flag_master_need_ack = false ∧ M2.st.master_retry_times = 0
      ∧ M2.st.pack_count_info.send_pack_count PACK_SEND_NEW = 1
      ∧ M2.st.pack_count_info.recv_pack_count PACK_RECV_NEW = 1
      ∧ S2.st.pack_count_info.send_pack_count PACK_SEND_NEW = 1
      ∧ S2.st.pack_count_info.recv_pack_count PACK_RECV_NEW = 1 := by
  intro M1 S1 S2 M2
  obtain ⟨e3, e4, e6, e7, e8, e10, e12d, e12, e6', e88, e100⟩ := layout
  -- the master's first frame
  have hM0m : (write_send_data p (master_init_pack m D f)).flag_is_master = true := rfl
  have hM0s : rd16 (write_send_data p (master_init_pack m D f)).send_buf OFF_SEQNO = 0 := by
    rw [rd16_write_send_data_head _ _ _ (by decide)]; rfl
  have hM1st := send_pack_new_st tm sl n (write_send_data p (master_init_pack m D f))
  rw [if_pos hM0m] at hM1st
  have hM1w : wire M1 = span (build_pack (write_send_data p (master_init_pack m D f)) sl n)
      (HEADER_SIZE + n) := wire_send_pack_new tm sl n _ h2
  have hM1c : M1.calls.length = 1 := by
    show (send_pack tm sl n true _).calls.length = 1
    rw [send_pack_new_calls]; rfl
  -- the slave receives it
  have hS0 := recv_frame_fields (pack_recv (wire M1) (slave_init_pack sl m g)).recv_buf
    (write_send_data p (master_init_pack m D f)) sl n h1 h2
    (fun i hi => by rw [hM1w]; exact rd8_pack_recv_span _ _ _ _ hi)
  rw [if_pos hM0m, if_pos hM0m, hM0s] at hS0
  obtain ⟨a0, a1, a2, a3, a4, a5, a6, a7, a8⟩ := hS0
  have hq : next_seqno 0 = 1 := by decide
  rw [hq] at a6
  have hS0p : passes_checks (pack_recv (wire M1) (slave_init_pack sl m g)) := by
    refine ⟨a0, a1, a2, a3, ?_, ?_, ?_, ?_, a8⟩
    · rw [a5]; rfl
    · show rd8 _ OFF_SRC = m % 256
      rw [a4]
      show m % 256 % 256 = m % 256
      omega
    · omega
    · omega
  obtain ⟨hS1a, hS1b⟩ := check_pack_of_passes ts _ hS0p
  have hS1 : S1 = { st := accept (pack_recv (wire M1) (slave_init_pack sl m g)), calls := []
                    ret := PACK_RECV_NEW } := by
    show check_pack ts _ = _
    rw [hS1a, hS1b, if_neg]
    rw [a6]
    show ¬ (_ ∧ 1 = 0)
    omega
  -- the slave replies
  have hS1m : (write_send_data p' S1.st).flag_is_master = false := by rw [hS1]; rfl
  have hS1q : (write_send_data p' S1.st).slave_recv_seqno_last = 1 := by
    rw [hS1]
    show rd16 (pack_recv (wire M1) (slave_init_pack sl m g)).recv_buf OFF_SEQNO = 1
    exact a6
  have hS2st := send_pack_new_st ts 0 n' (write_send_data p' S1.st)
  rw [if_neg (by rw [hS1m]; decide)] at hS2st
  have hS2w : wire S2 = span (build_pack (write_send_data p' S1.st) 0 n') (HEADER_SIZE + n') :=
    wire_send_pack_new ts 0 n' _ h4
  have hS2c : S2.calls.length = 1 := by
    show (send_pack ts 0 n' true _).calls.length = 1
    rw [send_pack_new_calls]; rfl
  -- the master receives the reply
  have hM1' := recv_frame_fields (pack_recv (wire S2) M1.st).recv_buf
    (write_send_data p' S1.st) 0 n' h3 h4
    (fun i hi => by rw [hS2w]; exact rd8_pack_recv_span _ _ _ _ hi)
  rw [hS1m, hS1q] at hM1'
  simp only [Bool.false_eq_true, if_false] at hM1'
  obtain ⟨b0, b1, b2, b3, b4, b5, b6, b7, b8⟩ := hM1'
  have hM1p : passes_checks (pack_recv (wire S2) M1.st) := by
    refine ⟨b0, b1, b2, b3, ?_, ?_, ?_, ?_, b8⟩
    · rw [b5]
      show (write_send_data p' S1.st).master_addr % 256 = M1.st.local_addr
      rw [hS1]
      show m % 256 % 256 = (send_pack tm sl n true _).st.local_addr
      rw [hM1st]
      show m % 256 % 256 = m % 256
      omega
    · have hmm : (pack_recv (wire S2) M1.st).flag_is_master = true := by
        show (send_pack tm sl n true _).st.flag_is_master = true
        rw [hM1st]; rfl
      rw [if_pos hmm]
      constructor
      · rw [b4]
        show (write_send_data p' S1.st).local_addr % 256 = (send_pack tm sl n true _).st.master_send_addr_last
        rw [hM1st, hS1]
        show sl % 256 % 256 = rd8 (build_pack _ sl n) OFF_DEST
        rw [(build_pack_framing _ sl n).2.2.2.2.2, if_pos hM0m]
        omega
      · rw [b6]
        show 1 % 65536 = (send_pack tm sl n true _).st.master_send_seqno_last
        rw [hM1st]
        show 1 % 65536 = rd16 (build_pack _ sl n) OFF_SEQNO
        rw [build_pack_seqno, if_pos hM0m, hM0s, hq]
    · omega
    · omega
  obtain ⟨hM2a, hM2b⟩ := check_pack_of_passes tm' _ hM1p
  have hmm : (pack_recv (wire S2) M1.st).flag_is_master = true := by
    show (send_pack tm sl n true _).st.flag_is_master = true
    rw [hM1st]; rfl
  have hM2 : M2 = { st := accept (pack_recv (wire S2) M1.st), calls := []
                    ret := PACK_RECV_NEW } := by
    show check_pack tm' _ = _
    rw [hM2a, hM2b, if_neg]
    rw [hmm]
    simp
  refine ⟨hM1c, ?_, ?_, hS2c, ?_, ?_, ?_, ?_, ?_, ?_, ?_, ?_⟩
  · rw [hM1w, seqno_of_span _ _ (by omega), build_pack_seqno, if_pos hM0m, hM0s, hq]
  · rw [hS1]
  · rw [hS2w, seqno_of_span _ _ (by omega), build_pack_seqno, hS1m, hS1q]
    rfl
  · rw [hM2]
  · rw [hM2]
    show (accept _).flag_master_need_ack = false
    unfold accept
    dsimp only
    rw [if_pos hmm]
  · rw [hM2]
    show (accept _).master_retry_times = 0
    unfold accept
    dsimp only
    rw [if_pos hmm]
  · rw [hM2]
    show (accept _).pack_count_info.send_pack_count PACK_SEND_NEW = 1
    unfold accept
    dsimp only
    rw [if_pos hmm]
    have hc : M1.st.pack_count_info.send_pack_count PACK_SEND_NEW = 1 := by
      show (send_pack tm sl n true _).st.pack_count_info.send_pack_count PACK_SEND_NEW = 1
      rw [hM1st]
      rfl
    exact hc
  · rw [hM2]
    show (accept _).pack_count_info.recv_pack_count PACK_RECV_NEW = 1
    unfold accept
    dsimp only
    rw [if_pos hmm]
    have hc : M1.st.pack_count_info.recv_pack_count PACK_RECV_NEW = 0 := by
      show (send_pack tm sl n true _).st.pack_count_info.recv_pack_count PACK_RECV_NEW = 0
      rw [hM1st]
      rfl
    show (M1.st.pack_count_info.recv_pack_count PACK_RECV_NEW + 1) % 2 ^ 32 = 1
    rw [hc]
    rfl
  · show (send_pack ts 0 n' true _).st.pack_count_info.send_pack_count PACK_SEND_NEW = 1
    rw [hS2st, hS1]
    rfl
  · show (send_pack ts 0 n' true _).st.pack_count_info.recv_pack_count PACK_RECV_NEW = 1
    rw [hS2st, hS1]
    rfl


/-- C6 at master 100, slave 102, a request of 5 bytes and a reply of 2. -/
theorem end_to_end_exchange_witness :
    1 ≤ 5 ∧ 5 ≤ MAX_DATA_LEN ∧ 1 ≤ 2 ∧ 2 ≤ MAX_DATA_LEN
      ∧ (let M1 := master_send_pack 1000 102 5
            (write_send_data [67, 49, 50, 51, 52] (master_init_pack 100 50 7))
        let S1 := check_pack 2000 (pack_recv (wire M1) (slave_init_pack 102 100 9))
        let S2 := slave_send_pack 2000 2 (write_send_data [77, 78] S1.st)
        let M2 := check_pack 3000 (pack_recv (wire S2) M1.st)
        M1.calls.length = 1 ∧ seqno_of (wire M1) = 1
          ∧ S1.ret = PACK_RECV_NEW
          ∧ S2.calls.length = 1 ∧ seqno_of (wire S2) = 1
          ∧ M2.ret = PACK_RECV_NEW
          ∧ M2.st.flag_master_need_ack = false ∧ M2.st.master_retry_times = 0
          ∧ M2.st.pack_count_info.send_pack_count PACK_SEND_NEW = 1
          ∧ M2.st.pack_count_info.recv_pack_count PACK_RECV_NEW = 1
          ∧ S2.st.pack_count_info.send_pack_count PACK_SEND_NEW = 1
          ∧ S2.st.pack_count_info.recv_pack_count PACK_RECV_NEW = 1) :=
  ⟨by decide, by decide, by decide, by decide,
    end_to_end_exchange 100 102 50 7 9 5 2 1000 2000 3000 [67, 49, 50, 51, 52] [77, 78]
      (by decide) (by decide) (by decide) (by decide)⟩

/-! ### Sequence numbers of the master -/

theorem resend_pack_keeps (now : Nat) (s : State) :
    (resend_pack now s).st.send_buf = s.send_buf
      ∧ (resend_pack now s).st.flag_is_master = s.flag_is_master := by
  unfold resend_pack send_pack
  dsimp only
  simp only [Bool.false_eq_true, if_false]
  split_ifs <;> exact ⟨rfl, rfl⟩

theorem check_pack_tail_keeps (now : Nat) (s : State) :
    (check_pack_tail now s).st.send_buf = s.send_buf
      ∧ (check_pack_tail now s).st.flag_is_master = s.flag_is_master := by
  unfold check_pack_tail
  dsimp only
  split_ifs
  · exact ⟨rfl, rfl⟩
  · exact ⟨rfl, rfl⟩
  · exact resend_pack_keeps now _
  · unfold accept
    dsimp only
    split_ifs <;> exact ⟨rfl, rfl⟩

theorem check_pack_keeps (now : Nat) (s : State) :
    (check_pack now s).st.send_buf = s.send_buf
      ∧ (check_pack now s).st.flag_is_master = s.flag_is_master := by
  unfold check_pack
  split_ifs
  all_goals first
    | exact ⟨rfl, rfl⟩
    | exact check_pack_tail_keeps now s

theorem master_check_ack_delay_keeps (now : Nat) (s : State) :
    (master_check_ack_delay now s).st.send_buf = s.send_buf
      ∧ (master_check_ack_delay now s).st.flag_is_master = s.flag_is_master := by
  unfold master_check_ack_delay
  split_ifs
  · exact resend_pack_keeps now _
  · exact ⟨rfl, rfl⟩
  · exact ⟨rfl, rfl⟩

theorem rd8_write_send_data_head (data : List Nat) (s : State) (i : Nat) (h : i < OFF_DATA) :
    rd8 (write_send_data data s).send_buf i = rd8 s.send_buf i := by
  have h1 : ¬ (OFF_DATA ≤ i) := by omega
  by_cases h3 : i < MAX_BUF_SIZE
  · simp [rd8, write_send_data, h1, h3]
  · simp [rd8, h3]

theorem host_step_keeps (s : State) (op : HostOp) :
    (host_step s op).flag_is_master = s.flag_is_master
      ∧ ∀ i, i < OFF_DATA → rd8 (host_step s op).send_buf i = rd8 s.send_buf i := by
  cases op with
  | recv bytes => exact ⟨rfl, fun _ _ => rfl⟩
  | check now =>
    exact ⟨(check_pack_keeps now s).2, fun i _ => by
      show rd8 (check_pack now s).st.send_buf i = _
      rw [(check_pack_keeps now s).1]⟩
  | poll now =>
    exact ⟨(master_check_ack_delay_keeps now s).2, fun i _ => by
      show rd8 (master_check_ack_delay now s).st.send_buf i = _
      rw [(master_check_ack_delay_keeps now s).1]⟩
  | write data => exact ⟨rfl, fun i hi => rd8_write_send_data_head data s i hi⟩

theorem host_run_keeps (ops : List HostOp) : ∀ (s : State),
    (host_run s ops).flag_is_master = s.flag_is_master
      ∧ ∀ i, i < OFF_DATA → rd8 (host_run s ops).send_buf i = rd8 s.send_buf i := by
  induction ops with
  | nil => intro s; exact ⟨rfl, fun _ _ => rfl⟩
  | cons op ops ih =>
    intro s
    obtain ⟨h1, h2⟩ := ih (host_step s op)
    obtain ⟨h3, h4⟩ := host_step_keeps s op
    exact ⟨h1.trans h3, fun i hi => (h2 i hi).trans (h4 i hi)⟩

theorem next_seqno_cases (q : Nat) (h : q < 65536) :
    next_seqno q ≠ 0 ∧ next_seqno q < 65536
      ∧ (q < 65535 → next_seqno q = q + 1) ∧ (q = 65535 → next_seqno q = 1) := by
  unfold next_seqno
  split_ifs <;> omega

/-- C7, as stated, fails: a master whose last frame had seqno 65534 emits
seqno 65535 and then seqno 1, which is not 65535 advanced by 1 modulo `2^16`
(that is 0). -/
theorem master_seqno_wraps_to_one :
    seqno_of (wire (master_send_pack 0 102 1 st_master_wrap)) = 65535
      ∧ seqno_of (wire (master_send_pack 0 102 1
          (master_send_pack 0 102 1 st_master_wrap).st)) = 1
      ∧ seqno_of (wire (master_send_pack 0 102 1
            (master_send_pack 0 102 1 st_master_wrap).st))
          ≠ (seqno_of (wire (master_send_pack 0 102 1 st_master_wrap)) + 1) % 65536 := by
  decide

/-- C7, amended: for every master state and every two consecutive new master
sends, with any host operations in between (received bytes, `check_pack`, ack
timeout polls with their resends, application writes to the data part), the
seqno of the second frame is the seqno of the first plus 1, except that after
65535 it is 1; no new master send emits seqno 0.  The seqno is the field built
in the send buffer, recorded as the last seqno sent, and it is the one in the
bytes given to the sink whenever the data length is at most `MAX_DATA_LEN`. -/
theorem master_seqno_advance (s : State) (ops : List HostOp) (t1 d1 n1 t2 d2 n2 : Nat)
    (hm : s.flag_is_master = true) :
    let A := master_send_pack t1 d1 n1 s
    let B := master_send_pack t2 d2 n2 (host_run A.st ops)
    let q1 := rd16 A.st.send_buf OFF_SEQNO
    let q2 := rd16 B.st.send_buf OFF_SEQNO
    q1 ≠ 0 ∧ q2 ≠ 0
      ∧ q2 = (if q1 = 65535 then 1 else q1 + 1)
      ∧ A.st.master_send_seqno_last = q1 ∧ B.st.master_send_seqno_last = q2
      ∧ (n1 ≤ MAX_DATA_LEN → seqno_of (wire A) = q1)
      ∧ (n2 ≤ MAX_DATA_LEN → seqno_of (wire B) = q2) := by
  intro A B q1 q2
  obtain ⟨-, -, -, -, e8, -, e12d, e12, -⟩ := layout
  have hA : A.st.send_buf = build_pack s d1 n1 := send_pack_new_buf t1 d1 n1 s
  have hAm : A.st.flag_is_master = true := by
    show (send_pack t1 d1 n1 true s).st.flag_is_master = true
    rw [send_pack_new_st, if_pos hm]
    exact hm
  obtain ⟨hk1, hk2⟩ := host_run_keeps ops A.st
  have hRm : (host_run A.st ops).flag_is_master = true := hk1.trans hAm
  have hRq : rd16 (host_run A.st ops).send_buf OFF_SEQNO = q1 := by
    show rd8 _ _ + 256 * rd8 _ _ = rd8 _ _ + 256 * rd8 _ _
    rw [hk2 _ (by omega), hk2 _ (by omega)]
  have hB : B.st.send_buf = build_pack (host_run A.st ops) d2 n2 := send_pack_new_buf t2 d2 n2 _
  have h1 : q1 = next_seqno (rd16 s.send_buf OFF_SEQNO) := by
    show rd16 A.st.send_buf OFF_SEQNO = _
    rw [hA, build_pack_seqno, if_pos hm]
  have h2 : q2 = next_seqno q1 := by
    show rd16 B.st.send_buf OFF_SEQNO = _
    rw [hB, build_pack_seqno, if_pos hRm, hRq]
  obtain ⟨c1, c2, -, -⟩ := next_seqno_cases _ (rd16_lt s.send_buf OFF_SEQNO)
  rw [← h1] at c1 c2
  obtain ⟨c3, -, c5, c6⟩ := next_seqno_cases q1 c2
  rw [← h2] at c3 c5 c6
  have c7 : q2 = (if q1 = 65535 then 1 else q1 + 1) := by
    split_ifs with hq
    · exact c6 hq
    · exact c5 (by omega)
  refine ⟨c1, c3, c7, ?_, ?_, ?_, ?_⟩
  · show (send_pack t1 d1 n1 true s).st.master_send_seqno_last = rd16 A.st.send_buf OFF_SEQNO
    rw [hA, send_pack_new_st, if_pos hm]
  · show (send_pack t2 d2 n2 true _).st.master_send_seqno_last = rd16 B.st.send_buf OFF_SEQNO
    rw [hB, send_pack_new_st, if_pos hRm]
  · intro hn
    show seqno_of (wire (send_pack t1 d1 n1 true s)) = rd16 A.st.send_buf OFF_SEQNO
    rw [wire_send_pack_new _ _ _ _ hn, seqno_of_span _ _ (by omega), hA]
  · intro hn
    show seqno_of (wire (send_pack t2 d2 n2 true _)) = rd16 B.st.send_buf OFF_SEQNO
    rw [wire_send_pack_new _ _ _ _ hn, seqno_of_span _ _ (by omega), hB]


/-- C7, amended, at the master `st_master_ready` with a poll, a received frame,
a check and an application write between its two sends. -/
theorem master_seqno_advance_witness :
    st_master_ready.flag_is_master = true
      ∧ (let A := master_send_pack 1000 102 5 st_master_ready
        let B := master_send_pack 3000 103 2
          (host_run A.st [HostOp.poll 2000, HostOp.recv [1, 2, 3], HostOp.check 2001,
            HostOp.write [9]])
        let q1 := rd16 A.st.send_buf OFF_SEQNO
        let q2 := rd16 B.st.send_buf OFF_SEQNO
        q1 ≠ 0 ∧ q2 ≠ 0
          ∧ q2 = (if q1 = 65535 then 1 else q1 + 1)
          ∧ A.st.master_send_seqno_last = q1 ∧ B.st.master_send_seqno_last = q2
          ∧ (5 ≤ MAX_DATA_LEN → seqno_of (wire A) = q1)
          ∧ (2 ≤ MAX_DATA_LEN → seqno_of (wire B) = q2)) :=
  ⟨rfl, master_seqno_advance st_master_ready
    [HostOp.poll 2000, HostOp.recv [1, 2, 3], HostOp.check 2001, HostOp.write [9]]
    1000 102 5 3000 103 2 rfl⟩

/-! ### Resent packages and the ack timeout -/

theorem passes_checks_accept (s : State) (hm : s.flag_is_master = false)
    (h : passes_checks s) : passes_checks (accept s) := by
  unfold accept
  dsimp only
  rw [if_neg (by rw [hm]; decide)]
  unfold passes_checks at h ⊢
  dsimp only
  exact h

theorem resend_pack_eq (now : Nat) (s : State) (hm : s.flag_is_master = false) :
    resend_pack now s
      = { st := { s with pack_count_info := count_send s.pack_count_info PACK_SEND_RETRY }
          calls := [{ func := s.send_bytes
                      count := (HEADER_SIZE + rd16 s.send_buf OFF_LEN) % 65536
                      bytes := span s.send_buf
                        ((HEADER_SIZE + rd16 s.send_buf OFF_LEN) % 65536) }]
          ret := () } := by
  unfold resend_pack send_pack
  dsimp only
  simp only [Bool.false_eq_true, if_false, hm]

/-- C8, as stated, fails: at a slave whose resend counter holds `2^32 - 1`, a
valid frame with a new seqno is new-valid and then a resent package, and the
second call does not raise the resend counter by 1: it wraps to 0. -/
theorem duplicate_resend_counter_wraps :
    (check_pack 0 st_slave_resend_full).ret = PACK_RECV_NEW
      ∧ (check_pack 0 (check_pack 0 st_slave_resend_full).st).ret = PACK_RECV_RETRY
      ∧ (check_pack 0 st_slave_resend_full).st.pack_count_info.send_pack_count PACK_SEND_RETRY
          = 4294967295
      ∧ (check_pack 0 (check_pack 0 st_slave_resend_full).st).st.pack_count_info.send_pack_count
          PACK_SEND_RETRY = 0 := by
  decide

/-- C8, amended: for every slave state and every frame that passes the
framing, addressing, length and checksum checks and whose seqno differs from
the last seqno received, two calls of `check_pack` in a row on that receive
buffer return new-valid and then resent-package; the second call makes exactly
one sink call, with the frame held in the send buffer, adds 1 modulo `2^32` to
the resend counter, and leaves the new-receive counter, the new-send counter and
the last seqno received (set by the first call) unchanged. -/
theorem duplicate_idempotence (s : State) (t1 t2 : Nat)
    (hm : s.flag_is_master = false) (hp : passes_checks s)
    (hq : rd16 s.recv_buf OFF_SEQNO ≠ s.slave_recv_seqno_last) :
    let o1 := check_pack t1 s
    let o2 := check_pack t2 o1.st
    o1.ret = PACK_RECV_NEW ∧ o1.calls = [] ∧ o1.st.recv_buf = s.recv_buf
      ∧ o1.st.slave_recv_seqno_last = rd16 s.recv_buf OFF_SEQNO
      ∧ o2.ret = PACK_RECV_RETRY
      ∧ o2.calls = [{ func := s.send_bytes
                      count := (HEADER_SIZE + rd16 s.send_buf OFF_LEN) % 65536
                      bytes := span s.send_buf
                        ((HEADER_SIZE + rd16 s.send_buf OFF_LEN) % 65536) }]
      ∧ o2.st.send_buf = s.send_buf
      ∧ o2.st.pack_count_info.send_pack_count PACK_SEND_RETRY
          = (s.pack_count_info.send_pack_count PACK_SEND_RETRY + 1) % 2 ^ 32
      ∧ o2.st.pack_count_info.send_pack_count PACK_SEND_NEW
          = s.pack_count_info.send_pack_count PACK_SEND_NEW
      ∧ o2.st.pack_count_info.recv_pack_count PACK_RECV_NEW
          = o1.st.pack_count_info.recv_pack_count PACK_RECV_NEW
      ∧ o2.st.slave_recv_seqno_last = o1.st.slave_recv_seqno_last := by
  intro o1 o2
  obtain ⟨ha, hb⟩ := check_pack_of_passes t1 s hp
  have h1 : o1 = { st := accept s, calls := [], ret := PACK_RECV_NEW } := by
    show check_pack t1 s = _
    rw [ha, hb, if_neg (fun h => hq h.2)]
  have hacc : accept s
      = { s with
          pack_count_info := count_recv s.pack_count_info PACK_RECV_NEW
          slave_recv_seqno_last := rd16 s.recv_buf OFF_SEQNO } := by
    unfold accept
    dsimp only
    rw [if_neg (by rw [hm]; decide)]
  have hp2 : passes_checks (accept s) := passes_checks_accept s hm hp
  obtain ⟨hc, hd⟩ := check_pack_of_passes t2 (accept s) hp2
  have hdup : (!(accept s).flag_is_master) = true
      ∧ rd16 (accept s).recv_buf OFF_SEQNO = (accept s).slave_recv_seqno_last := by
    rw [hacc]
    exact ⟨by show (!s.flag_is_master) = true; rw [hm]; rfl, rfl⟩
  have h2 : o2 = { st := { accept s with
                      pack_count_info := count_send
                        (count_recv (accept s).pack_count_info PACK_RECV_RETRY) PACK_SEND_RETRY }
                   calls := [{ func := s.send_bytes
                               count := (HEADER_SIZE + rd16 s.send_buf OFF_LEN) % 65536
                               bytes := span s.send_buf
                                 ((HEADER_SIZE + rd16 s.send_buf OFF_LEN) % 65536) }]
                   ret := PACK_RECV_RETRY } := by
    show check_pack t2 o1.st = _
    rw [h1]
    show check_pack t2 (accept s) = _
    rw [hc, hd, if_pos hdup, resend_pack_eq _ _ (by rw [hacc]; exact hm), hacc]
  rw [h1, h2, hacc]
  refine ⟨rfl, rfl, rfl, rfl, rfl, rfl, rfl, ?_, ?_, ?_, rfl⟩
  · simp [count_send, count_recv]
  · simp [count_send, count_recv]
  · simp [count_send, count_recv]

/-- C8, amended, at the slave `st_slave_frame`. -/
theorem duplicate_idempotence_witness :
    st_slave_frame.flag_is_master = false ∧ passes_checks st_slave_frame
      ∧ rd16 st_slave_frame.recv_buf OFF_SEQNO ≠ st_slave_frame.slave_recv_seqno_last
      ∧ (let o1 := check_pack 0 st_slave_frame
        let o2 := check_pack 1 o1.st
        o1.ret = PACK_RECV_NEW ∧ o1.calls = [] ∧ o1.st.recv_buf = st_slave_frame.recv_buf
          ∧ o1.st.slave_recv_seqno_last = rd16 st_slave_frame.recv_buf OFF_SEQNO
          ∧ o2.ret = PACK_RECV_RETRY
          ∧ o2.calls = [{ func := st_slave_frame.send_bytes
                          count := (HEADER_SIZE + rd16 st_slave_frame.send_buf OFF_LEN) % 65536
                          bytes := span st_slave_frame.send_buf
                            ((HEADER_SIZE + rd16 st_slave_frame.send_buf OFF_LEN) % 65536) }]
          ∧ o2.st.send_buf = st_slave_frame.send_buf
          ∧ o2.st.pack_count_info.send_pack_count PACK_SEND_RETRY
              = (st_slave_frame.pack_count_info.send_pack_count PACK_SEND_RETRY + 1) % 2 ^ 32
          ∧ o2.st.pack_count_info.send_pack_count PACK_SEND_NEW
              = st_slave_frame.pack_count_info.send_pack_count PACK_SEND_NEW
          ∧ o2.st.pack_count_info.recv_pack_count PACK_RECV_NEW
              = o1.st.pack_count_info.recv_pack_count PACK_RECV_NEW
          ∧ o2.st.slave_recv_seqno_last = o1.st.slave_recv_seqno_last) :=
  ⟨rfl, by unfold passes_checks; decide, by decide,
    duplicate_idempotence st_slave_frame 0 1 rfl (by unfold passes_checks; decide) (by decide)⟩


/-- C9, as stated, fails: a master waiting for an ack with last send time 10
and max ack delay 5, polled at time `10 + 5`, calls no sink and keeps its resend
times; and a master with 65535 resend times, polled after the timeout, resends
and its resend times wrap to 0 instead of going up by 1. -/
theorem ack_delay_boundary_no_resend :
    (st_master_waiting 0).flag_is_master = true
      ∧ (st_master_waiting 0).flag_master_need_ack = true
      ∧ (st_master_waiting 0).master_send_time_last = 10
      ∧ (st_master_waiting 0).master_max_ack_delay = 5
      ∧ (master_check_ack_delay (10 + 5) (st_master_waiting 0)).calls = []
      ∧ (master_check_ack_delay (10 + 5) (st_master_waiting 0)).ret = 0
      ∧ (master_check_ack_delay (10 + 5) (st_master_waiting 0)).st.master_retry_times = 0
      ∧ (st_master_waiting 65535).master_retry_times = 65535
      ∧ (master_check_ack_delay 16 (st_master_waiting 65535)).calls.length = 1
      ∧ (master_check_ack_delay 16 (st_master_waiting 65535)).st.master_retry_times = 0
      ∧ (master_check_ack_delay 16 (st_master_waiting 65535)).ret = 0 := by
  decide

/-- C9, amended: for every state with an ack pending, last send time `T`, max
ack delay `D` and 32-bit clock reading `t ≥ T`: `master_check_ack_delay` at a
time `t ≤ T + D` changes no state, calls no sink and returns the resend times;
at a time `t > T + D` it calls the sink exactly once with the frame held in the
send buffer, which it does not change, adds 1 modulo `2^16` to the resend times
and returns the new value. -/
theorem ack_delay_resend (s : State) (t : Nat)
    (hack : s.flag_master_need_ack = true)
    (h1 : s.master_send_time_last ≤ t) (h2 : t < 2 ^ 32) :
    if t ≤ s.master_send_time_last + s.master_max_ack_delay then
      master_check_ack_delay t s = { st := s, calls := [], ret := s.master_retry_times }
    else
      (master_check_ack_delay t s).calls
          = [{ func := s.send_bytes
               count := (HEADER_SIZE + rd16 s.send_buf OFF_LEN) % 65536
               bytes := span s.send_buf ((HEADER_SIZE + rd16 s.send_buf OFF_LEN) % 65536) }]
        ∧ (master_check_ack_delay t s).st.send_buf = s.send_buf
        ∧ (master_check_ack_delay t s).st.master_retry_times
            = (s.master_retry_times + 1) % 65536
        ∧ (master_check_ack_delay t s).ret = (s.master_retry_times + 1) % 65536 := by
  have hd : (t % 2 ^ 32 + 2 ^ 32 - s.master_send_time_last % 2 ^ 32) % 2 ^ 32
      = t - s.master_send_time_last := by
    norm_num at h2 ⊢
    omega
  unfold master_check_ack_delay
  rw [if_pos hack, hd]
  split_ifs with ha hb hb
  · omega
  · rfl
  · unfold resend_pack send_pack
    dsimp only
    simp only [Bool.false_eq_true, if_false]
    split_ifs <;> simp
  · omega

/-- C9, amended, at a master polled at time 16 with `T = 10`, `D = 5`. -/
theorem ack_delay_resend_witness :
    (st_master_waiting 2).flag_master_need_ack = true
      ∧ (st_master_waiting 2).master_send_time_last ≤ 16 ∧ 16 < 2 ^ 32
      ∧ (if 16 ≤ (st_master_waiting 2).master_send_time_last
            + (st_master_waiting 2).master_max_ack_delay then
          master_check_ack_delay 16 (st_master_waiting 2)
            = { st := st_master_waiting 2, calls := []
                ret := (st_master_waiting 2).master_retry_times }
        else
          (master_check_ack_delay 16 (st_master_waiting 2)).calls
              = [{ func := (st_master_waiting 2).send_bytes
                   count := (HEADER_SIZE + rd16 (st_master_waiting 2).send_buf OFF_LEN) % 65536
                   bytes := span (st_master_waiting 2).send_buf
                     ((HEADER_SIZE + rd16 (st_master_waiting 2).send_buf OFF_LEN) % 65536) }]
            ∧ (master_check_ack_delay 16 (st_master_waiting 2)).st.send_buf
                = (st_master_waiting 2).send_buf
            ∧ (master_check_ack_delay 16 (st_master_waiting 2)).st.master_retry_times
                = ((st_master_waiting 2).master_retry_times + 1) % 65536
            ∧ (master_check_ack_delay 16 (st_master_waiting 2)).ret
                = ((st_master_waiting 2).master_retry_times + 1) % 65536) :=
  ⟨rfl, by decide, by decide, ack_delay_resend (st_master_waiting 2) 16 rfl (by decide) (by decide)⟩

/-- C10: for every master state, whatever its resend times and ack-pending
flag, if `check_pack` returns new-valid then the frame's source is the last
slave addressed and its seqno the last seqno sent, and afterwards no ack is
pending and the resend times are 0, so that `master_check_ack_delay` at any time
returns 0, calls no sink and changes nothing. -/
theorem ack_clears_pending (s : State) (now : Nat)
    (hm : s.flag_is_master = true) (hnew : (check_pack now s).ret = PACK_RECV_NEW) :
    rd8 s.recv_buf OFF_SRC = s.master_send_addr_last
      ∧ rd16 s.recv_buf OFF_SEQNO = s.master_send_seqno_last
      ∧ (check_pack now s).st.flag_master_need_ack = false
      ∧ (check_pack now s).st.master_retry_times = 0
      ∧ (check_pack now s).calls = []
      ∧ ∀ t, master_check_ack_delay t (check_pack now s).st
          = { st := (check_pack now s).st, calls := [], ret := 0 } := by
  have hp : passes_checks s := check_pack_ok now s (Or.inl hnew)
  obtain ⟨ha, hb⟩ := check_pack_of_passes now s hp
  have h1 : check_pack now s = { st := accept s, calls := [], ret := PACK_RECV_NEW } := by
    rw [ha, hb, if_neg]
    rw [hm]
    simp
  have hacc : accept s
      = { s with
          pack_count_info := count_recv s.pack_count_info PACK_RECV_NEW
          flag_master_need_ack := false
          master_retry_times := 0 } := by
    unfold accept
    dsimp only
    rw [if_pos hm]
  have hsrc := hp.2.2.2.2.2.1
  rw [if_pos hm] at hsrc
  rw [h1, hacc]
  refine ⟨hsrc.1, hsrc.2, rfl, rfl, rfl, fun t => ?_⟩
  unfold master_check_ack_delay
  simp

/-- C10 at the master `st_master_reply`, which has 3 resend times. -/
theorem ack_clears_pending_witness :
    st_master_reply.flag_is_master = true
      ∧ (check_pack 20 st_master_reply).ret = PACK_RECV_NEW
      ∧ st_master_reply.master_retry_times = 3
      ∧ rd8 st_master_reply.recv_buf OFF_SRC = st_master_reply.master_send_addr_last
      ∧ rd16 st_master_reply.recv_buf OFF_SEQNO = st_master_reply.master_send_seqno_last
      ∧ (check_pack 20 st_master_reply).st.flag_master_need_ack = false
      ∧ (check_pack 20 st_master_reply).st.master_retry_times = 0
      ∧ (check_pack 20 st_master_reply).calls = []
      ∧ ∀ t, master_check_ack_delay t (check_pack 20 st_master_reply).st
          = { st := (check_pack 20 st_master_reply).st, calls := [], ret := 0 } :=
  ⟨rfl, by decide, rfl, ack_clears_pending st_master_reply 20 rfl (by decide)⟩

/-! ### Rejected frames -/

/-- C11: for every master state and every received frame with correct premble,
correct start code and destination equal to the local address, if the source
differs from the last slave addressed (`master_send_addr_last`, the destination
recorded by the most recent send) then `check_pack` returns source-error
whatever the seqno, length and checksum of the frame; it calls no sink and
changes nothing but the source-error counter, so the ack-pending flag and the
resend times keep their value. -/
theorem addressing_isolation (s : State) (now : Nat)
    (hm : s.flag_is_master = true)
    (h0 : rd8 s.recv_buf OFF_PREMBLE = PACK_PREMBLE)
    (h1 : rd8 s.recv_buf (OFF_PREMBLE + 1) = PACK_PREMBLE)
    (h2 : rd8 s.recv_buf (OFF_PREMBLE + 2) = PACK_PREMBLE)
    (h3 : rd8 s.recv_buf OFF_START = PACK_START)
    (h4 : rd8 s.recv_buf OFF_DEST = s.local_addr)
    (h5 : rd8 s.recv_buf OFF_SRC ≠ s.master_send_addr_last) :
    (check_pack now s).ret = PACK_RECV_SRC_ERR
      ∧ (check_pack now s).calls = []
      ∧ (check_pack now s).st.flag_master_need_ack = s.flag_master_need_ack
      ∧ (check_pack now s).st.master_retry_times = s.master_retry_times
      ∧ (check_pack now s).st
          = { s with pack_count_info := count_recv s.pack_count_info PACK_RECV_SRC_ERR } := by
  have h : check_pack now s = reject s PACK_RECV_SRC_ERR := by
    unfold check_pack
    rw [if_neg (by simp [h0, h1, h2]), if_neg (not_not.mpr h3), if_neg (not_not.mpr h4),
      if_pos hm, if_pos h5]
  rw [h]
  exact ⟨rfl, rfl, rfl, rfl, rfl⟩

/-- C11 at the master `st_master_wrong_src`. -/
theorem addressing_isolation_witness :
    st_master_wrong_src.flag_is_master = true
      ∧ rd8 st_master_wrong_src.recv_buf OFF_PREMBLE = PACK_PREMBLE
      ∧ rd8 st_master_wrong_src.recv_buf (OFF_PREMBLE + 1) = PACK_PREMBLE
      ∧ rd8 st_master_wrong_src.recv_buf (OFF_PREMBLE + 2) = PACK_PREMBLE
      ∧ rd8 st_master_wrong_src.recv_buf OFF_START = PACK_START
      ∧ rd8 st_master_wrong_src.recv_buf OFF_DEST = st_master_wrong_src.local_addr
      ∧ rd8 st_master_wrong_src.recv_buf OFF_SRC ≠ st_master_wrong_src.master_send_addr_last
      ∧ (check_pack 20 st_master_wrong_src).ret = PACK_RECV_SRC_ERR
      ∧ (check_pack 20 st_master_wrong_src).calls = []
      ∧ (check_pack 20 st_master_wrong_src).st.flag_master_need_ack
          = st_master_wrong_src.flag_master_need_ack
      ∧ (check_pack 20 st_master_wrong_src).st.master_retry_times
          = st_master_wrong_src.master_retry_times
      ∧ (check_pack 20 st_master_wrong_src).st
          = { st_master_wrong_src with
              pack_count_info :=
                count_recv st_master_wrong_src.pack_count_info PACK_RECV_SRC_ERR } :=
  ⟨rfl, by decide, by decide, by decide, by decide, by decide, by decide,
    addressing_isolation st_master_wrong_src 20 rfl (by decide) (by decide) (by decide)
      (by decide) (by decide) (by decide)⟩

theorem check_pack_tail_cases (now : Nat) (s : State) :
    check_pack_tail now s = reject s PACK_RECV_LEN_ERR
      ∨ check_pack_tail now s = reject s PACK_RECV_CHKSUM_ERR
      ∨ (check_pack_tail now s).ret = PACK_RECV_RETRY
      ∨ (check_pack_tail now s).ret = PACK_RECV_NEW := by
  unfold check_pack_tail
  dsimp only
  split_ifs
  · exact Or.inl rfl
  · exact Or.inr (Or.inl rfl)
  · exact Or.inr (Or.inr (Or.inl rfl))
  · exact Or.inr (Or.inr (Or.inr rfl))

theorem check_pack_cases (now : Nat) (s : State) :
    check_pack now s = reject s (check_pack now s).ret
      ∨ (check_pack now s).ret = PACK_RECV_RETRY
      ∨ (check_pack now s).ret = PACK_RECV_NEW := by
  have ht : check_pack_tail now s = reject s (check_pack_tail now s).ret
      ∨ (check_pack_tail now s).ret = PACK_RECV_RETRY
      ∨ (check_pack_tail now s).ret = PACK_RECV_NEW := by
    rcases check_pack_tail_cases now s with h | h | h | h
    · exact Or.inl (by rw [h]; rfl)
    · exact Or.inl (by rw [h]; rfl)
    · exact Or.inr (Or.inl h)
    · exact Or.inr (Or.inr h)
  unfold check_pack
  split_ifs
  all_goals first
    | exact Or.inl rfl
    | exact ht

/-- C18: `check_pack` returns one of the nine outcomes, and when the outcome is
one of the seven errors the call makes no sink call and leaves the state as it
was (send buffer, receive buffer, ack-pending flag, resend times, last send
time, last seqno sent, last slave addressed, last seqno received, send
counters) apart from the counter of that error. -/
theorem frame_fault_atomic (s : State) (now : Nat)
    (herr : (check_pack now s).ret ∈ [PACK_RECV_PREMBLE_ERR, PACK_RECV_START_ERR,
      PACK_RECV_DEST_ERR, PACK_RECV_SRC_ERR, PACK_RECV_SEQNO_ERR, PACK_RECV_LEN_ERR,
      PACK_RECV_CHKSUM_ERR]) :
    (check_pack now s).ret ∈ [PACK_RECV_NEW, PACK_RECV_RETRY, PACK_RECV_PREMBLE_ERR,
        PACK_RECV_START_ERR, PACK_RECV_DEST_ERR, PACK_RECV_SRC_ERR, PACK_RECV_SEQNO_ERR,
        PACK_RECV_LEN_ERR, PACK_RECV_CHKSUM_ERR]
      ∧ (check_pack now s).calls = []
      ∧ (check_pack now s).st
          = { s with
              pack_count_info := count_recv s.pack_count_info (check_pack now s).ret }
      ∧ (check_pack now s).st.pack_count_info.send_pack_count
          = s.pack_count_info.send_pack_count
      ∧ ∀ k, k ≠ (check_pack now s).ret →
          (check_pack now s).st.pack_count_info.recv_pack_count k
            = s.pack_count_info.recv_pack_count k := by
  have hst : (check_pack now s).calls = []
      ∧ (check_pack now s).st
          = { s with
              pack_count_info := count_recv s.pack_count_info (check_pack now s).ret } := by
    rcases check_pack_cases now s with h | h | h
    · constructor
      · rw [h]; rfl
      · calc (check_pack now s).st = (reject s (check_pack now s).ret).st := by rw [← h]
          _ = _ := rfl
    · rw [h] at herr
      exact absurd herr (by decide)
    · rw [h] at herr
      exact absurd herr (by decide)
  refine ⟨?_, hst.1, hst.2, ?_, ?_⟩
  · cases (check_pack now s).ret <;> decide
  · rw [hst.2]
    rfl
  · intro k hk
    rw [hst.2]
    show (if k = (check_pack now s).ret then _ else _) = _
    rw [if_neg hk]

/-- C18 at the slave `st_slave_bad_chksum`, whose frame has a wrong checksum. -/
theorem frame_fault_atomic_witness :
    (check_pack 0 st_slave_bad_chksum).ret ∈ [PACK_RECV_PREMBLE_ERR, PACK_RECV_START_ERR,
        PACK_RECV_DEST_ERR, PACK_RECV_SRC_ERR, PACK_RECV_SEQNO_ERR, PACK_RECV_LEN_ERR,
        PACK_RECV_CHKSUM_ERR]
      ∧ (check_pack 0 st_slave_bad_chksum).ret ∈ [PACK_RECV_NEW, PACK_RECV_RETRY,
          PACK_RECV_PREMBLE_ERR, PACK_RECV_START_ERR, PACK_RECV_DEST_ERR, PACK_RECV_SRC_ERR,
          PACK_RECV_SEQNO_ERR, PACK_RECV_LEN_ERR, PACK_RECV_CHKSUM_ERR]
      ∧ (check_pack 0 st_slave_bad_chksum).calls = []
      ∧ (check_pack 0 st_slave_bad_chksum).st
          = { st_slave_bad_chksum with
              pack_count_info :=
                count_recv st_slave_bad_chksum.pack_count_info
                  (check_pack 0 st_slave_bad_chksum).ret }
      ∧ (check_pack 0 st_slave_bad_chksum).st.pack_count_info.send_pack_count
          = st_slave_bad_chksum.pack_count_info.send_pack_count
      ∧ ∀ k, k ≠ (check_pack 0 st_slave_bad_chksum).ret →
          (check_pack 0 st_slave_bad_chksum).st.pack_count_info.recv_pack_count k
            = st_slave_bad_chksum.pack_count_info.recv_pack_count k :=
  ⟨by decide, frame_fault_atomic st_slave_bad_chksum 0 (by decide)⟩

/-! ### Initialisation -/

theorem reinit_data_eq (s : State) : reinit_data s = init_data := rfl

theorem reinit_pack_eq (is_master : Bool) (a m D f : Nat) (s : State) :
    reinit_pack is_master a m D f s = init_pack is_master a m D f := rfl

/-- C12: for every prior state, `master_init_pack (a, D, f)` and
`slave_init_pack (a, m, f)`, carried out on it, give a state that does not depend
on it (the state `master_init_pack a D f`, resp. `slave_init_pack a m f`): send
and receive buffers all zero, every send and receive counter 0, no ack pending,
resend times 0, last seqno received 0, last seqno sent 0, last slave addressed
0, and the role, the local address, the master address (the local address for a
master), the max ack delay (0 for a slave) and the sink equal to the
arguments. -/
theorem reinit_resets (prior : State) (a m D f : Nat)
    (ha : a < 256) (hma : m < 256) (hD : D < 2 ^ 32) :
    master_reinit_pack a D f prior = master_init_pack a D f
      ∧ slave_reinit_pack a m f prior = slave_init_pack a m f
      ∧ (∀ i, (master_init_pack a D f).send_buf i = 0 ∧ (master_init_pack a D f).recv_buf i = 0
          ∧ (slave_init_pack a m f).send_buf i = 0 ∧ (slave_init_pack a m f).recv_buf i = 0)
      ∧ (∀ k, (master_init_pack a D f).pack_count_info.send_pack_count k = 0
          ∧ (slave_init_pack a m f).pack_count_info.send_pack_count k = 0)
      ∧ (∀ k, (master_init_pack a D f).pack_count_info.recv_pack_count k = 0
          ∧ (slave_init_pack a m f).pack_count_info.recv_pack_count k = 0)
      ∧ ((master_init_pack a D f).flag_master_need_ack = false
          ∧ (master_init_pack a D f).master_retry_times = 0
          ∧ (master_init_pack a D f).slave_recv_seqno_last = 0
          ∧ (master_init_pack a D f).master_send_seqno_last = 0
          ∧ (master_init_pack a D f).master_send_addr_last = 0
          ∧ (master_init_pack a D f).master_send_time_last = 0)
      ∧ ((slave_init_pack a m f).flag_master_need_ack = false
          ∧ (slave_init_pack a m f).master_retry_times = 0
          ∧ (slave_init_pack a m f).slave_recv_seqno_last = 0
          ∧ (slave_init_pack a m f).master_send_seqno_last = 0
          ∧ (slave_init_pack a m f).master_send_addr_last = 0
          ∧ (slave_init_pack a m f).master_send_time_last = 0)
      ∧ ((master_init_pack a D f).flag_is_master = true
          ∧ (master_init_pack a D f).local_addr = a
          ∧ (master_init_pack a D f).master_addr = a
          ∧ (master_init_pack a D f).master_max_ack_delay = D
          ∧ (master_init_pack a D f).send_bytes = f)
      ∧ ((slave_init_pack a m f).flag_is_master = false
          ∧ (slave_init_pack a m f).local_addr = a
          ∧ (slave_init_pack a m f).master_addr = m
          ∧ (slave_init_pack a m f).master_max_ack_delay = 0
          ∧ (slave_init_pack a m f).send_bytes = f) := by
  have e1 : a % 256 = a := Nat.mod_eq_of_lt ha
  have e2 : m % 256 = m := Nat.mod_eq_of_lt hma
  have e3 : D % 2 ^ 32 = D := Nat.mod_eq_of_lt hD
  refine ⟨rfl, rfl, fun i => ⟨rfl, rfl, rfl, rfl⟩, fun k => ⟨rfl, rfl⟩, fun k => ⟨rfl, rfl⟩,
    ⟨rfl, rfl, rfl, rfl, rfl, rfl⟩, ⟨rfl, rfl, rfl, rfl, rfl, rfl⟩,
    ⟨rfl, e1, e1, e3, rfl⟩, ⟨rfl, e1, e2, rfl, rfl⟩⟩


/-- C12 at the prior state `st_master_reply`, with local address 102, master
address 100, max ack delay 50 and sink 7. -/
theorem reinit_resets_witness :
    102 < 256 ∧ 100 < 256 ∧ 50 < 2 ^ 32
      ∧ (master_reinit_pack 102 50 7 st_master_reply = master_init_pack 102 50 7
      ∧ slave_reinit_pack 102 100 7 st_master_reply = slave_init_pack 102 100 7
      ∧ (∀ i, (master_init_pack 102 50 7).send_buf i = 0 ∧ (master_init_pack 102 50 7).recv_buf i = 0
          ∧ (slave_init_pack 102 100 7).send_buf i = 0 ∧ (slave_init_pack 102 100 7).recv_buf i = 0)
      ∧ (∀ k, (master_init_pack 102 50 7).pack_count_info.send_pack_count k = 0
          ∧ (slave_init_pack 102 100 7).pack_count_info.send_pack_count k = 0)
      ∧ (∀ k, (master_init_pack 102 50 7).pack_count_info.recv_pack_count k = 0
          ∧ (slave_init_pack 102 100 7).pack_count_info.recv_pack_count k = 0)
      ∧ ((master_init_pack 102 50 7).flag_master_need_ack = false
          ∧ (master_init_pack 102 50 7).master_retry_times = 0
          ∧ (master_init_pack 102 50 7).slave_recv_seqno_last = 0
          ∧ (master_init_pack 102 50 7).master_send_seqno_last = 0
          ∧ (master_init_pack 102 50 7).master_send_addr_last = 0
          ∧ (master_init_pack 102 50 7).master_send_time_last = 0)
      ∧ ((slave_init_pack 102 100 7).flag_master_need_ack = false
          ∧ (slave_init_pack 102 100 7).master_retry_times = 0
          ∧ (slave_init_pack 102 100 7).slave_recv_seqno_last = 0
          ∧ (slave_init_pack 102 100 7).master_send_seqno_last = 0
          ∧ (slave_init_pack 102 100 7).master_send_addr_last = 0
          ∧ (slave_init_pack 102 100 7).master_send_time_last = 0)
      ∧ ((master_init_pack 102 50 7).flag_is_master = true
          ∧ (master_init_pack 102 50 7).local_addr = 102
          ∧ (master_init_pack 102 50 7).master_addr = 102
          ∧ (master_init_pack 102 50 7).master_max_ack_delay = 50
          ∧ (master_init_pack 102 50 7).send_bytes = 7)
      ∧ ((slave_init_pack 102 100 7).flag_is_master = false
          ∧ (slave_init_pack 102 100 7).local_addr = 102
          ∧ (slave_init_pack 102 100 7).master_addr = 100
          ∧ (slave_init_pack 102 100 7).master_max_ack_delay = 0
          ∧ (slave_init_pack 102 100 7).send_bytes = 7)) :=
  ⟨by decide, by decide, by decide,
    reinit_resets st_master_reply 102 100 50 7 (by decide) (by decide) (by decide)⟩

/-! ### Reachable states and the frame retained for resends -/

theorem send_pack_synced (now d n : Nat) (b : Bool) (s : State) :
    master_synced (send_pack now d n b s).st := by
  intro h
  unfold send_pack at h ⊢
  dsimp only at h ⊢
  cases b <;> cases hm : s.flag_is_master <;> simp_all

theorem check_pack_tail_synced (now : Nat) (s : State) (h : master_synced s) :
    master_synced (check_pack_tail now s).st := by
  unfold check_pack_tail
  dsimp only
  split_ifs
  · exact h
  · exact h
  · exact send_pack_synced now 0 0 false _
  · unfold accept
    dsimp only
    split_ifs <;> exact h

theorem check_pack_synced (now : Nat) (s : State) (h : master_synced s) :
    master_synced (check_pack now s).st := by
  unfold check_pack
  split_ifs
  all_goals first
    | exact h
    | exact check_pack_tail_synced now s h

theorem master_check_ack_delay_synced (now : Nat) (s : State) (h : master_synced s) :
    master_synced (master_check_ack_delay now s).st := by
  unfold master_check_ack_delay
  split_ifs
  · exact send_pack_synced now 0 0 false _
  · exact h
  · exact h

theorem write_send_data_synced (data : List Nat) (s : State) (h : master_synced s) :
    master_synced (write_send_data data s) := by
  intro hm
  obtain ⟨h1, h2⟩ := h hm
  constructor
  · rw [rd16_write_send_data_head _ _ _ (by decide)]
    exact h1
  · rw [rd8_write_send_data_head _ _ _ (by decide)]
    exact h2

theorem host_step_synced (s : State) (op : HostOp) (h : master_synced s) :
    master_synced (host_step s op) := by
  cases op with
  | recv bytes => exact h
  | check now => exact check_pack_synced now s h
  | poll now => exact master_check_ack_delay_synced now s h
  | write data => exact write_send_data_synced data s h

theorem reachable_synced (s : State) (h : Reachable s) : master_synced s := by
  induction h with
  | start => intro hm; exact absurd (show false = true from hm) (by decide)
  | master_init a D f => intro _; exact ⟨rfl, rfl⟩
  | slave_init a m f => intro hm; exact absurd (show false = true from hm) (by decide)
  | master_send s now d n _ _ => exact send_pack_synced now d n true s
  | slave_send s now n _ _ => exact send_pack_synced now 0 n true s
  | host s op _ ih => exact host_step_synced s op ih


theorem send_pack_resend_eq (now : Nat) (s : State) :
    (resend_pack now s).calls
        = [{ func := s.send_bytes
             count := (HEADER_SIZE + rd16 s.send_buf OFF_LEN) % 65536
             bytes := span s.send_buf ((HEADER_SIZE + rd16 s.send_buf OFF_LEN) % 65536) }]
      ∧ (resend_pack now s).st.send_buf = s.send_buf
      ∧ (resend_pack now s).st.send_bytes = s.send_bytes
      ∧ (resend_pack now s).st.pack_count_info
          = count_send s.pack_count_info PACK_SEND_RETRY
      ∧ (resend_pack now s).st.master_retry_times = s.master_retry_times := by
  unfold resend_pack send_pack
  dsimp only
  simp only [Bool.false_eq_true, if_false]
  split_ifs <;> simp

/-- C16: in every reachable state in which no ack is pending,
`master_check_ack_delay` at any time changes no state, calls no sink and returns
the resend times; and in every reachable state, whether or not it resends,
`master_check_ack_delay` changes neither the send buffer, nor the seqno of the
frame held in it, nor the last seqno sent, nor the last slave addressed, nor the
new-send counter. -/
theorem ack_poll_frame (s : State) (t : Nat) (hr : Reachable s) :
    (s.flag_master_need_ack = false →
        master_check_ack_delay t s = { st := s, calls := [], ret := s.master_retry_times })
      ∧ (master_check_ack_delay t s).st.send_buf = s.send_buf
      ∧ rd16 (master_check_ack_delay t s).st.send_buf OFF_SEQNO = rd16 s.send_buf OFF_SEQNO
      ∧ (master_check_ack_delay t s).st.master_send_seqno_last = s.master_send_seqno_last
      ∧ (master_check_ack_delay t s).st.master_send_addr_last = s.master_send_addr_last
      ∧ (master_check_ack_delay t s).st.pack_count_info.send_pack_count PACK_SEND_NEW
          = s.pack_count_info.send_pack_count PACK_SEND_NEW := by
  have hsync := reachable_synced s hr
  refine ⟨?_, ?_⟩
  · intro h
    unfold master_check_ack_delay
    rw [if_neg (by rw [h]; decide)]
  · unfold master_check_ack_delay
    split_ifs with h1 h2
    · unfold resend_pack send_pack
      dsimp only
      simp only [Bool.false_eq_true, if_false]
      cases hm : s.flag_is_master
      · simp [count_send]
      · obtain ⟨e1, e2⟩ := hsync hm
        simp [count_send, e1, e2]
    · exact ⟨rfl, rfl, rfl, rfl, rfl⟩
    · exact ⟨rfl, rfl, rfl, rfl, rfl⟩

theorem st_master_sent_reachable : Reachable st_master_sent :=
  Reachable.master_send _ 10 102 5
    (Reachable.host _ (HostOp.write [12, 13, 14, 15, 16]) (Reachable.master_init 100 5 7))

/-- C16 at the master `st_master_sent`, polled after its timeout. -/
theorem ack_poll_frame_witness :
    Reachable st_master_sent
      ∧ ((st_master_sent.flag_master_need_ack = false →
          master_check_ack_delay 16 st_master_sent
            = { st := st_master_sent, calls := [], ret := st_master_sent.master_retry_times })
        ∧ (master_check_ack_delay 16 st_master_sent).st.send_buf = st_master_sent.send_buf
        ∧ rd16 (master_check_ack_delay 16 st_master_sent).st.send_buf OFF_SEQNO
            = rd16 st_master_sent.send_buf OFF_SEQNO
        ∧ (master_check_ack_delay 16 st_master_sent).st.master_send_seqno_last
            = st_master_sent.master_send_seqno_last
        ∧ (master_check_ack_delay 16 st_master_sent).st.master_send_addr_last
            = st_master_sent.master_send_addr_last
        ∧ (master_check_ack_delay 16 st_master_sent).st.pack_count_info.send_pack_count
              PACK_SEND_NEW
            = st_master_sent.pack_count_info.send_pack_count PACK_SEND_NEW) :=
  ⟨st_master_sent_reachable, ack_poll_frame st_master_sent 16 st_master_sent_reachable⟩


theorem frame_call_congr (s1 s2 : State) (h1 : s1.send_buf = s2.send_buf)
    (h2 : s1.send_bytes = s2.send_bytes) : frame_call s1 = frame_call s2 := by
  unfold frame_call
  rw [h1, h2]

theorem send_pack_calls (now d n : Nat) (b : Bool) (s : State) :
    (send_pack now d n b s).calls = [frame_call (send_pack now d n b s).st]
      ∧ (send_pack now d n b s).st.send_bytes = s.send_bytes := by
  unfold send_pack frame_call
  dsimp only
  cases b <;> cases hm : s.flag_is_master <;> simp

theorem resend_pack_calls (now : Nat) (s : State) :
    (resend_pack now s).calls = [frame_call s] := by
  unfold frame_call
  exact (send_pack_resend_eq now s).1

theorem check_pack_tail_calls (now : Nat) (s : State) :
    ((check_pack_tail now s).calls = [] ∨ (check_pack_tail now s).calls = [frame_call s])
      ∧ (check_pack_tail now s).st.send_bytes = s.send_bytes := by
  unfold check_pack_tail
  dsimp only
  split_ifs
  · exact ⟨Or.inl rfl, rfl⟩
  · exact ⟨Or.inl rfl, rfl⟩
  · refine ⟨Or.inr ?_, ?_⟩
    · rw [resend_pack_calls]
      rfl
    · rw [(send_pack_resend_eq now _).2.2.1]
  · refine ⟨Or.inl rfl, ?_⟩
    unfold accept
    dsimp only
    split_ifs <;> rfl

theorem check_pack_calls (now : Nat) (s : State) :
    ((check_pack now s).calls = [] ∨ (check_pack now s).calls = [frame_call s])
      ∧ (check_pack now s).st.send_bytes = s.send_bytes := by
  unfold check_pack
  split_ifs
  all_goals first
    | exact ⟨Or.inl rfl, rfl⟩
    | exact check_pack_tail_calls now s

theorem master_check_ack_delay_calls (now : Nat) (s : State) :
    ((master_check_ack_delay now s).calls = []
        ∨ (master_check_ack_delay now s).calls = [frame_call s])
      ∧ (master_check_ack_delay now s).st.send_bytes = s.send_bytes := by
  unfold master_check_ack_delay
  split_ifs
  · refine ⟨Or.inr ?_, ?_⟩
    · rw [resend_pack_calls]
      rfl
    · rw [(send_pack_resend_eq now _).2.2.1]
  · exact ⟨Or.inl rfl, rfl⟩
  · exact ⟨Or.inl rfl, rfl⟩

theorem host_step_no_write (s : State) (op : HostOp) (h : writes_send_buf op = false) :
    (host_step s op).send_buf = s.send_buf ∧ (host_step s op).send_bytes = s.send_bytes := by
  cases op with
  | recv bytes => exact ⟨rfl, rfl⟩
  | check now => exact ⟨(check_pack_keeps now s).1, (check_pack_calls now s).2⟩
  | poll now =>
    exact ⟨(master_check_ack_delay_keeps now s).1, (master_check_ack_delay_calls now s).2⟩
  | write data => exact absurd (show true = false from h) (by decide)

theorem host_run_no_write (ops : List HostOp) : ∀ (s : State),
    (∀ op ∈ ops, writes_send_buf op = false) →
    (host_run s ops).send_buf = s.send_buf ∧ (host_run s ops).send_bytes = s.send_bytes := by
  induction ops with
  | nil => intro s _; exact ⟨rfl, rfl⟩
  | cons op ops ih =>
    intro s h
    obtain ⟨h1, h2⟩ := ih (host_step s op) (fun o ho => h o (List.mem_cons_of_mem _ ho))
    obtain ⟨h3, h4⟩ := host_step_no_write s op (h op (List.mem_cons_self _ _))
    exact ⟨h1.trans h3, h2.trans h4⟩

/-- C13, as stated, fails: after a new send of a master whose resend counter
holds `2^32 - 1`, the resend made by a timed-out poll gives the sink the same
call as the new send, and the resend counter does not go up by 1: it wraps to
0.  And a new send with data length 89 and its resend give the sink a count of
101, one more than the bytes of the send buffer, so that the last byte of the
span is not a byte of the send buffer. -/
theorem resend_counter_wraps :
    (master_send_pack 10 102 5 st_master_resend_full).st.pack_count_info.send_pack_count
        PACK_SEND_RETRY = 4294967295
      ∧ (master_check_ack_delay 100
          (master_send_pack 10 102 5 st_master_resend_full).st).calls
          = (master_send_pack 10 102 5 st_master_resend_full).calls
      ∧ (master_check_ack_delay 100
          (master_send_pack 10 102 5
            st_master_resend_full).st).st.pack_count_info.send_pack_count PACK_SEND_RETRY
          = 0
      ∧ (master_send_pack 10 102 89 st_master_resend_full).calls.map SinkCall.count = [101]
      ∧ (master_check_ack_delay 100
          (master_send_pack 10 102 89 st_master_resend_full).st).calls.map SinkCall.count
          = [101]
      ∧ MAX_BUF_SIZE = 100 := by
  decide

/-- C13, amended: after a new send (of either role) with data length
`n ≤ MAX_DATA_LEN`, whose `12 + n` bytes lie within the send buffer, followed by
any host operations other than application writes to the send buffer, a resend
gives the sink exactly the call of that new send (same callback, same count,
same bytes); every sink call made by `master_check_ack_delay` or by `check_pack`
in that state is that call; the resend does not modify the send buffer, adds 1
modulo `2^32` to the resend counter and leaves the new-send counter unchanged. -/
theorem resend_verbatim (s : State) (now d n t : Nat) (ops : List HostOp)
    (hn : n ≤ MAX_DATA_LEN)
    (hops : ∀ op ∈ ops, writes_send_buf op = false) :
    let A := send_pack now d n true s
    let s' := host_run A.st ops
    A.calls.length = 1
      ∧ (∀ c ∈ A.calls, c.count = HEADER_SIZE + n ∧ c.count ≤ MAX_BUF_SIZE)
      ∧ s'.send_buf = A.st.send_buf
      ∧ (resend_pack t s').calls = A.calls
      ∧ ((master_check_ack_delay t s').calls = []
          ∨ (master_check_ack_delay t s').calls = A.calls)
      ∧ ((check_pack t s').calls = [] ∨ (check_pack t s').calls = A.calls)
      ∧ (resend_pack t s').st.send_buf = s'.send_buf
      ∧ (resend_pack t s').st.pack_count_info.send_pack_count PACK_SEND_RETRY
          = (s'.pack_count_info.send_pack_count PACK_SEND_RETRY + 1) % 2 ^ 32
      ∧ (resend_pack t s').st.pack_count_info.send_pack_count PACK_SEND_NEW
          = s'.pack_count_info.send_pack_count PACK_SEND_NEW := by
  intro A s'
  obtain ⟨hA, -⟩ := send_pack_calls now d n true s
  obtain ⟨hb, hf⟩ := host_run_no_write ops A.st hops
  have hfc : frame_call s' = frame_call A.st := frame_call_congr _ _ hb hf
  have hA' : A.calls = [frame_call s'] := by rw [hfc]; exact hA
  obtain ⟨-, r2, -, r4, -⟩ := send_pack_resend_eq t s'
  refine ⟨?_, ?_, hb, ?_, ?_, ?_, r2, ?_, ?_⟩
  · rw [hA']; rfl
  · intro c hc
    obtain ⟨-, -, -, -, -, -, -, e12, -, e88, e100⟩ := layout
    have hcnt : (HEADER_SIZE + n % 65536) % 65536 = HEADER_SIZE + n := by omega
    have hc' : c ∈ (send_pack now d n true s).calls := hc
    rw [send_pack_new_calls, List.mem_singleton] at hc'
    subst hc'
    dsimp only
    rw [hcnt]
    exact ⟨rfl, by omega⟩
  · rw [hA', resend_pack_calls]
  · rw [hA']; exact (master_check_ack_delay_calls t s').1
  · rw [hA']; exact (check_pack_calls t s').1
  · rw [r4]; simp [count_send]
  · rw [r4]; simp [count_send]

/-- C13, amended, at the master `st_master_ready` with a poll, received bytes
and a check after its new send. -/
theorem resend_verbatim_witness :
    5 ≤ MAX_DATA_LEN
      ∧ (∀ op ∈ [HostOp.poll 12, HostOp.recv [1, 2, 3], HostOp.check 13],
        writes_send_buf op = false)
      ∧ (let A := send_pack 10 102 5 true st_master_ready
        let s' := host_run A.st [HostOp.poll 12, HostOp.recv [1, 2, 3], HostOp.check 13]
        A.calls.length = 1
          ∧ (∀ c ∈ A.calls, c.count = HEADER_SIZE + 5 ∧ c.count ≤ MAX_BUF_SIZE)
          ∧ s'.send_buf = A.st.send_buf
          ∧ (resend_pack 70 s').calls = A.calls
          ∧ ((master_check_ack_delay 70 s').calls = []
              ∨ (master_check_ack_delay 70 s').calls = A.calls)
          ∧ ((check_pack 70 s').calls = [] ∨ (check_pack 70 s').calls = A.calls)
          ∧ (resend_pack 70 s').st.send_buf = s'.send_buf
          ∧ (resend_pack 70 s').st.pack_count_info.send_pack_count PACK_SEND_RETRY
              = (s'.pack_count_info.send_pack_count PACK_SEND_RETRY + 1) % 2 ^ 32
          ∧ (resend_pack 70 s').st.pack_count_info.send_pack_count PACK_SEND_NEW
              = s'.pack_count_info.send_pack_count PACK_SEND_NEW) :=
  ⟨by decide, by decide,
    resend_verbatim st_master_ready 10 102 5 70
      [HostOp.poll 12, HostOp.recv [1, 2, 3], HostOp.check 13] (by decide) (by decide)⟩

/-! ### Fields of the frame of a new send -/

theorem check_pack_tail_watermark (t : Nat) (s : State) (hm : s.flag_is_master = false) :
    (check_pack_tail t s).st.slave_recv_seqno_last
      = if (check_pack_tail t s).ret = PACK_RECV_NEW then rd16 s.recv_buf OFF_SEQNO
        else s.slave_recv_seqno_last := by
  unfold check_pack_tail
  dsimp only
  split_ifs <;> simp_all [reject, accept, resend_pack, send_pack]

theorem check_pack_tail_or_reject (t : Nat) (s : State) :
    check_pack t s = check_pack_tail t s
      ∨ ∃ r, r ≠ PACK_RECV_NEW ∧ r ≠ PACK_RECV_RETRY ∧ check_pack t s = reject s r := by
  unfold check_pack
  split_ifs
  all_goals first
    | exact Or.inl rfl
    | exact Or.inr ⟨_, by decide, by decide, rfl⟩

theorem check_pack_watermark (t : Nat) (s : State) (hm : s.flag_is_master = false) :
    (check_pack t s).st.slave_recv_seqno_last
      = if (check_pack t s).ret = PACK_RECV_NEW then rd16 s.recv_buf OFF_SEQNO
        else s.slave_recv_seqno_last := by
  rcases check_pack_tail_or_reject t s with h | ⟨r, h1, -, h⟩
  · rw [h]
    exact check_pack_tail_watermark t s hm
  · rw [h]
    show s.slave_recv_seqno_last = if r = PACK_RECV_NEW then _ else _
    rw [if_neg h1]

theorem wire_getD (now d n i : Nat) (s : State) (h : n ≤ MAX_DATA_LEN) (hi : i < HEADER_SIZE) :
    (wire (send_pack now d n true s)).getD i 0 = rd8 (send_pack now d n true s).st.send_buf i := by
  rw [wire_send_pack_new _ _ _ _ h, span_getD _ _ _ (by omega), send_pack_new_buf]

/-- C14: for every slave state whose variables hold values of their C types,
the frame built by `slave_send_pack` carries as seqno the last seqno received
(which `check_pack` sets to the seqno of a frame exactly when it classifies it
as new-valid, and which is 0 after initialisation), as destination the master
address and as source the local address; these are the fields in the bytes given
to the sink whenever the data length is at most `MAX_DATA_LEN`; the call changes
neither the last seqno received nor the ack-pending flag. -/
theorem slave_reply_binding (s : State) (now n : Nat)
    (hm : s.flag_is_master = false) (hw : s.slave_recv_seqno_last < 65536)
    (ha : s.master_addr < 256) (hl : s.local_addr < 256) :
    rd16 (slave_send_pack now n s).st.send_buf OFF_SEQNO = s.slave_recv_seqno_last
      ∧ rd8 (slave_send_pack now n s).st.send_buf OFF_DEST = s.master_addr
      ∧ rd8 (slave_send_pack now n s).st.send_buf OFF_SRC = s.local_addr
      ∧ (slave_send_pack now n s).st.slave_recv_seqno_last = s.slave_recv_seqno_last
      ∧ (slave_send_pack now n s).st.flag_master_need_ack = s.flag_master_need_ack
      ∧ (slave_send_pack now n s).calls = [frame_call (slave_send_pack now n s).st]
      ∧ (n ≤ MAX_DATA_LEN →
          seqno_of (wire (slave_send_pack now n s)) = s.slave_recv_seqno_last
            ∧ (wire (slave_send_pack now n s)).getD OFF_DEST 0 = s.master_addr
            ∧ (wire (slave_send_pack now n s)).getD OFF_SRC 0 = s.local_addr)
      ∧ (∀ t, (check_pack t s).st.slave_recv_seqno_last
          = if (check_pack t s).ret = PACK_RECV_NEW then rd16 s.recv_buf OFF_SEQNO
            else s.slave_recv_seqno_last)
      ∧ (∀ a m f, (slave_init_pack a m f).slave_recv_seqno_last = 0) := by
  obtain ⟨e3, e4, e6, e7, e8, e10, e12d, e12, -⟩ := layout
  have hb : (slave_send_pack now n s).st.send_buf = build_pack s 0 n :=
    send_pack_new_buf now 0 n s
  have hst := send_pack_new_st now 0 n s
  rw [if_neg (by rw [hm]; decide)] at hst
  obtain ⟨-, -, -, -, f4, f5⟩ := build_pack_framing s 0 n
  have hmf : ¬ (s.flag_is_master = true) := by rw [hm]; decide
  rw [if_neg hmf] at f5
  have hq := build_pack_seqno s 0 n
  rw [if_neg hmf] at hq
  have q1 : rd16 (slave_send_pack now n s).st.send_buf OFF_SEQNO = s.slave_recv_seqno_last := by
    rw [hb, hq]; omega
  have q2 : rd8 (slave_send_pack now n s).st.send_buf OFF_DEST = s.master_addr := by
    rw [hb, f5]; omega
  have q3 : rd8 (slave_send_pack now n s).st.send_buf OFF_SRC = s.local_addr := by
    rw [hb, f4]; omega
  refine ⟨q1, q2, q3, ?_, ?_, (send_pack_calls now 0 n true s).1, ?_,
    fun t => check_pack_watermark t s hm, fun _ _ _ => rfl⟩
  · show (send_pack now 0 n true s).st.slave_recv_seqno_last = _
    rw [hst]
  · show (send_pack now 0 n true s).st.flag_master_need_ack = _
    rw [hst]
  · intro hn
    refine ⟨?_, ?_, ?_⟩
    · show seqno_of (wire (send_pack now 0 n true s)) = _
      rw [wire_send_pack_new _ _ _ _ hn, seqno_of_span _ _ (by omega), ← hb]
      exact q1
    · show (wire (send_pack now 0 n true s)).getD OFF_DEST 0 = _
      rw [wire_getD _ _ _ _ _ hn (by omega)]
      exact q2
    · show (wire (send_pack now 0 n true s)).getD OFF_SRC 0 = _
      rw [wire_getD _ _ _ _ _ hn (by omega)]
      exact q3

/-- C14 at the slave `st_slave_accepted`, whose last seqno received is 1. -/
theorem slave_reply_binding_witness :
    st_slave_accepted.flag_is_master = false
      ∧ st_slave_accepted.slave_recv_seqno_last < 65536
      ∧ st_slave_accepted.master_addr < 256 ∧ st_slave_accepted.local_addr < 256
      ∧ st_slave_accepted.slave_recv_seqno_last = 1
      ∧ rd16 (slave_send_pack 30 2 st_slave_accepted).st.send_buf OFF_SEQNO
          = st_slave_accepted.slave_recv_seqno_last
      ∧ rd8 (slave_send_pack 30 2 st_slave_accepted).st.send_buf OFF_DEST
          = st_slave_accepted.master_addr
      ∧ rd8 (slave_send_pack 30 2 st_slave_accepted).st.send_buf OFF_SRC
          = st_slave_accepted.local_addr
      ∧ (slave_send_pack 30 2 st_slave_accepted).st.slave_recv_seqno_last
          = st_slave_accepted.slave_recv_seqno_last
      ∧ (slave_send_pack 30 2 st_slave_accepted).st.flag_master_need_ack
          = st_slave_accepted.flag_master_need_ack
      ∧ (slave_send_pack 30 2 st_slave_accepted).calls
          = [frame_call (slave_send_pack 30 2 st_slave_accepted).st]
      ∧ (2 ≤ MAX_DATA_LEN →
          seqno_of (wire (slave_send_pack 30 2 st_slave_accepted))
              = st_slave_accepted.slave_recv_seqno_last
            ∧ (wire (slave_send_pack 30 2 st_slave_accepted)).getD OFF_DEST 0
              = st_slave_accepted.master_addr
            ∧ (wire (slave_send_pack 30 2 st_slave_accepted)).getD OFF_SRC 0
              = st_slave_accepted.local_addr)
      ∧ (∀ t, (check_pack t st_slave_accepted).st.slave_recv_seqno_last
          = if (check_pack t st_slave_accepted).ret = PACK_RECV_NEW
            then rd16 st_slave_accepted.recv_buf OFF_SEQNO
            else st_slave_accepted.slave_recv_seqno_last)
      ∧ (∀ a m f, (slave_init_pack a m f).slave_recv_seqno_last = 0) :=
  ⟨rfl, by decide, by decide, by decide, by decide,
    slave_reply_binding st_slave_accepted 30 2 rfl (by decide) (by decide) (by decide)⟩

/-- C15, as stated, fails: a new send of a master whose new-send counter holds
`2^32 - 1` does not raise that counter by 1: it wraps to 0. -/
theorem new_send_counter_wraps :
    st_master_new_full.flag_is_master = true
      ∧ st_master_new_full.pack_count_info.send_pack_count PACK_SEND_NEW = 4294967295
      ∧ (master_send_pack 10 102 5 st_master_new_full).calls.length = 1
      ∧ (master_send_pack 10 102 5 st_master_new_full).st.pack_count_info.send_pack_count
          PACK_SEND_NEW = 0 := by
  decide

/-- C15, amended: for every master state, destination `d`, data length `n` and
clock reading `t` (values of their C types), after `master_send_pack (d, n)` at
time `t` an ack is pending, the last send time is `t`,
`get_master_send_addr_last` returns `d`, the seqno awaited by `check_pack` is the
seqno of the frame just built, whose destination is `d` and whose source is the
local address (the fields in the bytes given to the sink whenever the data
length is at most `MAX_DATA_LEN`); the new-send counter has gone up by 1 modulo
`2^32` and the resend counter is unchanged. -/
theorem master_send_bookkeeping (s : State) (t d n : Nat)
    (hm : s.flag_is_master = true) (hd : d < 256) (ht : t < 2 ^ 32)
    (hl : s.local_addr < 256) :
    (master_send_pack t d n s).st.flag_master_need_ack = true
      ∧ (master_send_pack t d n s).st.master_send_time_last = t
      ∧ get_master_send_addr_last (master_send_pack t d n s).st = d
      ∧ (master_send_pack t d n s).st.master_send_seqno_last
          = rd16 (master_send_pack t d n s).st.send_buf OFF_SEQNO
      ∧ rd8 (master_send_pack t d n s).st.send_buf OFF_DEST = d
      ∧ rd8 (master_send_pack t d n s).st.send_buf OFF_SRC = s.local_addr
      ∧ (master_send_pack t d n s).calls = [frame_call (master_send_pack t d n s).st]
      ∧ (n ≤ MAX_DATA_LEN →
          seqno_of (wire (master_send_pack t d n s))
              = (master_send_pack t d n s).st.master_send_seqno_last
            ∧ (wire (master_send_pack t d n s)).getD OFF_DEST 0 = d
            ∧ (wire (master_send_pack t d n s)).getD OFF_SRC 0 = s.local_addr)
      ∧ (master_send_pack t d n s).st.pack_count_info.send_pack_count PACK_SEND_NEW
          = (s.pack_count_info.send_pack_count PACK_SEND_NEW + 1) % 2 ^ 32
      ∧ (master_send_pack t d n s).st.pack_count_info.send_pack_count PACK_SEND_RETRY
          = s.pack_count_info.send_pack_count PACK_SEND_RETRY := by
  obtain ⟨e3, e4, e6, e7, e8, e10, e12d, e12, -⟩ := layout
  have hb : (master_send_pack t d n s).st.send_buf = build_pack s d n :=
    send_pack_new_buf t d n s
  have hst : (master_send_pack t d n s).st = _ := send_pack_new_st t d n s
  rw [if_pos hm] at hst
  obtain ⟨-, -, -, -, f4, f5⟩ := build_pack_framing s d n
  rw [if_pos hm] at f5
  have q2 : rd8 (master_send_pack t d n s).st.send_buf OFF_DEST = d := by
    rw [hb, f5]; omega
  have q3 : rd8 (master_send_pack t d n s).st.send_buf OFF_SRC = s.local_addr := by
    rw [hb, f4]; omega
  have q1 : (master_send_pack t d n s).st.master_send_seqno_last
      = rd16 (master_send_pack t d n s).st.send_buf OFF_SEQNO := by
    rw [hb, hst]
  refine ⟨?_, ?_, ?_, q1, q2, q3, (send_pack_calls t d n true s).1, ?_, ?_, ?_⟩
  · rw [hst]
  · rw [hst]
    exact Nat.mod_eq_of_lt ht
  · unfold get_master_send_addr_last
    rw [hst]
    show rd8 (build_pack s d n) OFF_DEST = d
    rw [f5]; omega
  · intro hn
    refine ⟨?_, ?_, ?_⟩
    · rw [q1]
      show seqno_of (wire (send_pack t d n true s)) = _
      rw [wire_send_pack_new _ _ _ _ hn, seqno_of_span _ _ (by omega), ← hb]
    · show (wire (send_pack t d n true s)).getD OFF_DEST 0 = _
      rw [wire_getD _ _ _ _ _ hn (by omega)]
      exact q2
    · show (wire (send_pack t d n true s)).getD OFF_SRC 0 = _
      rw [wire_getD _ _ _ _ _ hn (by omega)]
      exact q3
  · rw [hst]
    simp [count_send]
  · rw [hst]
    simp [count_send]

/-- C15, amended, at the master `st_master_ready` sending 5 bytes to slave 102
at time 1000. -/
theorem master_send_bookkeeping_witness :
    st_master_ready.flag_is_master = true ∧ 102 < 256 ∧ 1000 < 2 ^ 32
      ∧ st_master_ready.local_addr < 256
      ∧ (master_send_pack 1000 102 5 st_master_ready).st.flag_master_need_ack = true
      ∧ (master_send_pack 1000 102 5 st_master_ready).st.master_send_time_last = 1000
      ∧ get_master_send_addr_last (master_send_pack 1000 102 5 st_master_ready).st = 102
      ∧ (master_send_pack 1000 102 5 st_master_ready).st.master_send_seqno_last
          = rd16 (master_send_pack 1000 102 5 st_master_ready).st.send_buf OFF_SEQNO
      ∧ rd8 (master_send_pack 1000 102 5 st_master_ready).st.send_buf OFF_DEST = 102
      ∧ rd8 (master_send_pack 1000 102 5 st_master_ready).st.send_buf OFF_SRC
          = st_master_ready.local_addr
      ∧ (master_send_pack 1000 102 5 st_master_ready).calls
          = [frame_call (master_send_pack 1000 102 5 st_master_ready).st]
      ∧ (5 ≤ MAX_DATA_LEN →
          seqno_of (wire (master_send_pack 1000 102 5 st_master_ready))
              = (master_send_pack 1000 102 5 st_master_ready).st.master_send_seqno_last
            ∧ (wire (master_send_pack 1000 102 5 st_master_ready)).getD OFF_DEST 0 = 102
            ∧ (wire (master_send_pack 1000 102 5 st_master_ready)).getD OFF_SRC 0
              = st_master_ready.local_addr)
      ∧ (master_send_pack 1000 102 5 st_master_ready).st.pack_count_info.send_pack_count
            PACK_SEND_NEW
          = (st_master_ready.pack_count_info.send_pack_count PACK_SEND_NEW + 1) % 2 ^ 32
      ∧ (master_send_pack 1000 102 5 st_master_ready).st.pack_count_info.send_pack_count
            PACK_SEND_RETRY
          = st_master_ready.pack_count_info.send_pack_count PACK_SEND_RETRY :=
  ⟨rfl, by decide, by decide, by decide,
    master_send_bookkeeping st_master_ready 1000 102 5 rfl (by decide) (by decide) (by decide)⟩

/-! ### Counters over the operations of the interface -/

theorem counts_refl (s : State) : counts_kept_or_next s s :=
  ⟨fun _ => Or.inl rfl, fun _ => Or.inl rfl⟩

theorem send_pack_counts (now d n : Nat) (b : Bool) (s : State) :
    counts_kept_or_next s (send_pack now d n b s).st := by
  unfold send_pack
  dsimp only
  constructor
  · intro k
    unfold count_kept_or_next
    cases b <;> cases hm : s.flag_is_master <;> cases k <;> simp [count_send]
  · intro k
    unfold count_kept_or_next
    cases b <;> cases hm : s.flag_is_master <;> simp [count_send]

theorem counters_step_check_pack (now : Nat) (s : State) :
    counters_step s (check_pack now s) := by
  unfold check_pack
  split_ifs
  all_goals first
    | exact reject_counters s PACK_RECV_PREMBLE_ERR (by decide)
    | exact reject_counters s PACK_RECV_START_ERR (by decide)
    | exact reject_counters s PACK_RECV_DEST_ERR (by decide)
    | exact reject_counters s PACK_RECV_SRC_ERR (by decide)
    | exact reject_counters s PACK_RECV_SEQNO_ERR (by decide)
    | exact check_pack_tail_counters now s

theorem check_pack_counts (now : Nat) (s : State) :
    counts_kept_or_next s (check_pack now s).st := by
  obtain ⟨h1, h2, h3⟩ := counters_step_check_pack now s
  constructor
  · intro k
    unfold count_kept_or_next
    cases k
    · exact Or.inl h2
    · rw [h3]
      split_ifs
      · exact Or.inr rfl
      · exact Or.inl rfl
  · intro k
    unfold count_kept_or_next
    rw [h1 k]
    split_ifs
    · exact Or.inr rfl
    · exact Or.inl rfl

theorem master_check_ack_delay_counts (now : Nat) (s : State) :
    counts_kept_or_next s (master_check_ack_delay now s).st := by
  unfold master_check_ack_delay
  split_ifs
  · exact send_pack_counts now 0 0 false
      { s with master_retry_times := (s.master_retry_times + 1) % 65536 }
  · exact counts_refl s
  · exact counts_refl s

/-- C17, as stated, fails: `check_pack` on a frame with a wrong premble, in a
state whose premble-error counter holds `2^32 - 1`, lowers that counter to 0. -/
theorem counter_lowered_by_wrap :
    st_premble_full.pack_count_info.recv_pack_count PACK_RECV_PREMBLE_ERR = 4294967295
      ∧ (api_step st_premble_full (ApiOp.check 0)).pack_count_info.recv_pack_count
          PACK_RECV_PREMBLE_ERR = 0
      ∧ ¬ (st_premble_full.pack_count_info.recv_pack_count PACK_RECV_PREMBLE_ERR
          ≤ (api_step st_premble_full (ApiOp.check 0)).pack_count_info.recv_pack_count
              PACK_RECV_PREMBLE_ERR) := by
  decide

/-- C17, amended: for every state and every operation other than
initialisation (`master_send_pack`, `slave_send_pack`, `check_pack`,
`master_check_ack_delay`, the accessors), each of the two send counters and each
of the nine receive counters is, after the operation, either unchanged or one
more modulo `2^32`; so a counter below `2^32 - 1` is never lowered by these
operations. -/
theorem counters_monotone_mod (s : State) (op : ApiOp) :
    (∀ k, (api_step s op).pack_count_info.send_pack_count k
          = s.pack_count_info.send_pack_count k
        ∨ (api_step s op).pack_count_info.send_pack_count k
          = (s.pack_count_info.send_pack_count k + 1) % 2 ^ 32)
      ∧ (∀ k, (api_step s op).pack_count_info.recv_pack_count k
          = s.pack_count_info.recv_pack_count k
        ∨ (api_step s op).pack_count_info.recv_pack_count k
          = (s.pack_count_info.recv_pack_count k + 1) % 2 ^ 32)
      ∧ (∀ k, s.pack_count_info.send_pack_count k < 2 ^ 32 - 1 →
          s.pack_count_info.send_pack_count k
            ≤ (api_step s op).pack_count_info.send_pack_count k)
      ∧ (∀ k, s.pack_count_info.recv_pack_count k < 2 ^ 32 - 1 →
          s.pack_count_info.recv_pack_count k
            ≤ (api_step s op).pack_count_info.recv_pack_count k) := by
  have h : counts_kept_or_next s (api_step s op) := by
    cases op with
    | master_send now d n => exact send_pack_counts now d n true s
    | slave_send now n => exact send_pack_counts now 0 n true s
    | check now => exact check_pack_counts now s
    | ack_delay now => exact master_check_ack_delay_counts now s
    | get_addr => exact counts_refl s
    | get_count => exact counts_refl s
  obtain ⟨h1, h2⟩ := h
  refine ⟨h1, h2, fun k hk => ?_, fun k hk => ?_⟩
  · have := h1 k
    unfold count_kept_or_next at this
    norm_num at hk this
    omega
  · have := h2 k
    unfold count_kept_or_next at this
    norm_num at hk this
    omega


/-! ### Repeated and stale replies at the master -/

theorem accept_master (s : State) (hm : s.flag_is_master = true) :
    accept s
      = { s with
          pack_count_info := count_recv s.pack_count_info PACK_RECV_NEW
          flag_master_need_ack := false
          master_retry_times := 0 } := by
  unfold accept
  dsimp only
  rw [if_pos hm]

theorem check_pack_new_master (t : Nat) (s : State) (hm : s.flag_is_master = true)
    (hp : passes_checks s) :
    check_pack t s = { st := accept s, calls := [], ret := PACK_RECV_NEW } := by
  obtain ⟨ha, hb⟩ := check_pack_of_passes t s hp
  rw [ha, hb, if_neg]
  rw [hm]
  simp

theorem next_seqno_ne (q : Nat) (h : q < 65536) : next_seqno q ≠ q := by
  unfold next_seqno
  split_ifs <;> omega

theorem st_master_got_reply_reachable : Reachable st_master_got_reply :=
  Reachable.host _ (HostOp.recv [45, 45, 45, 62, 252, 176, 100, 102, 1, 0, 2, 0, 77, 78])
    st_master_sent_reachable

/-- C19, as stated, fails: the master `st_master_reply` gets new-valid for the
reply in its receive buffer, and a second `check_pack` on the same frame, with
no send in between, returns new-valid again and raises the new-receive counter
from 1 to 2. -/
theorem master_accepts_reply_twice :
    st_master_reply.flag_is_master = true
      ∧ (check_pack 20 st_master_reply).ret = PACK_RECV_NEW
      ∧ (check_pack 21 (check_pack 20 st_master_reply).st).ret = PACK_RECV_NEW
      ∧ (check_pack 20 st_master_reply).st.pack_count_info.recv_pack_count PACK_RECV_NEW = 1
      ∧ (check_pack 21 (check_pack 20 st_master_reply).st).st.pack_count_info.recv_pack_count
          PACK_RECV_NEW = 2 := by
  decide

/-- C19, amended: for every reachable master state, once `check_pack` has
returned new-valid for a reply, a second `check_pack` on the same frame with no
new master send in between returns new-valid again, calls no sink, adds 1
modulo `2^32` to the new-receive counter again and leaves no ack pending and
the resend times at 0: the master has no check for a repeated reply.  What its
checks exclude is a stale reply: after the next new master send the same frame
is classified as seqno-error when its source is the slave now addressed, and as
source-error otherwise. -/
theorem master_repeated_reply (s : State) (t1 t2 : Nat)
    (hr : Reachable s) (hm : s.flag_is_master = true)
    (hnew : (check_pack t1 s).ret = PACK_RECV_NEW) :
    (check_pack t2 (check_pack t1 s).st).ret = PACK_RECV_NEW
      ∧ (check_pack t2 (check_pack t1 s).st).calls = []
      ∧ (check_pack t2 (check_pack t1 s).st).st.pack_count_info.recv_pack_count PACK_RECV_NEW
          = ((check_pack t1 s).st.pack_count_info.recv_pack_count PACK_RECV_NEW + 1) % 2 ^ 32
      ∧ (check_pack t2 (check_pack t1 s).st).st.flag_master_need_ack = false
      ∧ (check_pack t2 (check_pack t1 s).st).st.master_retry_times = 0
      ∧ ∀ t d n t3,
          (master_send_pack t d n (check_pack t1 s).st).st.recv_buf = s.recv_buf
            ∧ (check_pack t3 (master_send_pack t d n (check_pack t1 s).st).st).ret
                = (if rd8 s.recv_buf OFF_SRC = d % 256 then PACK_RECV_SEQNO_ERR
                    else PACK_RECV_SRC_ERR) := by
  have hp : passes_checks s := check_pack_ok t1 s (Or.inl hnew)
  have h1 : check_pack t1 s = { st := accept s, calls := [], ret := PACK_RECV_NEW } :=
    check_pack_new_master t1 s hm hp
  have hacc := accept_master s hm
  have hm2 : (accept s).flag_is_master = true := by rw [hacc]; exact hm
  have hp2 : passes_checks (accept s) := by
    rw [hacc]
    unfold passes_checks at hp ⊢
    dsimp only
    exact hp
  have h2 : check_pack t2 (accept s)
      = { st := accept (accept s), calls := [], ret := PACK_RECV_NEW } :=
    check_pack_new_master t2 _ hm2 hp2
  rw [h1]
  dsimp only
  rw [h2]
  refine ⟨rfl, rfl, ?_, ?_, ?_, ?_⟩
  · rw [accept_master _ hm2]
    simp [count_recv]
  · rw [accept_master _ hm2]
  · rw [accept_master _ hm2]
  · intro t d n t3
    obtain ⟨p0, p1, p2, p3, p4, p5, -, -, -⟩ := hp
    rw [if_pos hm] at p5
    obtain ⟨hs1, -⟩ := reachable_synced s hr hm
    have hst : (master_send_pack t d n (accept s)).st = _ := send_pack_new_st t d n (accept s)
    rw [if_pos hm2] at hst
    have hq : rd16 (build_pack (accept s) d n) OFF_SEQNO
        = next_seqno (rd16 s.send_buf OFF_SEQNO) := by
      rw [build_pack_seqno, if_pos hm2, hacc]
    have hd : rd8 (build_pack (accept s) d n) OFF_DEST = d % 256 := by
      rw [(build_pack_framing _ d n).2.2.2.2.2, if_pos hm2]
    constructor
    · rw [hst, hacc]
    · have hne : rd16 s.recv_buf OFF_SEQNO ≠ next_seqno (rd16 s.send_buf OFF_SEQNO) := by
        rw [p5.2, hs1]
        exact (next_seqno_ne _ (rd16_lt _ _)).symm
      rw [hst]
      unfold check_pack
      dsimp only
      rw [hq, hd, hacc]
      dsimp only
      rw [if_neg (by simp [p0, p1, p2]), if_neg (not_not.mpr p3), if_neg (not_not.mpr p4),
        if_pos hm]
      by_cases hsrc : rd8 s.recv_buf OFF_SRC = d % 256
      · rw [if_neg (not_not.mpr hsrc), if_pos hne, if_pos hsrc]
        rfl
      · rw [if_pos hsrc, if_neg hsrc]
        rfl

/-- C19, amended, at the master `st_master_got_reply`. -/
theorem master_repeated_reply_witness :
    Reachable st_master_got_reply ∧ st_master_got_reply.flag_is_master = true
      ∧ (check_pack 20 st_master_got_reply).ret = PACK_RECV_NEW
      ∧ (check_pack 21 (check_pack 20 st_master_got_reply).st).ret = PACK_RECV_NEW
      ∧ (check_pack 21 (check_pack 20 st_master_got_reply).st).calls = []
      ∧ (check_pack 21 (check_pack 20 st_master_got_reply).st).st.pack_count_info.recv_pack_count
            PACK_RECV_NEW
          = ((check_pack 20 st_master_got_reply).st.pack_count_info.recv_pack_count
              PACK_RECV_NEW + 1) % 2 ^ 32
      ∧ (check_pack 21 (check_pack 20 st_master_got_reply).st).st.flag_master_need_ack = false
      ∧ (check_pack 21 (check_pack 20 st_master_got_reply).st).st.master_retry_times = 0
      ∧ ∀ t d n t3,
          (master_send_pack t d n (check_pack 20 st_master_got_reply).st).st.recv_buf
              = st_master_got_reply.recv_buf
            ∧ (check_pack t3
                (master_send_pack t d n (check_pack 20 st_master_got_reply).st).st).ret
                = (if rd8 st_master_got_reply.recv_buf OFF_SRC = d % 256
                    then PACK_RECV_SEQNO_ERR else PACK_RECV_SRC_ERR) :=
  ⟨st_master_got_reply_reachable, by decide, by decide,
    master_repeated_reply st_master_got_reply 20 21 st_master_got_reply_reachable
      (by decide) (by decide)⟩


/-! ### The length field of transmitted frames -/

theorem check_pack_tail_len_err (now : Nat) (s : State)
    (h : (check_pack_tail now s).ret = PACK_RECV_LEN_ERR) :
    rd16 s.recv_buf OFF_LEN < 1 ∨ rd16 s.recv_buf OFF_LEN > MAX_DATA_LEN := by
  unfold check_pack_tail at h
  dsimp only at h
  split_ifs at h with h1 h2 h3
  · exact h1
  · simp [reject] at h

theorem check_pack_len_err (now : Nat) (s : State)
    (h : (check_pack now s).ret = PACK_RECV_LEN_ERR) :
    rd16 s.recv_buf OFF_LEN < 1 ∨ rd16 s.recv_buf OFF_LEN > MAX_DATA_LEN := by
  rcases check_pack_tail_or_reject now s with e | ⟨r, -, -, e⟩
  · rw [e] at h
    exact check_pack_tail_len_err now s h
  · unfold check_pack at e h
    split_ifs at e h
    all_goals first
      | exact check_pack_tail_len_err now s h
      | simp [reject] at h

/-- C20, as stated, fails: `master_send_pack` with data length 0 gives the sink
a frame whose length field is 0, which a slave classifies as length-error; and
`slave_send_pack` with data length 200 builds a frame whose length field is
200, above `MAX_DATA_LEN`. -/
theorem zero_length_frame_sent :
    (master_send_pack 0 102 0 st_master_ready).calls.length = 1
      ∧ rd16 (buf_of (wire (master_send_pack 0 102 0 st_master_ready))) OFF_LEN = 0
      ∧ (check_pack 1 (pack_recv (wire (master_send_pack 0 102 0 st_master_ready))
          (slave_init_pack 102 100 9))).ret = PACK_RECV_LEN_ERR
      ∧ rd16 (buf_of (wire (slave_send_pack 0 200 st_slave_accepted))) OFF_LEN = 200 := by
  decide

/-- C20, amended: a new send of either role stores its data length argument
unchecked in the length field (modulo `2^16`); for every state and every data
length `n` with `1 ≤ n ≤ MAX_DATA_LEN`, the frame given to the sink has length
field `n`, within `[1, MAX_DATA_LEN]`, and no receiver whose buffer begins with
its bytes classifies it as length-error. -/
theorem sent_length_field (s : State) (now d n : Nat)
    (h1 : 1 ≤ n) (h2 : n ≤ MAX_DATA_LEN) :
    (∀ n', rd16 (send_pack now d n' true s).st.send_buf OFF_LEN = n' % 65536)
      ∧ (send_pack now d n true s).calls.length = 1
      ∧ rd16 (buf_of (wire (send_pack now d n true s))) OFF_LEN = n
      ∧ 1 ≤ rd16 (buf_of (wire (send_pack now d n true s))) OFF_LEN
      ∧ rd16 (buf_of (wire (send_pack now d n true s))) OFF_LEN ≤ MAX_DATA_LEN
      ∧ ∀ (t : Nat) (r : State), begins_with r.recv_buf (wire (send_pack now d n true s)) →
          (check_pack t r).ret ≠ PACK_RECV_LEN_ERR := by
  obtain ⟨e3, e4, e6, e7, e8, e10, e12d, e12, e6', e88, e100⟩ := layout
  have hw := wire_send_pack_new now d n s h2
  have hlen : rd16 (buf_of (wire (send_pack now d n true s))) OFF_LEN = n := by
    rw [hw]
    unfold rd16
    rw [rd8_buf_of_span _ _ _ (by omega), rd8_buf_of_span _ _ _ (by omega)]
    have := build_pack_len s d n
    unfold rd16 at this
    omega
  refine ⟨fun n' => ?_, ?_, hlen, by omega, by omega, ?_⟩
  · rw [send_pack_new_buf, build_pack_len]
  · rw [send_pack_new_calls]; rfl
  · intro t r hb herr
    have hb' : ∀ i, i < HEADER_SIZE + n → rd8 r.recv_buf i = rd8 (build_pack s d n) i := by
      intro i hi
      rw [hb i (by rw [hw, span_length]; exact hi), hw, span_getD _ _ _ hi]
    have hl := (recv_frame_fields r.recv_buf s d n h1 h2 hb').2.2.2.2.2.2.2.1
    have := check_pack_len_err t r herr
    omega

/-- C20, amended, at the master `st_master_ready` sending 5 bytes. -/
theorem sent_length_field_witness :
    1 ≤ 5 ∧ 5 ≤ MAX_DATA_LEN
      ∧ (∀ n', rd16 (send_pack 10 102 n' true st_master_ready).st.send_buf OFF_LEN = n' % 65536)
      ∧ (send_pack 10 102 5 true st_master_ready).calls.length = 1
      ∧ rd16 (buf_of (wire (send_pack 10 102 5 true st_master_ready))) OFF_LEN = 5
      ∧ 1 ≤ rd16 (buf_of (wire (send_pack 10 102 5 true st_master_ready))) OFF_LEN
      ∧ rd16 (buf_of (wire (send_pack 10 102 5 true st_master_ready))) OFF_LEN ≤ MAX_DATA_LEN
      ∧ ∀ (t : Nat) (r : State),
          begins_with r.recv_buf (wire (send_pack 10 102 5 true st_master_ready)) →
          (check_pack t r).ret ≠ PACK_RECV_LEN_ERR :=
  ⟨by decide, by decide, sent_length_field st_master_ready 10 102 5 (by decide) (by decide)⟩

/-! ### Layout of the bytes given to the sink -/

/-- C21, as stated, fails: `master_send_pack` with data length 65530 calls the
sink with a count of 6 and 6 bytes, not `12 + 65530`: the count is a `U16`. -/
theorem sink_span_truncated :
    (master_send_pack 10 102 65530 st_master_ready).calls.map SinkCall.count = [6]
      ∧ (master_send_pack 10 102 65530 st_master_ready).calls.map
          (fun c => c.bytes.length) = [6]
      ∧ rd16 (master_send_pack 10 102 65530 st_master_ready).st.send_buf OFF_LEN = 65530
      ∧ (master_send_pack 10 102 65530 st_master_ready).calls.map SinkCall.count
          ≠ [12 + 65530] := by
  decide

/-- C21, amended: every new send with data length `n ≤ MAX_DATA_LEN` calls the
sink exactly once, with the callback bound at initialisation and the `12 + n`
bytes from the first byte of the send buffer, laid out as: bytes 0-2 the
premble `-`, byte 3 the start code `>`, bytes 4-5 the checksum (of the send
buffer from the seqno field, count `n + CHECKSUM_HEAD_LEN`), byte 6 the
destination (the argument for a master, the master address for a slave), byte 7
the local address, bytes 8-9 the seqno, bytes 10-11 the length `n`, and from
byte 12 on the data written before the send, which the send does not alter;
16-bit fields are little-endian. -/
theorem sink_span_layout (s : State) (now d n : Nat) (hn : n ≤ MAX_DATA_LEN) :
    ∃ c, (send_pack now d n true s).calls = [c]
      ∧ c.func = s.send_bytes
      ∧ c.count = 12 + n
      ∧ c.bytes = span (send_pack now d n true s).st.send_buf (12 + n)
      ∧ c.bytes.length = 12 + n
      ∧ c.bytes.getD 0 0 = 45 ∧ c.bytes.getD 1 0 = 45 ∧ c.bytes.getD 2 0 = 45
      ∧ c.bytes.getD 3 0 = 62
      ∧ c.bytes.getD 4 0 + 256 * c.bytes.getD 5 0
          = checksum (send_pack now d n true s).st.send_buf OFF_SEQNO (n + CHECKSUM_HEAD_LEN)
      ∧ c.bytes.getD 6 0 = (if s.flag_is_master then d % 256 else s.master_addr % 256)
      ∧ c.bytes.getD 7 0 = s.local_addr % 256
      ∧ c.bytes.getD 8 0 + 256 * c.bytes.getD 9 0
          = (if s.flag_is_master then next_seqno (rd16 s.send_buf OFF_SEQNO)
              else s.slave_recv_seqno_last % 65536)
      ∧ c.bytes.getD 10 0 + 256 * c.bytes.getD 11 0 = n
      ∧ (∀ j, j < n → c.bytes.getD (12 + j) 0 = rd8 s.send_buf (12 + j))
      ∧ (∀ j, 12 ≤ j → rd8 (send_pack now d n true s).st.send_buf j = rd8 s.send_buf j) := by
  obtain ⟨e3, e4, e6, e7, e8, e10, e12d, e12, e6', e88, e100⟩ := layout
  have hn' : n % 65536 = n := by omega
  have hc : (HEADER_SIZE + n % 65536) % 65536 = 12 + n := by omega
  have hb : (send_pack now d n true s).st.send_buf = build_pack s d n :=
    send_pack_new_buf now d n s
  obtain ⟨f0, f1, f2, f3, f4, f5⟩ := build_pack_framing s d n
  have hq := build_pack_seqno s d n
  have hl := build_pack_len s d n
  have hk := build_pack_chksum s d n
  rw [hl, hn'] at hk
  have hcnt : (n + CHECKSUM_HEAD_LEN) % 65536 = n + CHECKSUM_HEAD_LEN := by omega
  rw [hcnt] at hk
  rw [hn'] at hl
  unfold rd16 at hq hl hk
  refine ⟨_, send_pack_new_calls now d n s, rfl, hc, ?_, ?_, ?_⟩
  · simp only [hc, hb]
  · simp only [hc, span_length]
  simp only [hc, hb]
  refine ⟨?_, ?_, ?_, ?_, ?_, ?_, ?_, ?_, ?_, ?_, ?_⟩
  · rw [span_getD _ _ _ (by omega)]; exact f0
  · rw [span_getD _ _ _ (by omega)]; exact f1
  · rw [span_getD _ _ _ (by omega)]; exact f2
  · rw [span_getD _ _ _ (by omega)]; exact f3
  · rw [span_getD _ _ _ (by omega), span_getD _ _ _ (by omega)]; exact hk
  · rw [span_getD _ _ _ (by omega)]; exact f5
  · rw [span_getD _ _ _ (by omega)]; exact f4
  · rw [span_getD _ _ _ (by omega), span_getD _ _ _ (by omega)]; exact hq
  · rw [span_getD _ _ _ (by omega), span_getD _ _ _ (by omega)]; exact hl
  · intro j hj
    rw [span_getD _ _ _ (by omega), build_pack_data _ _ _ _ (by omega)]
  · intro j hj
    rw [build_pack_data _ _ _ _ (by omega)]

/-- C21, amended, at the master `st_master_ready` sending 5 bytes. -/
theorem sink_span_layout_witness :
    5 ≤ MAX_DATA_LEN
      ∧ ∃ c, (send_pack 10 102 5 true st_master_ready).calls = [c]
        ∧ c.func = st_master_ready.send_bytes
        ∧ c.count = 12 + 5
        ∧ c.bytes = span (send_pack 10 102 5 true st_master_ready).st.send_buf (12 + 5)
        ∧ c.bytes.length = 12 + 5
        ∧ c.bytes.getD 0 0 = 45 ∧ c.bytes.getD 1 0 = 45 ∧ c.bytes.getD 2 0 = 45
        ∧ c.bytes.getD 3 0 = 62
        ∧ c.bytes.getD 4 0 + 256 * c.bytes.getD 5 0
            = checksum (send_pack 10 102 5 true st_master_ready).st.send_buf OFF_SEQNO
                (5 + CHECKSUM_HEAD_LEN)
        ∧ c.bytes.getD 6 0
            = (if st_master_ready.flag_is_master then 102 % 256
                else st_master_ready.master_addr % 256)
        ∧ c.bytes.getD 7 0 = st_master_ready.local_addr % 256
        ∧ c.bytes.getD 8 0 + 256 * c.bytes.getD 9 0
            = (if st_master_ready.flag_is_master
                then next_seqno (rd16 st_master_ready.send_buf OFF_SEQNO)
                else st_master_ready.slave_recv_seqno_last % 65536)
        ∧ c.bytes.getD 10 0 + 256 * c.bytes.getD 11 0 = 5
        ∧ (∀ j, j < 5 → c.bytes.getD (12 + j) 0 = rd8 st_master_ready.send_buf (12 + j))
        ∧ (∀ j, 12 ≤ j →
            rd8 (send_pack 10 102 5 true st_master_ready).st.send_buf j
              = rd8 st_master_ready.send_buf j) :=
  ⟨by decide, sink_span_layout st_master_ready 10 102 5 (by decide)⟩


/-! ### Header fields outside the checksum -/

theorem rd16_bytes (b : Buf) (i v : Nat) (h : rd16 b i = v) :
    rd8 b i = v % 256 ∧ rd8 b (i + 1) = v / 256 := by
  have h1 := rd8_lt b i
  have h2 := rd8_lt b (i + 1)
  unfold rd16 at h
  omega

theorem build_pack_tail_congr (s1 s2 : State) (d1 d2 n : Nat)
    (hb : ∀ i, OFF_SEQNO ≤ i → rd8 s1.send_buf i = rd8 s2.send_buf i)
    (hm : s1.flag_is_master = s2.flag_is_master)
    (hw : s1.slave_recv_seqno_last = s2.slave_recv_seqno_last) :
    ∀ i, OFF_SEQNO ≤ i → rd8 (build_pack s1 d1 n) i = rd8 (build_pack s2 d2 n) i := by
  obtain ⟨e3, e4, e6, e7, e8, e10, e12d, e12, -⟩ := layout
  have hq : rd16 (build_pack s1 d1 n) OFF_SEQNO = rd16 (build_pack s2 d2 n) OFF_SEQNO := by
    rw [build_pack_seqno, build_pack_seqno, hm, hw]
    have : rd16 s1.send_buf OFF_SEQNO = rd16 s2.send_buf OFF_SEQNO := by
      unfold rd16
      rw [hb _ (by omega), hb _ (by omega)]
    rw [this]
  have hl : rd16 (build_pack s1 d1 n) OFF_LEN = rd16 (build_pack s2 d2 n) OFF_LEN := by
    rw [build_pack_len, build_pack_len]
  obtain ⟨q1, q2⟩ := rd16_bytes _ _ _ hq
  obtain ⟨q3, q4⟩ := rd16_bytes (build_pack s2 d2 n) OFF_SEQNO _ rfl
  obtain ⟨l1, l2⟩ := rd16_bytes _ _ _ hl
  obtain ⟨l3, l4⟩ := rd16_bytes (build_pack s2 d2 n) OFF_LEN _ rfl
  intro i hi
  by_cases h8 : i = OFF_SEQNO
  · rw [h8, q1, q3]
  by_cases h9 : i = OFF_SEQNO + 1
  · rw [h9, q2, q4]
  by_cases h10 : i = OFF_LEN
  · rw [h10, l1, l3]
  by_cases h11 : i = OFF_LEN + 1
  · rw [h11, l2, l4]
  rw [build_pack_data _ _ _ _ (by omega), build_pack_data _ _ _ _ (by omega), hb i hi]

theorem build_pack_chksum_congr (s1 s2 : State) (d1 d2 n : Nat)
    (hb : ∀ i, OFF_SEQNO ≤ i → rd8 s1.send_buf i = rd8 s2.send_buf i)
    (hm : s1.flag_is_master = s2.flag_is_master)
    (hw : s1.slave_recv_seqno_last = s2.slave_recv_seqno_last) :
    rd16 (build_pack s1 d1 n) OFF_CHKSUM = rd16 (build_pack s2 d2 n) OFF_CHKSUM := by
  rw [build_pack_chksum, build_pack_chksum, build_pack_len, build_pack_len]
  exact checksum_congr _ _ _ _
    (fun i h1 _ => build_pack_tail_congr s1 s2 d1 d2 n hb hm hw i h1)

/-- C22: for any two buffers that agree on every byte from the seqno field on,
whatever their premble, start code, checksum field, destination and source, the
checksum from the seqno field is the same for every count, the checksum
recomputed by `check_pack` is the same, and the checksum stored by a new send
(same role, same last seqno received) is the same; in particular two master
sends that differ only in the destination store the same checksum. -/
theorem checksum_ignores_head (b1 b2 : Buf)
    (h : ∀ i, OFF_SEQNO ≤ i → rd8 b1 i = rd8 b2 i) :
    (∀ count, checksum b1 OFF_SEQNO count = checksum b2 OFF_SEQNO count)
      ∧ checksum b1 OFF_SEQNO ((rd16 b1 OFF_LEN + CHECKSUM_HEAD_LEN) % 65536)
          = checksum b2 OFF_SEQNO ((rd16 b2 OFF_LEN + CHECKSUM_HEAD_LEN) % 65536)
      ∧ (∀ (s1 s2 : State) (t1 t2 d1 d2 n : Nat),
          s1.send_buf = b1 → s2.send_buf = b2 →
          s1.flag_is_master = s2.flag_is_master →
          s1.slave_recv_seqno_last = s2.slave_recv_seqno_last →
          rd16 (send_pack t1 d1 n true s1).st.send_buf OFF_CHKSUM
            = rd16 (send_pack t2 d2 n true s2).st.send_buf OFF_CHKSUM)
      ∧ ∀ (s : State) (now d1 d2 n : Nat),
          rd16 (master_send_pack now d1 n s).st.send_buf OFF_CHKSUM
            = rd16 (master_send_pack now d2 n s).st.send_buf OFF_CHKSUM := by
  obtain ⟨e3, e4, e6, e7, e8, e10, e12d, e12, -⟩ := layout
  have hl : rd16 b1 OFF_LEN = rd16 b2 OFF_LEN := by
    unfold rd16
    rw [h _ (by omega), h _ (by omega)]
  refine ⟨fun count => checksum_congr _ _ _ _ (fun i h1 _ => h i h1), ?_, ?_, ?_⟩
  · rw [hl]
    exact checksum_congr _ _ _ _ (fun i h1 _ => h i h1)
  · intro s1 s2 t1 t2 d1 d2 n h1 h2 hm hw
    rw [send_pack_new_buf, send_pack_new_buf]
    exact build_pack_chksum_congr s1 s2 d1 d2 n (by rw [h1, h2]; exact h) hm hw
  · intro s now d1 d2 n
    show rd16 (send_pack now d1 n true s).st.send_buf OFF_CHKSUM
      = rd16 (send_pack now d2 n true s).st.send_buf OFF_CHKSUM
    rw [send_pack_new_buf, send_pack_new_buf]
    exact build_pack_chksum_congr s s d1 d2 n (fun _ _ => rfl) rfl rfl

theorem frames_agree_from_seqno (b : Buf) (p0 p1 p2 st c0 c1 dd ss : Nat) :
    ∀ i, OFF_SEQNO ≤ i →
      rd8 b i
        = rd8 (wr8 (wr8 (wr8 (wr8 (wr8 (wr8 (wr8 (wr8 b 0 p0) 1 p1) 2 p2) 3 st) 4 c0) 5 c1)
            6 dd) 7 ss) i := by
  intro i hi
  have h8 : 8 ≤ i := hi
  rw [rd8_wr8_ne _ _ _ _ (by omega), rd8_wr8_ne _ _ _ _ (by omega),
    rd8_wr8_ne _ _ _ _ (by omega), rd8_wr8_ne _ _ _ _ (by omega),
    rd8_wr8_ne _ _ _ _ (by omega), rd8_wr8_ne _ _ _ _ (by omega),
    rd8_wr8_ne _ _ _ _ (by omega), rd8_wr8_ne _ _ _ _ (by omega)]


/-- C22 at the frame of `st_slave_frame` and the same frame with another
head. -/
theorem checksum_ignores_head_witness :
    (∀ i, OFF_SEQNO ≤ i → rd8 st_slave_frame.recv_buf i = rd8 buf_other_head i)
      ∧ ((∀ count, checksum st_slave_frame.recv_buf OFF_SEQNO count
            = checksum buf_other_head OFF_SEQNO count)
        ∧ checksum st_slave_frame.recv_buf OFF_SEQNO
              ((rd16 st_slave_frame.recv_buf OFF_LEN + CHECKSUM_HEAD_LEN) % 65536)
            = checksum buf_other_head OFF_SEQNO
              ((rd16 buf_other_head OFF_LEN + CHECKSUM_HEAD_LEN) % 65536)
        ∧ (∀ (s1 s2 : State) (t1 t2 d1 d2 n : Nat),
            s1.send_buf = st_slave_frame.recv_buf → s2.send_buf = buf_other_head →
            s1.flag_is_master = s2.flag_is_master →
            s1.slave_recv_seqno_last = s2.slave_recv_seqno_last →
            rd16 (send_pack t1 d1 n true s1).st.send_buf OFF_CHKSUM
              = rd16 (send_pack t2 d2 n true s2).st.send_buf OFF_CHKSUM)
        ∧ ∀ (s : State) (now d1 d2 n : Nat),
            rd16 (master_send_pack now d1 n s).st.send_buf OFF_CHKSUM
              = rd16 (master_send_pack now d2 n s).st.send_buf OFF_CHKSUM) :=
  ⟨frames_agree_from_seqno st_slave_frame.recv_buf 1 2 3 4 5 6 7 8,
    checksum_ignores_head st_slave_frame.recv_buf buf_other_head
      (frames_agree_from_seqno st_slave_frame.recv_buf 1 2 3 4 5 6 7 8)⟩

/-! ### Seqno 0 at a fresh slave -/

/-- C25: a slave that has just been initialised and receives a frame that
passes the framing, addressing, length and checksum checks and has seqno 0 gets
resent-package (not new-valid) from `check_pack`; the call gives the sink the 12
zero bytes of the header of the send buffer, which was never built, and the
resend counter becomes 1. -/
theorem fresh_slave_seqno_zero (a m f t : Nat) (bytes : List Nat)
    (hp : passes_checks (pack_recv bytes (slave_init_pack a m f)))
    (hq : rd16 (pack_recv bytes (slave_init_pack a m f)).recv_buf OFF_SEQNO = 0) :
    (check_pack t (pack_recv bytes (slave_init_pack a m f))).ret = PACK_RECV_RETRY
      ∧ (check_pack t (pack_recv bytes (slave_init_pack a m f))).calls
          = [{ func := f, count := 12, bytes := [0, 0, 0, 0, 0, 0, 0, 0, 0, 0, 0, 0] }]
      ∧ (check_pack t (pack_recv bytes (slave_init_pack a m f))).st.pack_count_info.send_pack_count
          PACK_SEND_RETRY = 1
      ∧ (check_pack t (pack_recv bytes (slave_init_pack a m f))).st.pack_count_info.send_pack_count
          PACK_SEND_NEW = 0
      ∧ (check_pack t (pack_recv bytes (slave_init_pack a m f))).st.pack_count_info.recv_pack_count
          PACK_RECV_RETRY = 1
      ∧ (check_pack t (pack_recv bytes (slave_init_pack a m f))).st.pack_count_info.recv_pack_count
          PACK_RECV_NEW = 0
      ∧ (check_pack t (pack_recv bytes (slave_init_pack a m f))).st.slave_recv_seqno_last = 0
      ∧ (check_pack t (pack_recv bytes (slave_init_pack a m f))).st.send_buf = zero_buf := by
  obtain ⟨ha, hb⟩ := check_pack_of_passes t _ hp
  have hdup : (!(pack_recv bytes (slave_init_pack a m f)).flag_is_master) = true
      ∧ rd16 (pack_recv bytes (slave_init_pack a m f)).recv_buf OFF_SEQNO
        = (pack_recv bytes (slave_init_pack a m f)).slave_recv_seqno_last :=
    ⟨rfl, hq⟩
  rw [ha, hb, if_pos hdup, resend_pack_eq _ _ rfl]
  exact ⟨rfl, rfl, rfl, rfl, rfl, rfl, rfl, rfl⟩

/-- C25 at slave 102 with master 100 and the frame `frame_seqno_zero`. -/
theorem fresh_slave_seqno_zero_witness :
    passes_checks (pack_recv frame_seqno_zero (slave_init_pack 102 100 9))
      ∧ rd16 (pack_recv frame_seqno_zero (slave_init_pack 102 100 9)).recv_buf OFF_SEQNO = 0
      ∧ (check_pack 20 (pack_recv frame_seqno_zero (slave_init_pack 102 100 9))).ret
          = PACK_RECV_RETRY
      ∧ (check_pack 20 (pack_recv frame_seqno_zero (slave_init_pack 102 100 9))).calls
          = [{ func := 9, count := 12, bytes := [0, 0, 0, 0, 0, 0, 0, 0, 0, 0, 0, 0] }]
      ∧ (check_pack 20 (pack_recv frame_seqno_zero
          (slave_init_pack 102 100 9))).st.pack_count_info.send_pack_count PACK_SEND_RETRY = 1
      ∧ (check_pack 20 (pack_recv frame_seqno_zero
          (slave_init_pack 102 100 9))).st.pack_count_info.send_pack_count PACK_SEND_NEW = 0
      ∧ (check_pack 20 (pack_recv frame_seqno_zero
          (slave_init_pack 102 100 9))).st.pack_count_info.recv_pack_count PACK_RECV_RETRY = 1
      ∧ (check_pack 20 (pack_recv frame_seqno_zero
          (slave_init_pack 102 100 9))).st.pack_count_info.recv_pack_count PACK_RECV_NEW = 0
      ∧ (check_pack 20 (pack_recv frame_seqno_zero
          (slave_init_pack 102 100 9))).st.slave_recv_seqno_last = 0
      ∧ (check_pack 20 (pack_recv frame_seqno_zero
          (slave_init_pack 102 100 9))).st.send_buf = zero_buf :=
  ⟨by unfold passes_checks; decide, by decide,
    fresh_slave_seqno_zero 102 100 9 20 frame_seqno_zero (by unfold passes_checks; decide)
      (by decide)⟩

/-! ### Buffer accesses -/

theorem checksum_loop_reads_bound : ∀ (fuel addr count i : Nat),
    i ∈ checksum_loop_reads fuel addr count → addr ≤ i ∧ i ≤ addr + count / 2 := by
  intro fuel
  induction fuel with
  | zero => intro addr count i h; simp [checksum_loop_reads] at h
  | succ fuel ih =>
    intro addr count i h
    unfold checksum_loop_reads at h
    split_ifs at h with hc
    · rcases List.mem_cons.mp h with h | h
      · omega
      rcases List.mem_cons.mp h with h | h
      · omega
      have := ih (addr + 1) (count - 2) i h
      omega
    · simp at h

theorem checksum_reads_bound (b : Buf) (addr count i : Nat)
    (h : i ∈ checksum_reads b addr count) : addr ≤ i ∧ i ≤ addr + count / 2 := by
  unfold checksum_reads at h
  dsimp only at h
  rw [checksum_loop_eq b count addr count 0 (Nat.div_le_self _ _) (by norm_num)] at h
  rcases List.mem_append.mp h with h | h
  · exact checksum_loop_reads_bound _ _ _ _ h
  · dsimp only at h
    split_ifs at h
    · simp at h
      omega
    · simp at h

theorem check_pack_tail_reads_bound (s : State) (i : Nat)
    (h : i ∈ check_pack_tail_reads s) : i < MAX_BUF_SIZE := by
  obtain ⟨e3, e4, e6, e7, e8, e10, e12d, e12, e6', e88, e100⟩ := layout
  unfold check_pack_tail_reads at h
  dsimp only at h
  rcases List.mem_append.mp h with h | h
  · simp at h
    omega
  split_ifs at h with h1 h2 h3
  · simp at h
  · rcases List.mem_append.mp h with h | h
    · rcases List.mem_append.mp h with h | h
      · simp at h
        omega
      · have := checksum_reads_bound _ _ _ _ h
        omega
    · simp at h
  · rcases List.mem_append.mp h with h | h
    · rcases List.mem_append.mp h with h | h
      · simp at h
        omega
      · have := checksum_reads_bound _ _ _ _ h
        omega
    · simp at h
  · rcases List.mem_append.mp h with h | h
    · rcases List.mem_append.mp h with h | h
      · simp at h
        omega
      · have := checksum_reads_bound _ _ _ _ h
        omega
    · simp at h
      omega

theorem check_pack_reads_bound (s : State) (i : Nat)
    (h : i ∈ check_pack_reads s) : i < MAX_BUF_SIZE := by
  obtain ⟨e3, e4, e6, e7, e8, e10, e12d, e12, e6', e88, e100⟩ := layout
  have e0 : OFF_PREMBLE = 0 := rfl
  have ht := check_pack_tail_reads_bound s i
  unfold check_pack_reads at h
  split_ifs at h
  all_goals
    simp only [List.mem_append, List.mem_cons, List.mem_singleton, List.not_mem_nil,
      or_false, false_or] at h
    try casesm* _ ∨ _
  all_goals first
    | omega
    | exact ht (by assumption)

theorem checksum_loop_reads_cover : ∀ (fuel addr count i : Nat),
    count / 2 ≤ fuel → 2 ≤ count → addr ≤ i → i ≤ addr + count / 2 →
    i ∈ checksum_loop_reads fuel addr count := by
  intro fuel
  induction fuel with
  | zero => intro addr count i h1 h2 _ _; omega
  | succ fuel ih =>
    intro addr count i h1 h2 h3 h4
    unfold checksum_loop_reads
    rw [if_pos (by omega)]
    by_cases e0 : i = addr
    · rw [e0]; exact List.mem_cons_self _ _
    by_cases e1 : i = addr + 1
    · rw [e1]; exact List.mem_cons_of_mem _ (List.mem_cons_self _ _)
    exact List.mem_cons_of_mem _ (List.mem_cons_of_mem _
      (ih (addr + 1) (count - 2) i (by omega) (by omega) (by omega) (by omega)))

theorem checksum_reads_determine (b1 b2 : Buf) (addr count : Nat)
    (h : ∀ i ∈ checksum_reads b1 addr count, rd8 b1 i = rd8 b2 i) :
    checksum b1 addr count = checksum b2 addr count := by
  by_cases hc : 2 ≤ count
  · refine checksum_congr _ _ _ _ (fun i h1 h2 => h i ?_)
    unfold checksum_reads
    exact List.mem_append_left _
      (checksum_loop_reads_cover count addr count i (Nat.div_le_self _ _) hc h1 h2)
  · by_cases h1 : count = 1
    · subst h1
      refine checksum_congr _ _ _ _ (fun i h1 h2 => h i ?_)
      have hi : i = addr := by omega
      subst hi
      unfold checksum_reads
      dsimp only
      rw [checksum_loop_eq b1 1 i 1 0 (by omega) (by norm_num)]
      simp
    · have h0 : count = 0 := by omega
      subst h0
      rw [checksum_eq, checksum_eq]
      simp [word_sum]

/-- C23: for every state and every content of the receive buffer, every offset
that `check_pack` reads in it, the reads of `checksum` included (they start at
the seqno field with count `len + CHECKSUM_HEAD_LEN` and happen only after the
length check), is below `MAX_BUF_SIZE`; and for every new send with data length
`n ≤ MAX_DATA_LEN`, the offsets read by `checksum` in the send buffer and the
`12 + n` bytes given to the sink lie within the send buffer.  The offsets listed
for `checksum` are all it depends on. -/
theorem accesses_in_bounds (s : State) (now d n : Nat) (hn : n ≤ MAX_DATA_LEN) :
    (∀ r : State, ∀ i ∈ check_pack_reads r, i < MAX_BUF_SIZE)
      ∧ (∀ i ∈ send_pack_checksum_reads s d n, i < MAX_BUF_SIZE)
      ∧ (∀ c ∈ (send_pack now d n true s).calls,
          c.count = HEADER_SIZE + n ∧ ∀ i ∈ sink_reads c, i < MAX_BUF_SIZE)
      ∧ ∀ (b1 b2 : Buf) (addr count : Nat),
          (∀ i ∈ checksum_reads b1 addr count, rd8 b1 i = rd8 b2 i) →
          checksum b1 addr count = checksum b2 addr count := by
  obtain ⟨e3, e4, e6, e7, e8, e10, e12d, e12, e6', e88, e100⟩ := layout
  refine ⟨fun r i h => check_pack_reads_bound r i h, ?_, ?_,
    fun b1 b2 addr count h => checksum_reads_determine b1 b2 addr count h⟩
  · intro i h
    unfold send_pack_checksum_reads at h
    dsimp only at h
    rw [rd16_wr16 _ _ _ (by decide)] at h
    have := checksum_reads_bound _ _ _ _ h
    omega
  · intro c hc
    rw [send_pack_new_calls] at hc
    have hcnt : (HEADER_SIZE + n % 65536) % 65536 = HEADER_SIZE + n := by omega
    rw [List.mem_singleton] at hc
    subst hc
    dsimp only
    refine ⟨hcnt, fun i hi => ?_⟩
    unfold sink_reads at hi
    dsimp only at hi
    rw [hcnt, List.mem_range] at hi
    omega

/-- C23 at the master `st_master_ready` sending `MAX_DATA_LEN` bytes. -/
theorem accesses_in_bounds_witness :
    88 ≤ MAX_DATA_LEN
      ∧ ((∀ r : State, ∀ i ∈ check_pack_reads r, i < MAX_BUF_SIZE)
        ∧ (∀ i ∈ send_pack_checksum_reads st_master_ready 102 88, i < MAX_BUF_SIZE)
        ∧ (∀ c ∈ (send_pack 10 102 88 true st_master_ready).calls,
            c.count = HEADER_SIZE + 88 ∧ ∀ i ∈ sink_reads c, i < MAX_BUF_SIZE)
        ∧ ∀ (b1 b2 : Buf) (addr count : Nat),
            (∀ i ∈ checksum_reads b1 addr count, rd8 b1 i = rd8 b2 i) →
            checksum b1 addr count = checksum b2 addr count) :=
  ⟨by decide, accesses_in_bounds st_master_ready 10 102 88 (by decide)⟩

/-! ### Ack timer and resend times -/

theorem poll_timed_out_step (s : State) (t : Nat)
    (hm : s.flag_is_master = true) (hack : s.flag_master_need_ack = true)
    (h1 : s.master_max_ack_delay < elapsed t s.master_send_time_last) (h2 : t < 2 ^ 32) :
    (master_check_ack_delay t s).calls = [frame_call s]
      ∧ (master_check_ack_delay t s).st.flag_is_master = true
      ∧ (master_check_ack_delay t s).st.flag_master_need_ack = true
      ∧ (master_check_ack_delay t s).st.master_send_time_last = t
      ∧ (master_check_ack_delay t s).st.master_max_ack_delay = s.master_max_ack_delay
      ∧ (master_check_ack_delay t s).st.master_retry_times = (s.master_retry_times + 1) % 65536
      ∧ (master_check_ack_delay t s).ret = (s.master_retry_times + 1) % 65536 := by
  have ht : t % 2 ^ 32 = t := Nat.mod_eq_of_lt h2
  unfold elapsed at h1
  unfold master_check_ack_delay
  rw [if_pos hack, if_pos h1]
  unfold resend_pack send_pack frame_call
  dsimp only
  simp only [Bool.false_eq_true, if_false, hm, if_true, ht]
  simp

theorem poll_resends_timed_out (s : State) (t : Nat)
    (h : (master_check_ack_delay t s).calls ≠ []) :
    s.master_max_ack_delay < elapsed t s.master_send_time_last := by
  unfold master_check_ack_delay at h
  unfold elapsed
  split_ifs at h with ha hb
  · exact hb
  · exact absurd rfl h
  · exact absurd rfl h

theorem poll_within_delay (s : State) (t : Nat)
    (h : elapsed t s.master_send_time_last ≤ s.master_max_ack_delay) :
    master_check_ack_delay t s = { st := s, calls := [], ret := s.master_retry_times } := by
  have hle : ¬ ((t % 2 ^ 32 + 2 ^ 32 - s.master_send_time_last % 2 ^ 32) % 2 ^ 32
      > s.master_max_ack_delay) := by
    unfold elapsed at h
    omega
  unfold master_check_ack_delay
  rw [if_neg hle]
  split_ifs <;> rfl

theorem poll_run_timed_out (ts : List Nat) : ∀ (s : State),
    s.flag_is_master = true → s.flag_master_need_ack = true →
    s.master_retry_times < 65536 →
    timed_out s.master_send_time_last s.master_max_ack_delay ts →
    (poll_run s ts).flag_is_master = true
      ∧ (poll_run s ts).flag_master_need_ack = true
      ∧ (poll_run s ts).master_max_ack_delay = s.master_max_ack_delay
      ∧ (poll_run s ts).master_retry_times = (s.master_retry_times + ts.length) % 65536 := by
  induction ts with
  | nil =>
    intro s hm hack hr _
    refine ⟨hm, hack, rfl, ?_⟩
    show s.master_retry_times = (s.master_retry_times + 0) % 65536
    omega
  | cons t ts ih =>
    intro s hm hack hr hto
    obtain ⟨h2, h1, h3⟩ := hto
    obtain ⟨-, q1, q2, q3, q4, q5, -⟩ := poll_timed_out_step s t hm hack h1 h2
    rw [← q3, ← q4] at h3
    obtain ⟨r1, r2, r3, r4⟩ := ih _ q1 q2 (by rw [q5]; omega) h3
    refine ⟨r1, r2, r3.trans q4, ?_⟩
    show (poll_run (master_check_ack_delay t s).st ts).master_retry_times = _
    rw [r4, q5, List.length_cons]
    omega

theorem master_send_pack_timer (s : State) (t d n : Nat)
    (hm : s.flag_is_master = true) :
    (master_send_pack t d n s).st.flag_master_need_ack = true
      ∧ (master_send_pack t d n s).st.master_send_time_last = t % 2 ^ 32
      ∧ (master_send_pack t d n s).st.master_max_ack_delay = s.master_max_ack_delay := by
  unfold master_send_pack send_pack
  dsimp only
  simp only [if_true, hm]
  simp

theorem send_pack_keeps_retry (s : State) (t d n : Nat) (b : Bool) :
    (send_pack t d n b s).st.master_retry_times = s.master_retry_times := by
  unfold send_pack
  dsimp only
  cases b <;> split_ifs <;> rfl

theorem check_pack_retry (s : State) (now : Nat) :
    (check_pack now s).st.master_retry_times = s.master_retry_times
      ∨ ((check_pack now s).ret = PACK_RECV_NEW
          ∧ (check_pack now s).st.master_retry_times = 0) := by
  rcases check_pack_tail_or_reject now s with h | ⟨r, -, -, h⟩
  · rw [h]
    unfold check_pack_tail
    dsimp only
    split_ifs with a b c
    · exact Or.inl rfl
    · exact Or.inl rfl
    · left
      exact send_pack_keeps_retry _ now 0 0 false
    · unfold accept
      dsimp only
      split_ifs
      · exact Or.inr ⟨rfl, rfl⟩
      · exact Or.inl rfl
  · rw [h]
    exact Or.inl rfl

theorem master_check_ack_delay_retry (s : State) (now : Nat) :
    (master_check_ack_delay now s).st.master_retry_times = s.master_retry_times
      ∨ (master_check_ack_delay now s).st.master_retry_times
          = (s.master_retry_times + 1) % 65536 := by
  unfold master_check_ack_delay
  split_ifs
  · right
    exact send_pack_keeps_retry _ now 0 0 false
  · left; rfl
  · left; rfl

/-- C24, as stated, fails at the top of the 16-bit resend times: two successive
timed-out polls (at times 16 and 22, each more than the max ack delay 5 after the
send or resend before it) of a master with 65534 resend times both resend, and
the resend times end at 0, not at 65534 + 2. -/
theorem retry_wraps_in_polls :
    (st_master_waiting 65534).flag_is_master = true
      ∧ (st_master_waiting 65534).flag_master_need_ack = true
      ∧ (st_master_waiting 65534).master_send_time_last = 10
      ∧ (st_master_waiting 65534).master_max_ack_delay = 5
      ∧ (st_master_waiting 65534).master_retry_times = 65534
      ∧ (master_check_ack_delay 16 (st_master_waiting 65534)).calls.length = 1
      ∧ (master_check_ack_delay 22
          (master_check_ack_delay 16 (st_master_waiting 65534)).st).calls.length = 1
      ∧ (poll_run (st_master_waiting 65534) [16, 22]).master_retry_times = 0
      ∧ (poll_run (st_master_waiting 65534) [16, 22]).master_retry_times ≠ 65534 + 2 := by
  decide

/-- C24, amended: for every master state with an ack pending and max ack delay
`D`, if `master_check_ack_delay` resends at the clock reading `t` then afterwards
the ack is still pending and the last send time is `t`, so that a following
`master_check_ack_delay` at a time `t2` with at most `D` elapsed since `t`
calls no sink, changes no state and returns the resend times as they are; and
`k` successive timed-out polls add `k` modulo `2^16` to the resend times. -/
theorem timeout_resend_restarts_timer (s : State) (t t2 : Nat) (ts : List Nat)
    (hm : s.flag_is_master = true) (hack : s.flag_master_need_ack = true)
    (hr : s.master_retry_times < 65536) (ht : t < 2 ^ 32) :
    ((master_check_ack_delay t s).calls ≠ [] →
        (master_check_ack_delay t s).st.flag_master_need_ack = true
          ∧ (master_check_ack_delay t s).st.master_send_time_last = t
          ∧ (elapsed t2 t ≤ s.master_max_ack_delay →
              master_check_ack_delay t2 (master_check_ack_delay t s).st
                = { st := (master_check_ack_delay t s).st, calls := []
                    ret := (master_check_ack_delay t s).st.master_retry_times }))
      ∧ (timed_out s.master_send_time_last s.master_max_ack_delay ts →
          (poll_run s ts).master_retry_times = (s.master_retry_times + ts.length) % 65536) := by
  constructor
  · intro hc
    obtain ⟨-, -, q2, q3, q4, -, -⟩ :=
      poll_timed_out_step s t hm hack (poll_resends_timed_out s t hc) ht
    refine ⟨q2, q3, fun h => ?_⟩
    apply poll_within_delay
    rw [q3, q4]
    exact h
  · intro hto
    exact (poll_run_timed_out ts s hm hack hr hto).2.2.2

/-- C24, amended, at a master with last send time 10 and max ack delay 5: polled
at 16 it resends, a poll at 21 does nothing, and the polls at 16 and 22 add 2 to
the resend times. -/
theorem timeout_resend_restarts_timer_witness :
    (st_master_waiting 2).flag_is_master = true
      ∧ (st_master_waiting 2).flag_master_need_ack = true
      ∧ (st_master_waiting 2).master_retry_times < 65536
      ∧ 16 < 2 ^ 32
      ∧ (master_check_ack_delay 16 (st_master_waiting 2)).calls ≠ []
      ∧ elapsed 21 16 ≤ (st_master_waiting 2).master_max_ack_delay
      ∧ timed_out (st_master_waiting 2).master_send_time_last
          (st_master_waiting 2).master_max_ack_delay [16, 22]
      ∧ (master_check_ack_delay 16 (st_master_waiting 2)).st.flag_master_need_ack = true
      ∧ (master_check_ack_delay 16 (st_master_waiting 2)).st.master_send_time_last = 16
      ∧ master_check_ack_delay 21 (master_check_ack_delay 16 (st_master_waiting 2)).st
          = { st := (master_check_ack_delay 16 (st_master_waiting 2)).st, calls := []
              ret := (master_check_ack_delay 16 (st_master_waiting 2)).st.master_retry_times }
      ∧ (poll_run (st_master_waiting 2) [16, 22]).master_retry_times
          = ((st_master_waiting 2).master_retry_times + [16, 22].length) % 65536 :=
  have h := timeout_resend_restarts_timer (st_master_waiting 2) 16 21 [16, 22] rfl rfl
    (by decide) (by decide)
  have hc : (master_check_ack_delay 16 (st_master_waiting 2)).calls ≠ [] := by decide
  have hle : elapsed 21 16 ≤ (st_master_waiting 2).master_max_ack_delay := by decide
  have hto : timed_out (st_master_waiting 2).master_send_time_last
      (st_master_waiting 2).master_max_ack_delay [16, 22] :=
    ⟨by decide, by decide, by decide, by decide, trivial⟩
  ⟨rfl, rfl, by decide, by decide, hc, hle, hto, (h.1 hc).1, (h.1 hc).2.1,
    (h.1 hc).2.2 hle, h.2 hto⟩

/-- C26, as stated, fails at the top of the 16-bit resend times: a timed-out
poll of a master with 65535 resend times brings them to 0, with no `check_pack`
and no initialisation, and a new send at time 17 followed by an immediate poll
returns 0. -/
theorem retry_zero_by_wrap :
    (st_master_waiting 65535).flag_is_master = true
      ∧ (st_master_waiting 65535).flag_master_need_ack = true
      ∧ (st_master_waiting 65535).master_retry_times = 65535
      ∧ (api_step (st_master_waiting 65535) (ApiOp.ack_delay 16)).master_retry_times = 0
      ∧ (master_check_ack_delay 17
          (master_send_pack 17 102 5
            (api_step (st_master_waiting 65535) (ApiOp.ack_delay 16))).st).ret = 0 := by
  decide

/-- C26, amended: for every state, with or without an ack pending,
`master_send_pack` leaves the resend times as they are; after an operation of
the interface the resend times are unchanged, or 0 after a `check_pack` that
returns new-valid, or one more modulo `2^16` after `master_check_ack_delay`; and
after `k` successive timed-out polls of a master with an ack pending, a new send
at the clock reading `t` and a `master_check_ack_delay` at a time `t2` with at
most the max ack delay elapsed since `t`, that call makes no sink call and
returns the resend times of the start plus `k` modulo `2^16`, which is `k` when
they were 0 and `k < 2^16`. -/
theorem new_send_keeps_retry (s : State) (t d n t2 : Nat) (ts : List Nat) :
    (master_send_pack t d n s).st.master_retry_times = s.master_retry_times
      ∧ (∀ op : ApiOp,
          (api_step s op).master_retry_times = s.master_retry_times
            ∨ (∃ now, op = ApiOp.check now ∧ (check_pack now s).ret = PACK_RECV_NEW
                ∧ (api_step s op).master_retry_times = 0)
            ∨ (∃ now, op = ApiOp.ack_delay now
                ∧ (api_step s op).master_retry_times = (s.master_retry_times + 1) % 65536))
      ∧ (s.flag_is_master = true → s.flag_master_need_ack = true →
          s.master_retry_times < 65536 → t < 2 ^ 32 →
          timed_out s.master_send_time_last s.master_max_ack_delay ts →
          elapsed t2 t ≤ s.master_max_ack_delay →
          (master_check_ack_delay t2 (master_send_pack t d n (poll_run s ts)).st).calls = []
            ∧ (master_check_ack_delay t2 (master_send_pack t d n (poll_run s ts)).st).ret
                = (s.master_retry_times + ts.length) % 65536
            ∧ (s.master_retry_times = 0 → ts.length < 65536 →
                (master_check_ack_delay t2 (master_send_pack t d n (poll_run s ts)).st).ret
                  = ts.length)) := by
  refine ⟨send_pack_keeps_retry s t d n true, ?_, ?_⟩
  · intro op
    cases op with
    | master_send now dest_addr data_len =>
      exact Or.inl (send_pack_keeps_retry s now dest_addr data_len true)
    | slave_send now data_len => exact Or.inl (send_pack_keeps_retry s now 0 data_len true)
    | check now =>
      rcases check_pack_retry s now with h | ⟨h, h0⟩
      · exact Or.inl h
      · exact Or.inr (Or.inl ⟨now, rfl, h, h0⟩)
    | ack_delay now =>
      rcases master_check_ack_delay_retry s now with h | h
      · exact Or.inl h
      · exact Or.inr (Or.inr ⟨now, rfl, h⟩)
    | get_addr => exact Or.inl rfl
    | get_count => exact Or.inl rfl
  · intro hm hack hr ht hto h2
    obtain ⟨r1, -, r3, r4⟩ := poll_run_timed_out ts s hm hack hr hto
    obtain ⟨-, p2, p3⟩ := master_send_pack_timer (poll_run s ts) t d n r1
    have p4 : (master_send_pack t d n (poll_run s ts)).st.master_retry_times
        = (poll_run s ts).master_retry_times := send_pack_keeps_retry _ t d n true
    have hw : master_check_ack_delay t2 (master_send_pack t d n (poll_run s ts)).st
        = { st := (master_send_pack t d n (poll_run s ts)).st, calls := []
            ret := (master_send_pack t d n (poll_run s ts)).st.master_retry_times } := by
      apply poll_within_delay
      rw [p2, p3, r3, Nat.mod_eq_of_lt ht]
      exact h2
    have hret : (master_check_ack_delay t2 (master_send_pack t d n (poll_run s ts)).st).ret
        = (s.master_retry_times + ts.length) % 65536 := by
      rw [hw]
      show (master_send_pack t d n (poll_run s ts)).st.master_retry_times = _
      rw [p4, r4]
    refine ⟨?_, hret, ?_⟩
    · rw [hw]
    · intro h0 hk
      rw [hret, h0, Nat.zero_add, Nat.mod_eq_of_lt hk]

/-- C26, amended, at two masters.  The master `st_master_ready`, with no ack
pending, keeps its resend times in a new send.  The master `st_master_waiting 0`
(0 resend times, last send time 10, max ack delay 5, ack pending) keeps them in a
new send, and after its timed-out polls at 16 and 22, a new send at 30 and a poll
at 33, the poll makes no sink call and returns 2. -/
theorem new_send_keeps_retry_witness :
    st_master_ready.flag_master_need_ack = false
      ∧ (master_send_pack 30 102 5 st_master_ready).st.master_retry_times
          = st_master_ready.master_retry_times
      ∧ (st_master_waiting 0).flag_is_master = true
      ∧ (st_master_waiting 0).flag_master_need_ack = true
      ∧ (st_master_waiting 0).master_retry_times < 65536
      ∧ 30 < 2 ^ 32
      ∧ timed_out (st_master_waiting 0).master_send_time_last
          (st_master_waiting 0).master_max_ack_delay [16, 22]
      ∧ elapsed 33 30 ≤ (st_master_waiting 0).master_max_ack_delay
      ∧ (st_master_waiting 0).master_retry_times = 0
      ∧ [16, 22].length < 65536
      ∧ (master_send_pack 30 102 5 (st_master_waiting 0)).st.master_retry_times
          = (st_master_waiting 0).master_retry_times
      ∧ (master_check_ack_delay 33
          (master_send_pack 30 102 5 (poll_run (st_master_waiting 0) [16, 22])).st).calls = []
      ∧ (master_check_ack_delay 33
          (master_send_pack 30 102 5 (poll_run (st_master_waiting 0) [16, 22])).st).ret
          = [16, 22].length :=
  have hto : timed_out (st_master_waiting 0).master_send_time_last
      (st_master_waiting 0).master_max_ack_delay [16, 22] :=
    ⟨by decide, by decide, by decide, by decide, trivial⟩
  have hle : elapsed 33 30 ≤ (st_master_waiting 0).master_max_ack_delay := by decide
  have h := new_send_keeps_retry (st_master_waiting 0) 30 102 5 33 [16, 22]
  have h3 := h.2.2 rfl rfl (by decide) (by decide) hto hle
  ⟨rfl, (new_send_keeps_retry st_master_ready 30 102 5 33 []).1, rfl, rfl, by decide,
    by decide, hto, hle, rfl, by decide, h.1, h3.1, h3.2.2 rfl (by decide)⟩

end ETP
